import Mathlib

/-!
# Eluna hook dispatch and method tables

A shallow embedding of the creature and vehicle hook call sites
(`hooks/CreatureHooks.cpp`, `hooks/VehicleHooks.cpp`), of the VMangos Item
method table and Item thunks (`methods/VMangos/ItemMethods.h`) and of the
threat-list thunks of the TrinityCore Creature
(`methods/TrinityCore/CreatureMethods.h`).

The Lua stack is a list of values, bottom first: Lua index `i` is the list
position `i - 1`.  Script handlers are functions from the argument list to
either a list of returned values or a runtime error (`none`).  The engine
keeps a log of every handler invocation so that the order and the arguments
of the calls can be stated.
-/

namespace Eluna

/-! ## Lua values and the stack -/

/-- A Lua value as seen through the C API calls used by the hooks.  Strings,
tables and non-integral numbers are not represented. -/
inductive LuaValue where
  | nil
  | boolean (b : Bool)
  | number (n : Int)
  | userdata (id : Nat)
  deriving DecidableEq, Repr

/-- A script handler: the returned values, or `none` for a runtime error. -/
abbrev LuaFunction := List LuaValue → Option (List LuaValue)

/-- One logged handler invocation: the function reference, the arguments it
was called with, and the values left on the stack for the caller. -/
structure CallRecord where
  fn : Nat
  args : List LuaValue
  results : List LuaValue
  deriving DecidableEq, Repr

/-- Events of `Hooks::CreatureEvents` used by `CreatureHooks.cpp`. -/
inductive CreatureEvents where
  | CREATURE_EVENT_ON_ENTER_COMBAT
  | CREATURE_EVENT_ON_LEAVE_COMBAT
  | CREATURE_EVENT_ON_TARGET_DIED
  | CREATURE_EVENT_ON_DIED
  | CREATURE_EVENT_ON_SPAWN
  | CREATURE_EVENT_ON_REACH_WP
  | CREATURE_EVENT_ON_AIUPDATE
  | CREATURE_EVENT_ON_RECEIVE_EMOTE
  | CREATURE_EVENT_ON_DAMAGE_TAKEN
  | CREATURE_EVENT_ON_PRE_COMBAT
  | CREATURE_EVENT_ON_OWNER_ATTACKED
  | CREATURE_EVENT_ON_OWNER_ATTACKED_AT
  | CREATURE_EVENT_ON_HIT_BY_SPELL
  | CREATURE_EVENT_ON_SPELL_HIT_TARGET
  | CREATURE_EVENT_ON_JUST_SUMMONED_CREATURE
  | CREATURE_EVENT_ON_SUMMONED_CREATURE_DESPAWN
  | CREATURE_EVENT_ON_SUMMONED_CREATURE_DIED
  | CREATURE_EVENT_ON_SUMMONED
  | CREATURE_EVENT_ON_RESET
  | CREATURE_EVENT_ON_REACH_HOME
  | CREATURE_EVENT_ON_CORPSE_REMOVED
  | CREATURE_EVENT_ON_MOVE_IN_LOS
  | CREATURE_EVENT_ON_DUMMY_EFFECT
  | CREATURE_EVENT_ON_QUEST_ACCEPT
  | CREATURE_EVENT_ON_QUEST_REWARD
  | CREATURE_EVENT_ON_DIALOG_STATUS
  | CREATURE_EVENT_ON_ADD
  | CREATURE_EVENT_ON_REMOVE
  deriving DecidableEq, Repr

/-- Events of `Hooks::VehicleEvents` used by `VehicleHooks.cpp`. -/
inductive VehicleEvents where
  | VEHICLE_EVENT_ON_INSTALL
  | VEHICLE_EVENT_ON_UNINSTALL
  | VEHICLE_EVENT_ON_INSTALL_ACCESSORY
  | VEHICLE_EVENT_ON_ADD_PASSENGER
  | VEHICLE_EVENT_ON_REMOVE_PASSENGER
  deriving DecidableEq, Repr

/-- Key of an event-only registration. -/
structure EventKey (T : Type) where
  event_id : T
  deriving DecidableEq, Repr

/-- Key of a registration on a template (creature entry). -/
structure EntryKey (T : Type) where
  event_id : T
  entry : Nat
  deriving DecidableEq, Repr

/-- Key of a registration on one object (guid and instance id). -/
structure UniqueObjectKey (T : Type) where
  event_id : T
  guid : Nat
  instance_id : Nat
  deriving DecidableEq, Repr

/-- Modelled from the spec: `BindingMap<K>` (BindingMap.h is outside src/) maps
a key to the ordered sequence of its bindings, here the function references
in registration order.  A key without bindings maps to the empty list. -/
abbrev BindingMap (K : Type) := K → List Nat

/-- Modelled from the spec: `BindingMap::HasBindingsFor`, the existence check
of a key (BindingMap.h is outside src/). -/
def BindingMap.HasBindingsFor {K : Type} (m : BindingMap K) (key : K) : Bool :=
  !(m key).isEmpty

/-- The part of a `Creature` the hooks read: entry, guid and instance id. -/
structure Creature where
  entry : Nat
  guid : Nat
  instanceId : Nat
  deriving DecidableEq, Repr

end Eluna

/-- The engine state read and written by the hooks: the Lua stack `L`
(bottom first), the count of pushed hook arguments, the handler references
set up for the running dispatch, the script functions by reference, the
binding maps, and the log of handler invocations and of reported errors. -/
structure Eluna where
  L : List Eluna.LuaValue
  push_counter : Nat
  functions : List Nat
  registry : Nat → Eluna.LuaFunction
  CreatureEventBindings : Eluna.BindingMap (Eluna.EntryKey Eluna.CreatureEvents)
  CreatureUniqueBindings : Eluna.BindingMap (Eluna.UniqueObjectKey Eluna.CreatureEvents)
  VehicleEventBindings : Eluna.BindingMap (Eluna.EventKey Eluna.VehicleEvents)
  calls : List Eluna.CallRecord
  errors : Nat

namespace Eluna

/-! ## Lua C API on the modelled stack -/

/-- Value at a 1-based stack index; an index outside the stack reads as nil. -/
def lua_index (E : Eluna) : Nat → LuaValue
  | 0 => LuaValue.nil
  | i + 1 => (E.L.get? i).getD LuaValue.nil

def lua_gettop (E : Eluna) : Nat := E.L.length

/-- The type test behind `lua_isboolean`. -/
def LuaValue.isboolean : LuaValue → Bool
  | LuaValue.boolean _ => true
  | _ => false

/-- The truth value behind `lua_toboolean`: only nil and false are false. -/
def LuaValue.toboolean : LuaValue → Bool
  | LuaValue.nil => false
  | LuaValue.boolean b => b
  | _ => true

/-- The type test behind `lua_isnumber`. -/
def LuaValue.isnumber : LuaValue → Bool
  | LuaValue.number _ => true
  | _ => false

/-- A number read as the host's 32-bit unsigned scalar. -/
def LuaValue.touint32 : LuaValue → Nat
  | LuaValue.number n => (n % 2 ^ 32).toNat
  | _ => 0

def lua_isboolean (E : Eluna) (idx : Nat) : Bool := (lua_index E idx).isboolean

def lua_toboolean (E : Eluna) (idx : Nat) : Bool := (lua_index E idx).toboolean

def lua_isnumber (E : Eluna) (idx : Nat) : Bool := (lua_index E idx).isnumber

def lua_pop (E : Eluna) (n : Nat) : Eluna :=
  { E with L := E.L.take (E.L.length - n) }

/-! ## Engine helpers declared outside the hook files -/

/-- Modelled from the spec: `CHECKVAL<uint32>` (LuaEngine.h is outside src/) as
the hooks call it, on a handler result that `lua_isnumber` has accepted: the
number at the stack index as the host's 32-bit unsigned scalar. -/
def CHECKVAL_uint32_number (E : Eluna) (idx : Nat) : Nat := (lua_index E idx).touint32

/-- Modelled from the spec: `HookPush` (HookHelpers.h is outside src/) pushes
one payload value and counts it. -/
def HookPush (E : Eluna) (v : LuaValue) : Eluna :=
  { E with L := E.L ++ [v], push_counter := E.push_counter + 1 }

/-- Payload value of an object pointer; a null pointer is pushed as nil. -/
def pushObject : Option Nat → LuaValue
  | none => LuaValue.nil
  | some id => LuaValue.userdata id

/-- Payload value of the creature the hook is raised for. -/
def pushCreature (c : Creature) : LuaValue := LuaValue.userdata c.guid

/-- Modelled from the spec: `SetupStack` (LuaEngine.cpp is outside src/) takes
the combined handler list, the entry-level snapshot followed by the
unique-level snapshot, and returns the number of handlers. -/
def SetupStack {K1 K2 : Type} (E : Eluna) (bindings1 : BindingMap K1) (bindings2 : BindingMap K2)
    (key1 : K1) (key2 : K2) (_number_of_arguments : Nat) : Eluna × Nat :=
  ({ E with functions := bindings1 key1 ++ bindings2 key2, push_counter := 0 },
    (bindings1 key1 ++ bindings2 key2).length)

/-- Values a call leaves for its caller: the returned values adjusted to the
requested count (missing ones are nil), all nil when the handler failed. -/
def callResults (f : LuaFunction) (args : List LuaValue) (number_of_results : Nat) :
    List LuaValue :=
  match f args with
  | some rs => (rs ++ List.replicate number_of_results LuaValue.nil).take number_of_results
  | none => List.replicate number_of_results LuaValue.nil

/-- Modelled from the spec: the protected call (LuaEngine.cpp is outside src/).
A handler failure is caught and logged, the handler counts as having returned
no value, and the results are pushed. -/
def ExecuteCall (E : Eluna) (fn : Nat) (args : List LuaValue) (number_of_results : Nat) : Eluna :=
  { E with
    L := E.L ++ callResults (E.registry fn) args number_of_results
    calls := E.calls ++ [⟨fn, args, callResults (E.registry fn) args number_of_results⟩]
    errors := if (E.registry fn args).isSome then E.errors else E.errors + 1 }

/-- Modelled from the spec: `CallOneFunction` (LuaEngine.cpp is outside src/)
invokes the next handler of the combined list, the one with
`number_of_functions` handlers still to run, on a copy of the arguments on top
of the stack, and returns the stack index of its first result. -/
def CallOneFunction (E : Eluna) (number_of_functions number_of_arguments number_of_results : Nat) :
    Eluna × Nat :=
  (ExecuteCall E (E.functions.getD (E.functions.length - number_of_functions) 0)
      (E.L.drop (lua_gettop E - number_of_arguments)) number_of_results,
    lua_gettop E + 1)

/-- Modelled from the spec: `ReplaceArgument` (LuaEngine.cpp is outside src/)
overwrites the pushed argument at a stack index with a new scalar. -/
def ReplaceArgument (E : Eluna) (value : Nat) (index : Nat) : Eluna :=
  { E with L := E.L.set (index - 1) (LuaValue.number value) }

/-- Modelled from the spec: `CleanUpStack` (LuaEngine.cpp is outside src/)
removes the pushed arguments once the handlers have run. -/
def CleanUpStack (E : Eluna) (number_of_arguments : Nat) : Eluna :=
  { lua_pop E number_of_arguments with functions := [] }

/-! ## CreatureHooks.cpp -/

/-- The gate of `START_HOOK` and `START_HOOK_WITH_RETVAL`: `none` when the
hook returns at once, otherwise the entry-level and unique-level keys. -/
def START_HOOK (E : Eluna) (EVENT : CreatureEvents) (CREATURE : Creature) :
    Option (EntryKey CreatureEvents × UniqueObjectKey CreatureEvents) :=
  if !E.CreatureEventBindings.HasBindingsFor ⟨EVENT, CREATURE.entry⟩ then
    if !E.CreatureUniqueBindings.HasBindingsFor ⟨EVENT, CREATURE.guid, CREATURE.instanceId⟩ then
      none
    else some (⟨EVENT, CREATURE.entry⟩, ⟨EVENT, CREATURE.guid, CREATURE.instanceId⟩)
  else some (⟨EVENT, CREATURE.entry⟩, ⟨EVENT, CREATURE.guid, CREATURE.instanceId⟩)

/-- The `while (n > 0)` loop of `Eluna::DamageTaken`. -/
def DamageTaken_loop : Nat → Eluna → Nat → Bool → Nat → Eluna × Bool × Nat
  | 0, E, _, result, damage => (E, result, damage)
  | n + 1, E, damageIndex, result, damage =>
    let c := CallOneFunction E (n + 1) 3 2
    let r := c.2
    let result1 := if lua_isboolean c.1 (r + 0) && lua_toboolean c.1 (r + 0) then true else result
    if lua_isnumber c.1 (r + 1) then
      DamageTaken_loop n
        (lua_pop (ReplaceArgument c.1 (CHECKVAL_uint32_number c.1 (r + 1)) damageIndex) 2)
        damageIndex result1 (CHECKVAL_uint32_number c.1 (r + 1))
    else
      DamageTaken_loop n (lua_pop c.1 2) damageIndex result1 damage

/-- The hook `Eluna::DamageTaken(Creature* me, Unit* attacker, uint32& damage)`:
the state after, the returned boolean and the value left in `damage`. -/
def DamageTaken (E : Eluna) (me : Creature) (attacker : Option Nat) (damage : Nat) :
    Eluna × Bool × Nat :=
  match START_HOOK E CreatureEvents.CREATURE_EVENT_ON_DAMAGE_TAKEN me with
  | none => (E, false, damage)
  | some (entry_key, unique_key) =>
    let E1 := HookPush E (pushCreature me)
    let E2 := HookPush E1 (pushObject attacker)
    let E3 := HookPush E2 (LuaValue.number damage)
    let damageIndex := lua_gettop E3
    let s := SetupStack E3 E3.CreatureEventBindings E3.CreatureUniqueBindings entry_key unique_key 3
    let out := DamageTaken_loop s.2 s.1 damageIndex false damage
    (CleanUpStack out.1 3, out.2.1, out.2.2)

/-- The `while (n > 0)` loop of `Eluna::CorpseRemoved`. -/
def CorpseRemoved_loop : Nat → Eluna → Nat → Bool → Nat → Eluna × Bool × Nat
  | 0, E, _, result, respawnDelay => (E, result, respawnDelay)
  | n + 1, E, respawnDelayIndex, result, respawnDelay =>
    let c := CallOneFunction E (n + 1) 2 2
    let r := c.2
    let result1 := if lua_isboolean c.1 (r + 0) && lua_toboolean c.1 (r + 0) then true else result
    if lua_isnumber c.1 (r + 1) then
      CorpseRemoved_loop n
        (lua_pop (ReplaceArgument c.1 (CHECKVAL_uint32_number c.1 (r + 1)) respawnDelayIndex) 2)
        respawnDelayIndex result1 (CHECKVAL_uint32_number c.1 (r + 1))
    else
      CorpseRemoved_loop n (lua_pop c.1 2) respawnDelayIndex result1 respawnDelay

/-- The hook `Eluna::CorpseRemoved(Creature* me, uint32& respawnDelay)`: the
state after, the returned boolean and the value left in `respawnDelay`. -/
def CorpseRemoved (E : Eluna) (me : Creature) (respawnDelay : Nat) : Eluna × Bool × Nat :=
  match START_HOOK E CreatureEvents.CREATURE_EVENT_ON_CORPSE_REMOVED me with
  | none => (E, false, respawnDelay)
  | some (entry_key, unique_key) =>
    let E1 := HookPush E (pushCreature me)
    let E2 := HookPush E1 (LuaValue.number respawnDelay)
    let respawnDelayIndex := lua_gettop E2
    let s := SetupStack E2 E2.CreatureEventBindings E2.CreatureUniqueBindings entry_key unique_key 2
    let out := CorpseRemoved_loop s.2 s.1 respawnDelayIndex false respawnDelay
    (CleanUpStack out.1 2, out.2.1, out.2.2)

/-- Loop of `CallAllFunctions`: every handler is called, nothing is read back. -/
def CallAllFunctions_loop : Nat → Eluna → Nat → Eluna
  | 0, E, _ => E
  | n + 1, E, number_of_arguments =>
    CallAllFunctions_loop n (CallOneFunction E (n + 1) number_of_arguments 0).1 number_of_arguments

/-- Modelled from the spec: `CallAllFunctions` with two maps (LuaEngine.cpp is
outside src/), the Void policy: invoke every handler of the combined list on
the pushed payload, ignore what they return, no short-circuit. -/
def CallAllFunctions {K1 K2 : Type} (E : Eluna) (bindings1 : BindingMap K1)
    (bindings2 : BindingMap K2) (key1 : K1) (key2 : K2) : Eluna :=
  let number_of_arguments := E.push_counter
  let s := SetupStack E bindings1 bindings2 key1 key2 number_of_arguments
  CleanUpStack (CallAllFunctions_loop s.2 s.1 number_of_arguments) number_of_arguments

/-- Modelled from the spec: `CallAllFunctions` with one map (LuaEngine.cpp is
outside src/): the same dispatch with no second map. -/
def CallAllFunctions1 {K : Type} (E : Eluna) (bindings : BindingMap K) (key : K) : Eluna :=
  CallAllFunctions E bindings (fun (_ : Unit) => []) key ()

/-- Loop of `CallAllFunctionsBool`: every handler is called and a first result
that is the boolean true sets the overall result. -/
def CallAllFunctionsBool_loop : Nat → Eluna → Nat → Bool → Eluna × Bool
  | 0, E, _, result => (E, result)
  | n + 1, E, number_of_arguments, result =>
    let c := CallOneFunction E (n + 1) number_of_arguments 1
    let r := c.2
    let result1 := if lua_isboolean c.1 r && lua_toboolean c.1 r then true else result
    CallAllFunctionsBool_loop n (lua_pop c.1 1) number_of_arguments result1

/-- Modelled from the spec: `CallAllFunctionsBool` (LuaEngine.cpp is outside
src/), the Boolean-OR policy: invoke every handler of the combined list, no
short-circuit; the result is the OR of each handler's first returned boolean,
false when no handler returns a value. -/
def CallAllFunctionsBool {K1 K2 : Type} (E : Eluna) (bindings1 : BindingMap K1)
    (bindings2 : BindingMap K2) (key1 : K1) (key2 : K2) : Eluna × Bool :=
  let number_of_arguments := E.push_counter
  let s := SetupStack E bindings1 bindings2 key1 key2 number_of_arguments
  let out := CallAllFunctionsBool_loop s.2 s.1 number_of_arguments false
  (CleanUpStack out.1 number_of_arguments, out.2)

/-- The part of a `SpellInfo` the hooks read. -/
structure SpellInfo where
  Id : Nat
  deriving DecidableEq, Repr

/-- The hook `void Eluna::On_Reset(Creature* me)`. -/
def On_Reset (E : Eluna) (me : Creature) : Eluna :=
  match START_HOOK E CreatureEvents.CREATURE_EVENT_ON_RESET me with
  | none => E
  | some (entry_key, unique_key) =>
    CallAllFunctions (HookPush E (pushCreature me))
      E.CreatureEventBindings E.CreatureUniqueBindings entry_key unique_key

/-- The hook `void Eluna::OnDummyEffect(WorldObject* pCaster, uint32 spellId, SpellEffIndex effIndex, Creature* pTarget)`. -/
def OnDummyEffect (E : Eluna) (pCaster : Option Nat) (spellId : Nat) (effIndex : Nat) (pTarget : Creature) : Eluna :=
  match START_HOOK E CreatureEvents.CREATURE_EVENT_ON_DUMMY_EFFECT pTarget with
  | none => E
  | some (entry_key, unique_key) =>
    CallAllFunctions (HookPush (HookPush (HookPush (HookPush E (pushObject pCaster)) (LuaValue.number spellId)) (LuaValue.number effIndex)) (pushCreature pTarget))
      E.CreatureEventBindings E.CreatureUniqueBindings entry_key unique_key

/-- The hook `void Eluna::GetDialogStatus(const Player*, const Creature*)`. -/
def GetDialogStatus (E : Eluna) (pPlayer : Option Nat) (pCreature : Creature) : Eluna :=
  match START_HOOK E CreatureEvents.CREATURE_EVENT_ON_DIALOG_STATUS pCreature with
  | none => E
  | some (entry_key, unique_key) =>
    CallAllFunctions (HookPush (HookPush E (pushObject pPlayer)) (pushCreature pCreature))
      E.CreatureEventBindings E.CreatureUniqueBindings entry_key unique_key

/-- The hook `void Eluna::OnAddToWorld(Creature*)`. -/
def OnAddToWorld (E : Eluna) (pCreature : Creature) : Eluna :=
  match START_HOOK E CreatureEvents.CREATURE_EVENT_ON_ADD pCreature with
  | none => E
  | some (entry_key, unique_key) =>
    CallAllFunctions (HookPush E (pushCreature pCreature))
      E.CreatureEventBindings E.CreatureUniqueBindings entry_key unique_key

/-- The hook `void Eluna::OnRemoveFromWorld(Creature*)`. -/
def OnRemoveFromWorld (E : Eluna) (pCreature : Creature) : Eluna :=
  match START_HOOK E CreatureEvents.CREATURE_EVENT_ON_REMOVE pCreature with
  | none => E
  | some (entry_key, unique_key) =>
    CallAllFunctions (HookPush E (pushCreature pCreature))
      E.CreatureEventBindings E.CreatureUniqueBindings entry_key unique_key

/-- The hook `bool Eluna::OnQuestAccept(Player*, Creature*, Quest const*)`. -/
def OnQuestAccept (E : Eluna) (pPlayer : Option Nat) (pCreature : Creature) (pQuest : Option Nat) : Eluna × Bool :=
  match START_HOOK E CreatureEvents.CREATURE_EVENT_ON_QUEST_ACCEPT pCreature with
  | none => (E, false)
  | some (entry_key, unique_key) =>
    CallAllFunctionsBool (HookPush (HookPush (HookPush E (pushObject pPlayer)) (pushCreature pCreature)) (pushObject pQuest))
      E.CreatureEventBindings E.CreatureUniqueBindings entry_key unique_key

/-- The hook `bool Eluna::OnQuestReward(Player*, Creature*, Quest const*, uint32 opt)`. -/
def OnQuestReward (E : Eluna) (pPlayer : Option Nat) (pCreature : Creature) (pQuest : Option Nat) (opt : Nat) : Eluna × Bool :=
  match START_HOOK E CreatureEvents.CREATURE_EVENT_ON_QUEST_REWARD pCreature with
  | none => (E, false)
  | some (entry_key, unique_key) =>
    CallAllFunctionsBool (HookPush (HookPush (HookPush (HookPush E (pushObject pPlayer)) (pushCreature pCreature)) (pushObject pQuest)) (LuaValue.number opt))
      E.CreatureEventBindings E.CreatureUniqueBindings entry_key unique_key

/-- The hook `bool Eluna::OnSummoned(Creature*, Unit* pSummoner)`. -/
def OnSummoned (E : Eluna) (pCreature : Creature) (pSummoner : Option Nat) : Eluna × Bool :=
  match START_HOOK E CreatureEvents.CREATURE_EVENT_ON_SUMMONED pCreature with
  | none => (E, false)
  | some (entry_key, unique_key) =>
    CallAllFunctionsBool (HookPush (HookPush E (pushCreature pCreature)) (pushObject pSummoner))
      E.CreatureEventBindings E.CreatureUniqueBindings entry_key unique_key

/-- The hook `bool Eluna::UpdateAI(Creature* me, const uint32 diff)`. -/
def UpdateAI (E : Eluna) (me : Creature) (diff : Nat) : Eluna × Bool :=
  match START_HOOK E CreatureEvents.CREATURE_EVENT_ON_AIUPDATE me with
  | none => (E, false)
  | some (entry_key, unique_key) =>
    CallAllFunctionsBool (HookPush (HookPush E (pushCreature me)) (LuaValue.number diff))
      E.CreatureEventBindings E.CreatureUniqueBindings entry_key unique_key

/-- The hook `bool Eluna::EnterCombat(Creature* me, Unit* target)`. -/
def EnterCombat (E : Eluna) (me : Creature) (target : Option Nat) : Eluna × Bool :=
  match START_HOOK E CreatureEvents.CREATURE_EVENT_ON_ENTER_COMBAT me with
  | none => (E, false)
  | some (entry_key, unique_key) =>
    CallAllFunctionsBool (HookPush (HookPush E (pushCreature me)) (pushObject target))
      E.CreatureEventBindings E.CreatureUniqueBindings entry_key unique_key

/-- The hook `bool Eluna::JustDied(Creature* me, Unit* killer)`, which raises `On_Reset` first. -/
def JustDied (E : Eluna) (me : Creature) (killer : Option Nat) : Eluna × Bool :=
  let E0 := On_Reset E me
  match START_HOOK E0 CreatureEvents.CREATURE_EVENT_ON_DIED me with
  | none => (E0, false)
  | some (entry_key, unique_key) =>
    CallAllFunctionsBool (HookPush (HookPush E0 (pushCreature me)) (pushObject killer))
      E0.CreatureEventBindings E0.CreatureUniqueBindings entry_key unique_key

/-- The hook `bool Eluna::KilledUnit(Creature* me, Unit* victim)`. -/
def KilledUnit (E : Eluna) (me : Creature) (victim : Option Nat) : Eluna × Bool :=
  match START_HOOK E CreatureEvents.CREATURE_EVENT_ON_TARGET_DIED me with
  | none => (E, false)
  | some (entry_key, unique_key) =>
    CallAllFunctionsBool (HookPush (HookPush E (pushCreature me)) (pushObject victim))
      E.CreatureEventBindings E.CreatureUniqueBindings entry_key unique_key

/-- The hook `bool Eluna::JustSummoned(Creature* me, Creature* summon)`. -/
def JustSummoned (E : Eluna) (me : Creature) (summon : Option Nat) : Eluna × Bool :=
  match START_HOOK E CreatureEvents.CREATURE_EVENT_ON_JUST_SUMMONED_CREATURE me with
  | none => (E, false)
  | some (entry_key, unique_key) =>
    CallAllFunctionsBool (HookPush (HookPush E (pushCreature me)) (pushObject summon))
      E.CreatureEventBindings E.CreatureUniqueBindings entry_key unique_key

/-- The hook `bool Eluna::SummonedCreatureDespawn(Creature* me, Creature* summon)`. -/
def SummonedCreatureDespawn (E : Eluna) (me : Creature) (summon : Option Nat) : Eluna × Bool :=
  match START_HOOK E CreatureEvents.CREATURE_EVENT_ON_SUMMONED_CREATURE_DESPAWN me with
  | none => (E, false)
  | some (entry_key, unique_key) =>
    CallAllFunctionsBool (HookPush (HookPush E (pushCreature me)) (pushObject summon))
      E.CreatureEventBindings E.CreatureUniqueBindings entry_key unique_key

/-- The hook `bool Eluna::MovementInform(Creature* me, uint32 type, uint32 id)`. -/
def MovementInform (E : Eluna) (me : Creature) (type : Nat) (id : Nat) : Eluna × Bool :=
  match START_HOOK E CreatureEvents.CREATURE_EVENT_ON_REACH_WP me with
  | none => (E, false)
  | some (entry_key, unique_key) =>
    CallAllFunctionsBool (HookPush (HookPush (HookPush E (pushCreature me)) (LuaValue.number type)) (LuaValue.number id))
      E.CreatureEventBindings E.CreatureUniqueBindings entry_key unique_key

/-- The hook `bool Eluna::AttackStart(Creature* me, Unit* target)`. -/
def AttackStart (E : Eluna) (me : Creature) (target : Option Nat) : Eluna × Bool :=
  match START_HOOK E CreatureEvents.CREATURE_EVENT_ON_PRE_COMBAT me with
  | none => (E, false)
  | some (entry_key, unique_key) =>
    CallAllFunctionsBool (HookPush (HookPush E (pushCreature me)) (pushObject target))
      E.CreatureEventBindings E.CreatureUniqueBindings entry_key unique_key

/-- The hook `bool Eluna::EnterEvadeMode(Creature* me)`, which raises `On_Reset` first. -/
def EnterEvadeMode (E : Eluna) (me : Creature) : Eluna × Bool :=
  let E0 := On_Reset E me
  match START_HOOK E0 CreatureEvents.CREATURE_EVENT_ON_LEAVE_COMBAT me with
  | none => (E0, false)
  | some (entry_key, unique_key) =>
    CallAllFunctionsBool (HookPush E0 (pushCreature me))
      E0.CreatureEventBindings E0.CreatureUniqueBindings entry_key unique_key

/-- The hook `bool Eluna::JustRespawned(Creature* me)`, which raises `On_Reset` first. -/
def JustRespawned (E : Eluna) (me : Creature) : Eluna × Bool :=
  let E0 := On_Reset E me
  match START_HOOK E0 CreatureEvents.CREATURE_EVENT_ON_SPAWN me with
  | none => (E0, false)
  | some (entry_key, unique_key) =>
    CallAllFunctionsBool (HookPush E0 (pushCreature me))
      E0.CreatureEventBindings E0.CreatureUniqueBindings entry_key unique_key

/-- The hook `bool Eluna::JustReachedHome(Creature* me)`. -/
def JustReachedHome (E : Eluna) (me : Creature) : Eluna × Bool :=
  match START_HOOK E CreatureEvents.CREATURE_EVENT_ON_REACH_HOME me with
  | none => (E, false)
  | some (entry_key, unique_key) =>
    CallAllFunctionsBool (HookPush E (pushCreature me))
      E.CreatureEventBindings E.CreatureUniqueBindings entry_key unique_key

/-- The hook `bool Eluna::ReceiveEmote(Creature* me, Player* player, uint32 emoteId)`. -/
def ReceiveEmote (E : Eluna) (me : Creature) (player : Option Nat) (emoteId : Nat) : Eluna × Bool :=
  match START_HOOK E CreatureEvents.CREATURE_EVENT_ON_RECEIVE_EMOTE me with
  | none => (E, false)
  | some (entry_key, unique_key) =>
    CallAllFunctionsBool (HookPush (HookPush (HookPush E (pushCreature me)) (pushObject player)) (LuaValue.number emoteId))
      E.CreatureEventBindings E.CreatureUniqueBindings entry_key unique_key

/-- The hook `bool Eluna::MoveInLineOfSight(Creature* me, Unit* who)`. -/
def MoveInLineOfSight (E : Eluna) (me : Creature) (who : Option Nat) : Eluna × Bool :=
  match START_HOOK E CreatureEvents.CREATURE_EVENT_ON_MOVE_IN_LOS me with
  | none => (E, false)
  | some (entry_key, unique_key) =>
    CallAllFunctionsBool (HookPush (HookPush E (pushCreature me)) (pushObject who))
      E.CreatureEventBindings E.CreatureUniqueBindings entry_key unique_key

/-- The hook `bool Eluna::SpellHit(Creature* me, WorldObject* caster, SpellInfo const* spell)`. -/
def SpellHit (E : Eluna) (me : Creature) (caster : Option Nat) (spell : SpellInfo) : Eluna × Bool :=
  match START_HOOK E CreatureEvents.CREATURE_EVENT_ON_HIT_BY_SPELL me with
  | none => (E, false)
  | some (entry_key, unique_key) =>
    CallAllFunctionsBool (HookPush (HookPush (HookPush E (pushCreature me)) (pushObject caster)) (LuaValue.number spell.Id))
      E.CreatureEventBindings E.CreatureUniqueBindings entry_key unique_key

/-- The hook `bool Eluna::SpellHitTarget(Creature* me, WorldObject* target, SpellInfo const* spell)`. -/
def SpellHitTarget (E : Eluna) (me : Creature) (target : Option Nat) (spell : SpellInfo) : Eluna × Bool :=
  match START_HOOK E CreatureEvents.CREATURE_EVENT_ON_SPELL_HIT_TARGET me with
  | none => (E, false)
  | some (entry_key, unique_key) =>
    CallAllFunctionsBool (HookPush (HookPush (HookPush E (pushCreature me)) (pushObject target)) (LuaValue.number spell.Id))
      E.CreatureEventBindings E.CreatureUniqueBindings entry_key unique_key

/-- The hook `bool Eluna::SummonedCreatureDies(Creature* me, Creature* summon, Unit* killer) (ELUNA_TRINITY)`. -/
def SummonedCreatureDies (E : Eluna) (me : Creature) (summon : Option Nat) (killer : Option Nat) : Eluna × Bool :=
  match START_HOOK E CreatureEvents.CREATURE_EVENT_ON_SUMMONED_CREATURE_DIED me with
  | none => (E, false)
  | some (entry_key, unique_key) =>
    CallAllFunctionsBool (HookPush (HookPush (HookPush E (pushCreature me)) (pushObject summon)) (pushObject killer))
      E.CreatureEventBindings E.CreatureUniqueBindings entry_key unique_key

/-- The hook `bool Eluna::OwnerAttackedBy(Creature* me, Unit* attacker) (ELUNA_TRINITY)`. -/
def OwnerAttackedBy (E : Eluna) (me : Creature) (attacker : Option Nat) : Eluna × Bool :=
  match START_HOOK E CreatureEvents.CREATURE_EVENT_ON_OWNER_ATTACKED_AT me with
  | none => (E, false)
  | some (entry_key, unique_key) =>
    CallAllFunctionsBool (HookPush (HookPush E (pushCreature me)) (pushObject attacker))
      E.CreatureEventBindings E.CreatureUniqueBindings entry_key unique_key

/-- The hook `bool Eluna::OwnerAttacked(Creature* me, Unit* target) (ELUNA_TRINITY)`. -/
def OwnerAttacked (E : Eluna) (me : Creature) (target : Option Nat) : Eluna × Bool :=
  match START_HOOK E CreatureEvents.CREATURE_EVENT_ON_OWNER_ATTACKED me with
  | none => (E, false)
  | some (entry_key, unique_key) =>
    CallAllFunctionsBool (HookPush (HookPush E (pushCreature me)) (pushObject target))
      E.CreatureEventBindings E.CreatureUniqueBindings entry_key unique_key

/-! ## VehicleHooks.cpp -/

/-- The gate of the vehicle `START_HOOK`: `none` when the hook returns at
once, otherwise the event key. -/
def START_HOOK_VEHICLE (E : Eluna) (EVENT : VehicleEvents) : Option (EventKey VehicleEvents) :=
  if !E.VehicleEventBindings.HasBindingsFor ⟨EVENT⟩ then none else some ⟨EVENT⟩

/-- The hook `void Eluna::OnInstall(Vehicle* vehicle)`. -/
def OnInstall (E : Eluna) (vehicle : Option Nat) : Eluna :=
  match START_HOOK_VEHICLE E VehicleEvents.VEHICLE_EVENT_ON_INSTALL with
  | none => E
  | some key => CallAllFunctions1 (HookPush E (pushObject vehicle)) E.VehicleEventBindings key

/-- The hook `void Eluna::OnUninstall(Vehicle* vehicle)`. -/
def OnUninstall (E : Eluna) (vehicle : Option Nat) : Eluna :=
  match START_HOOK_VEHICLE E VehicleEvents.VEHICLE_EVENT_ON_UNINSTALL with
  | none => E
  | some key => CallAllFunctions1 (HookPush E (pushObject vehicle)) E.VehicleEventBindings key

/-- The hook `void Eluna::OnInstallAccessory(Vehicle* vehicle, Creature* accessory)`. -/
def OnInstallAccessory (E : Eluna) (vehicle : Option Nat) (accessory : Option Nat) : Eluna :=
  match START_HOOK_VEHICLE E VehicleEvents.VEHICLE_EVENT_ON_INSTALL_ACCESSORY with
  | none => E
  | some key => CallAllFunctions1 (HookPush (HookPush E (pushObject vehicle)) (pushObject accessory)) E.VehicleEventBindings key

/-- The hook `void Eluna::OnAddPassenger(Vehicle* vehicle, Unit* passenger, int8 seatId)`. -/
def OnAddPassenger (E : Eluna) (vehicle : Option Nat) (passenger : Option Nat) (seatId : Int) : Eluna :=
  match START_HOOK_VEHICLE E VehicleEvents.VEHICLE_EVENT_ON_ADD_PASSENGER with
  | none => E
  | some key => CallAllFunctions1 (HookPush (HookPush (HookPush E (pushObject vehicle)) (pushObject passenger)) (LuaValue.number seatId)) E.VehicleEventBindings key

/-- The hook `void Eluna::OnRemovePassenger(Vehicle* vehicle, Unit* passenger)`. -/
def OnRemovePassenger (E : Eluna) (vehicle : Option Nat) (passenger : Option Nat) : Eluna :=
  match START_HOOK_VEHICLE E VehicleEvents.VEHICLE_EVENT_ON_REMOVE_PASSENGER with
  | none => E
  | some key => CallAllFunctions1 (HookPush (HookPush E (pushObject vehicle)) (pushObject passenger)) E.VehicleEventBindings key

/-! ## Reference semantics of a handler chain -/

/-- Whether the first of the values left by a call is the boolean true. -/
def overrideFlag (results : List LuaValue) : Bool :=
  (results.getD 0 LuaValue.nil).isboolean && (results.getD 0 LuaValue.nil).toboolean

/-- The scalar after a call: the second of the values left by the call when it
is a number, otherwise the incoming scalar. -/
def valueLeft (results : List LuaValue) (incoming : Nat) : Nat :=
  if (results.getD 1 LuaValue.nil).isnumber then (results.getD 1 LuaValue.nil).touint32
  else incoming

/-- Invocation log of a value-threading chain started with scalar `d`: each
handler is called with the payload `p` followed by the scalar current at that
point. -/
def threadCalls (reg : Nat → LuaFunction) (p : List LuaValue) : List Nat → Nat → List CallRecord
  | [], _ => []
  | f :: fs, d =>
    ⟨f, p ++ [LuaValue.number d], callResults (reg f) (p ++ [LuaValue.number d]) 2⟩ ::
      threadCalls reg p fs (valueLeft (callResults (reg f) (p ++ [LuaValue.number d]) 2) d)

/-- Scalar left by a value-threading chain started with scalar `d`. -/
def threadValue (reg : Nat → LuaFunction) (p : List LuaValue) : List Nat → Nat → Nat
  | [], d => d
  | f :: fs, d =>
    threadValue reg p fs (valueLeft (callResults (reg f) (p ++ [LuaValue.number d]) 2) d)

/-- Boolean accumulated by a value-threading chain from the start value `b`. -/
def threadResult (reg : Nat → LuaFunction) (p : List LuaValue) : List Nat → Nat → Bool → Bool
  | [], _, b => b
  | f :: fs, d, b =>
    threadResult reg p fs (valueLeft (callResults (reg f) (p ++ [LuaValue.number d]) 2) d)
      (overrideFlag (callResults (reg f) (p ++ [LuaValue.number d]) 2) || b)

/-- Error count after a value-threading chain, one more per failed handler. -/
def threadErrors (reg : Nat → LuaFunction) (p : List LuaValue) : List Nat → Nat → Nat → Nat
  | [], _, e => e
  | f :: fs, d, e =>
    threadErrors reg p fs (valueLeft (callResults (reg f) (p ++ [LuaValue.number d]) 2) d)
      (if (reg f (p ++ [LuaValue.number d])).isSome then e else e + 1)

/-- Invocation log of a chain whose handlers all receive the same payload. -/
def chainCalls (reg : Nat → LuaFunction) (args : List LuaValue) (number_of_results : Nat)
    (fs : List Nat) : List CallRecord :=
  fs.map (fun f => ⟨f, args, callResults (reg f) args number_of_results⟩)

/-- Error count after a chain on a fixed payload, one more per failed handler. -/
def chainErrors (reg : Nat → LuaFunction) (args : List LuaValue) (fs : List Nat) (e : Nat) : Nat :=
  e + (fs.filter (fun f => !(reg f args).isSome)).length

/-- Boolean-OR of the override flags of a chain on a fixed payload. -/
def chainResult (reg : Nat → LuaFunction) (args : List LuaValue) (fs : List Nat) : Bool :=
  fs.any (fun f => overrideFlag (callResults (reg f) args 1))

/-- The handler invocations logged between an engine state and a later one. -/
def invocations (before after : Eluna) : List CallRecord :=
  after.calls.drop before.calls.length

/-- The combined handler list of a creature event: the entry-level bindings
for (event, entry) followed by the unique-level bindings for (event, guid,
instance id). -/
def handlers (E : Eluna) (ev : CreatureEvents) (c : Creature) : List Nat :=
  E.CreatureEventBindings ⟨ev, c.entry⟩ ++ E.CreatureUniqueBindings ⟨ev, c.guid, c.instanceId⟩

/-- The engine state after a dispatch on a fixed payload: unchanged when the
gate finds no binding, otherwise every handler of the combined list has been
invoked on the payload and the stack is back to where it was. -/
def dispatchState (E : Eluna) (ev : CreatureEvents) (c : Creature) (args : List LuaValue)
    (number_of_results : Nat) : Eluna :=
  match START_HOOK E ev c with
  | none => E
  | some _ =>
    { E with
      push_counter := 0
      functions := []
      calls := E.calls ++ chainCalls E.registry args number_of_results (handlers E ev c)
      errors := chainErrors E.registry args (handlers E ev c) E.errors }

/-! ## Hook calls as data -/

/-- Aggregation policy of a hook. -/
inductive Policy where
  | Void
  | BooleanOr
  | ValueThreading
  deriving DecidableEq, Repr

/-- What a hook hands back to the host: the engine state after the hook, the
returned boolean (none for a void hook) and the value left in the in/out
scalar (none for a hook without one). -/
structure HookOutcome where
  state : Eluna
  result : Option Bool
  scalar : Option Nat

/-- A call of one of the hooks of `CreatureHooks.cpp`, with its arguments. -/
inductive CreatureHookCall where
  | OnDummyEffect (pCaster : Option Nat) (spellId : Nat) (effIndex : Nat) (pTarget : Creature)
  | OnQuestAccept (pPlayer : Option Nat) (pCreature : Creature) (pQuest : Option Nat)
  | OnQuestReward (pPlayer : Option Nat) (pCreature : Creature) (pQuest : Option Nat) (opt : Nat)
  | GetDialogStatus (pPlayer : Option Nat) (pCreature : Creature)
  | OnAddToWorld (pCreature : Creature)
  | OnRemoveFromWorld (pCreature : Creature)
  | OnSummoned (pCreature : Creature) (pSummoner : Option Nat)
  | UpdateAI (me : Creature) (diff : Nat)
  | EnterCombat (me : Creature) (target : Option Nat)
  | DamageTaken (me : Creature) (attacker : Option Nat) (damage : Nat)
  | JustDied (me : Creature) (killer : Option Nat)
  | KilledUnit (me : Creature) (victim : Option Nat)
  | JustSummoned (me : Creature) (summon : Option Nat)
  | SummonedCreatureDespawn (me : Creature) (summon : Option Nat)
  | MovementInform (me : Creature) (type : Nat) (id : Nat)
  | AttackStart (me : Creature) (target : Option Nat)
  | EnterEvadeMode (me : Creature)
  | JustRespawned (me : Creature)
  | JustReachedHome (me : Creature)
  | ReceiveEmote (me : Creature) (player : Option Nat) (emoteId : Nat)
  | CorpseRemoved (me : Creature) (respawnDelay : Nat)
  | MoveInLineOfSight (me : Creature) (who : Option Nat)
  | On_Reset (me : Creature)
  | SpellHit (me : Creature) (caster : Option Nat) (spell : SpellInfo)
  | SpellHitTarget (me : Creature) (target : Option Nat) (spell : SpellInfo)
  | SummonedCreatureDies (me : Creature) (summon : Option Nat) (killer : Option Nat)
  | OwnerAttackedBy (me : Creature) (attacker : Option Nat)
  | OwnerAttacked (me : Creature) (target : Option Nat)

/-- The event a hook raises. -/
def CreatureHookCall.event : CreatureHookCall → CreatureEvents
  | CreatureHookCall.OnDummyEffect _ _ _ _ => CreatureEvents.CREATURE_EVENT_ON_DUMMY_EFFECT
  | CreatureHookCall.OnQuestAccept _ _ _ => CreatureEvents.CREATURE_EVENT_ON_QUEST_ACCEPT
  | CreatureHookCall.OnQuestReward _ _ _ _ => CreatureEvents.CREATURE_EVENT_ON_QUEST_REWARD
  | CreatureHookCall.GetDialogStatus _ _ => CreatureEvents.CREATURE_EVENT_ON_DIALOG_STATUS
  | CreatureHookCall.OnAddToWorld _ => CreatureEvents.CREATURE_EVENT_ON_ADD
  | CreatureHookCall.OnRemoveFromWorld _ => CreatureEvents.CREATURE_EVENT_ON_REMOVE
  | CreatureHookCall.OnSummoned _ _ => CreatureEvents.CREATURE_EVENT_ON_SUMMONED
  | CreatureHookCall.UpdateAI _ _ => CreatureEvents.CREATURE_EVENT_ON_AIUPDATE
  | CreatureHookCall.EnterCombat _ _ => CreatureEvents.CREATURE_EVENT_ON_ENTER_COMBAT
  | CreatureHookCall.DamageTaken _ _ _ => CreatureEvents.CREATURE_EVENT_ON_DAMAGE_TAKEN
  | CreatureHookCall.JustDied _ _ => CreatureEvents.CREATURE_EVENT_ON_DIED
  | CreatureHookCall.KilledUnit _ _ => CreatureEvents.CREATURE_EVENT_ON_TARGET_DIED
  | CreatureHookCall.JustSummoned _ _ => CreatureEvents.CREATURE_EVENT_ON_JUST_SUMMONED_CREATURE
  | CreatureHookCall.SummonedCreatureDespawn _ _ => CreatureEvents.CREATURE_EVENT_ON_SUMMONED_CREATURE_DESPAWN
  | CreatureHookCall.MovementInform _ _ _ => CreatureEvents.CREATURE_EVENT_ON_REACH_WP
  | CreatureHookCall.AttackStart _ _ => CreatureEvents.CREATURE_EVENT_ON_PRE_COMBAT
  | CreatureHookCall.EnterEvadeMode _ => CreatureEvents.CREATURE_EVENT_ON_LEAVE_COMBAT
  | CreatureHookCall.JustRespawned _ => CreatureEvents.CREATURE_EVENT_ON_SPAWN
  | CreatureHookCall.JustReachedHome _ => CreatureEvents.CREATURE_EVENT_ON_REACH_HOME
  | CreatureHookCall.ReceiveEmote _ _ _ => CreatureEvents.CREATURE_EVENT_ON_RECEIVE_EMOTE
  | CreatureHookCall.CorpseRemoved _ _ => CreatureEvents.CREATURE_EVENT_ON_CORPSE_REMOVED
  | CreatureHookCall.MoveInLineOfSight _ _ => CreatureEvents.CREATURE_EVENT_ON_MOVE_IN_LOS
  | CreatureHookCall.On_Reset _ => CreatureEvents.CREATURE_EVENT_ON_RESET
  | CreatureHookCall.SpellHit _ _ _ => CreatureEvents.CREATURE_EVENT_ON_HIT_BY_SPELL
  | CreatureHookCall.SpellHitTarget _ _ _ => CreatureEvents.CREATURE_EVENT_ON_SPELL_HIT_TARGET
  | CreatureHookCall.SummonedCreatureDies _ _ _ => CreatureEvents.CREATURE_EVENT_ON_SUMMONED_CREATURE_DIED
  | CreatureHookCall.OwnerAttackedBy _ _ => CreatureEvents.CREATURE_EVENT_ON_OWNER_ATTACKED_AT
  | CreatureHookCall.OwnerAttacked _ _ => CreatureEvents.CREATURE_EVENT_ON_OWNER_ATTACKED

/-- The creature a hook is raised for. -/
def CreatureHookCall.creature : CreatureHookCall → Creature
  | CreatureHookCall.OnDummyEffect _ _ _ pTarget => pTarget
  | CreatureHookCall.OnQuestAccept _ pCreature _ => pCreature
  | CreatureHookCall.OnQuestReward _ pCreature _ _ => pCreature
  | CreatureHookCall.GetDialogStatus _ pCreature => pCreature
  | CreatureHookCall.OnAddToWorld pCreature => pCreature
  | CreatureHookCall.OnRemoveFromWorld pCreature => pCreature
  | CreatureHookCall.OnSummoned pCreature _ => pCreature
  | CreatureHookCall.UpdateAI me _ => me
  | CreatureHookCall.EnterCombat me _ => me
  | CreatureHookCall.DamageTaken me _ _ => me
  | CreatureHookCall.JustDied me _ => me
  | CreatureHookCall.KilledUnit me _ => me
  | CreatureHookCall.JustSummoned me _ => me
  | CreatureHookCall.SummonedCreatureDespawn me _ => me
  | CreatureHookCall.MovementInform me _ _ => me
  | CreatureHookCall.AttackStart me _ => me
  | CreatureHookCall.EnterEvadeMode me => me
  | CreatureHookCall.JustRespawned me => me
  | CreatureHookCall.JustReachedHome me => me
  | CreatureHookCall.ReceiveEmote me _ _ => me
  | CreatureHookCall.CorpseRemoved me _ => me
  | CreatureHookCall.MoveInLineOfSight me _ => me
  | CreatureHookCall.On_Reset me => me
  | CreatureHookCall.SpellHit me _ _ => me
  | CreatureHookCall.SpellHitTarget me _ _ => me
  | CreatureHookCall.SummonedCreatureDies me _ _ => me
  | CreatureHookCall.OwnerAttackedBy me _ => me
  | CreatureHookCall.OwnerAttacked me _ => me

/-- The aggregation policy of a hook. -/
def CreatureHookCall.policy : CreatureHookCall → Policy
  | CreatureHookCall.OnDummyEffect _ _ _ _ => Policy.Void
  | CreatureHookCall.OnQuestAccept _ _ _ => Policy.BooleanOr
  | CreatureHookCall.OnQuestReward _ _ _ _ => Policy.BooleanOr
  | CreatureHookCall.GetDialogStatus _ _ => Policy.Void
  | CreatureHookCall.OnAddToWorld _ => Policy.Void
  | CreatureHookCall.OnRemoveFromWorld _ => Policy.Void
  | CreatureHookCall.OnSummoned _ _ => Policy.BooleanOr
  | CreatureHookCall.UpdateAI _ _ => Policy.BooleanOr
  | CreatureHookCall.EnterCombat _ _ => Policy.BooleanOr
  | CreatureHookCall.DamageTaken _ _ _ => Policy.ValueThreading
  | CreatureHookCall.JustDied _ _ => Policy.BooleanOr
  | CreatureHookCall.KilledUnit _ _ => Policy.BooleanOr
  | CreatureHookCall.JustSummoned _ _ => Policy.BooleanOr
  | CreatureHookCall.SummonedCreatureDespawn _ _ => Policy.BooleanOr
  | CreatureHookCall.MovementInform _ _ _ => Policy.BooleanOr
  | CreatureHookCall.AttackStart _ _ => Policy.BooleanOr
  | CreatureHookCall.EnterEvadeMode _ => Policy.BooleanOr
  | CreatureHookCall.JustRespawned _ => Policy.BooleanOr
  | CreatureHookCall.JustReachedHome _ => Policy.BooleanOr
  | CreatureHookCall.ReceiveEmote _ _ _ => Policy.BooleanOr
  | CreatureHookCall.CorpseRemoved _ _ => Policy.ValueThreading
  | CreatureHookCall.MoveInLineOfSight _ _ => Policy.BooleanOr
  | CreatureHookCall.On_Reset _ => Policy.Void
  | CreatureHookCall.SpellHit _ _ _ => Policy.BooleanOr
  | CreatureHookCall.SpellHitTarget _ _ _ => Policy.BooleanOr
  | CreatureHookCall.SummonedCreatureDies _ _ _ => Policy.BooleanOr
  | CreatureHookCall.OwnerAttackedBy _ _ => Policy.BooleanOr
  | CreatureHookCall.OwnerAttacked _ _ => Policy.BooleanOr

/-- Whether the hook raises `On_Reset` before its own event. -/
def CreatureHookCall.raisesReset : CreatureHookCall → Bool
  | CreatureHookCall.OnDummyEffect _ _ _ _ => false
  | CreatureHookCall.OnQuestAccept _ _ _ => false
  | CreatureHookCall.OnQuestReward _ _ _ _ => false
  | CreatureHookCall.GetDialogStatus _ _ => false
  | CreatureHookCall.OnAddToWorld _ => false
  | CreatureHookCall.OnRemoveFromWorld _ => false
  | CreatureHookCall.OnSummoned _ _ => false
  | CreatureHookCall.UpdateAI _ _ => false
  | CreatureHookCall.EnterCombat _ _ => false
  | CreatureHookCall.DamageTaken _ _ _ => false
  | CreatureHookCall.JustDied _ _ => true
  | CreatureHookCall.KilledUnit _ _ => false
  | CreatureHookCall.JustSummoned _ _ => false
  | CreatureHookCall.SummonedCreatureDespawn _ _ => false
  | CreatureHookCall.MovementInform _ _ _ => false
  | CreatureHookCall.AttackStart _ _ => false
  | CreatureHookCall.EnterEvadeMode _ => true
  | CreatureHookCall.JustRespawned _ => true
  | CreatureHookCall.JustReachedHome _ => false
  | CreatureHookCall.ReceiveEmote _ _ _ => false
  | CreatureHookCall.CorpseRemoved _ _ => false
  | CreatureHookCall.MoveInLineOfSight _ _ => false
  | CreatureHookCall.On_Reset _ => false
  | CreatureHookCall.SpellHit _ _ _ => false
  | CreatureHookCall.SpellHitTarget _ _ _ => false
  | CreatureHookCall.SummonedCreatureDies _ _ _ => false
  | CreatureHookCall.OwnerAttackedBy _ _ => false
  | CreatureHookCall.OwnerAttacked _ _ => false

/-- The payload a hook pushes, in push order. -/
def CreatureHookCall.payload : CreatureHookCall → List LuaValue
  | CreatureHookCall.OnDummyEffect pCaster spellId effIndex pTarget => [pushObject pCaster, LuaValue.number spellId, LuaValue.number effIndex, pushCreature pTarget]
  | CreatureHookCall.OnQuestAccept pPlayer pCreature pQuest => [pushObject pPlayer, pushCreature pCreature, pushObject pQuest]
  | CreatureHookCall.OnQuestReward pPlayer pCreature pQuest opt => [pushObject pPlayer, pushCreature pCreature, pushObject pQuest, LuaValue.number opt]
  | CreatureHookCall.GetDialogStatus pPlayer pCreature => [pushObject pPlayer, pushCreature pCreature]
  | CreatureHookCall.OnAddToWorld pCreature => [pushCreature pCreature]
  | CreatureHookCall.OnRemoveFromWorld pCreature => [pushCreature pCreature]
  | CreatureHookCall.OnSummoned pCreature pSummoner => [pushCreature pCreature, pushObject pSummoner]
  | CreatureHookCall.UpdateAI me diff => [pushCreature me, LuaValue.number diff]
  | CreatureHookCall.EnterCombat me target => [pushCreature me, pushObject target]
  | CreatureHookCall.DamageTaken me attacker damage => [pushCreature me, pushObject attacker, LuaValue.number damage]
  | CreatureHookCall.JustDied me killer => [pushCreature me, pushObject killer]
  | CreatureHookCall.KilledUnit me victim => [pushCreature me, pushObject victim]
  | CreatureHookCall.JustSummoned me summon => [pushCreature me, pushObject summon]
  | CreatureHookCall.SummonedCreatureDespawn me summon => [pushCreature me, pushObject summon]
  | CreatureHookCall.MovementInform me type id => [pushCreature me, LuaValue.number type, LuaValue.number id]
  | CreatureHookCall.AttackStart me target => [pushCreature me, pushObject target]
  | CreatureHookCall.EnterEvadeMode me => [pushCreature me]
  | CreatureHookCall.JustRespawned me => [pushCreature me]
  | CreatureHookCall.JustReachedHome me => [pushCreature me]
  | CreatureHookCall.ReceiveEmote me player emoteId => [pushCreature me, pushObject player, LuaValue.number emoteId]
  | CreatureHookCall.CorpseRemoved me respawnDelay => [pushCreature me, LuaValue.number respawnDelay]
  | CreatureHookCall.MoveInLineOfSight me who => [pushCreature me, pushObject who]
  | CreatureHookCall.On_Reset me => [pushCreature me]
  | CreatureHookCall.SpellHit me caster spell => [pushCreature me, pushObject caster, LuaValue.number spell.Id]
  | CreatureHookCall.SpellHitTarget me target spell => [pushCreature me, pushObject target, LuaValue.number spell.Id]
  | CreatureHookCall.SummonedCreatureDies me summon killer => [pushCreature me, pushObject summon, pushObject killer]
  | CreatureHookCall.OwnerAttackedBy me attacker => [pushCreature me, pushObject attacker]
  | CreatureHookCall.OwnerAttacked me target => [pushCreature me, pushObject target]

/-- The in/out scalar handed in by the host, for a hook that has one. -/
def CreatureHookCall.scalarIn : CreatureHookCall → Option Nat
  | CreatureHookCall.OnDummyEffect _ _ _ _ => none
  | CreatureHookCall.OnQuestAccept _ _ _ => none
  | CreatureHookCall.OnQuestReward _ _ _ _ => none
  | CreatureHookCall.GetDialogStatus _ _ => none
  | CreatureHookCall.OnAddToWorld _ => none
  | CreatureHookCall.OnRemoveFromWorld _ => none
  | CreatureHookCall.OnSummoned _ _ => none
  | CreatureHookCall.UpdateAI _ _ => none
  | CreatureHookCall.EnterCombat _ _ => none
  | CreatureHookCall.DamageTaken _ _ damage => some damage
  | CreatureHookCall.JustDied _ _ => none
  | CreatureHookCall.KilledUnit _ _ => none
  | CreatureHookCall.JustSummoned _ _ => none
  | CreatureHookCall.SummonedCreatureDespawn _ _ => none
  | CreatureHookCall.MovementInform _ _ _ => none
  | CreatureHookCall.AttackStart _ _ => none
  | CreatureHookCall.EnterEvadeMode _ => none
  | CreatureHookCall.JustRespawned _ => none
  | CreatureHookCall.JustReachedHome _ => none
  | CreatureHookCall.ReceiveEmote _ _ _ => none
  | CreatureHookCall.CorpseRemoved _ respawnDelay => some respawnDelay
  | CreatureHookCall.MoveInLineOfSight _ _ => none
  | CreatureHookCall.On_Reset _ => none
  | CreatureHookCall.SpellHit _ _ _ => none
  | CreatureHookCall.SpellHitTarget _ _ _ => none
  | CreatureHookCall.SummonedCreatureDies _ _ _ => none
  | CreatureHookCall.OwnerAttackedBy _ _ => none
  | CreatureHookCall.OwnerAttacked _ _ => none

/-- Run a hook call on an engine state. -/
def CreatureHookCall.run (E : Eluna) : CreatureHookCall → HookOutcome
  | CreatureHookCall.OnDummyEffect pCaster spellId effIndex pTarget => ⟨Eluna.OnDummyEffect E pCaster spellId effIndex pTarget, none, none⟩
  | CreatureHookCall.OnQuestAccept pPlayer pCreature pQuest =>
    ⟨(Eluna.OnQuestAccept E pPlayer pCreature pQuest).1, some (Eluna.OnQuestAccept E pPlayer pCreature pQuest).2, none⟩
  | CreatureHookCall.OnQuestReward pPlayer pCreature pQuest opt =>
    ⟨(Eluna.OnQuestReward E pPlayer pCreature pQuest opt).1, some (Eluna.OnQuestReward E pPlayer pCreature pQuest opt).2, none⟩
  | CreatureHookCall.GetDialogStatus pPlayer pCreature => ⟨Eluna.GetDialogStatus E pPlayer pCreature, none, none⟩
  | CreatureHookCall.OnAddToWorld pCreature => ⟨Eluna.OnAddToWorld E pCreature, none, none⟩
  | CreatureHookCall.OnRemoveFromWorld pCreature => ⟨Eluna.OnRemoveFromWorld E pCreature, none, none⟩
  | CreatureHookCall.OnSummoned pCreature pSummoner =>
    ⟨(Eluna.OnSummoned E pCreature pSummoner).1, some (Eluna.OnSummoned E pCreature pSummoner).2, none⟩
  | CreatureHookCall.UpdateAI me diff =>
    ⟨(Eluna.UpdateAI E me diff).1, some (Eluna.UpdateAI E me diff).2, none⟩
  | CreatureHookCall.EnterCombat me target =>
    ⟨(Eluna.EnterCombat E me target).1, some (Eluna.EnterCombat E me target).2, none⟩
  | CreatureHookCall.DamageTaken me attacker damage =>
    ⟨(Eluna.DamageTaken E me attacker damage).1, some (Eluna.DamageTaken E me attacker damage).2.1, some (Eluna.DamageTaken E me attacker damage).2.2⟩
  | CreatureHookCall.JustDied me killer =>
    ⟨(Eluna.JustDied E me killer).1, some (Eluna.JustDied E me killer).2, none⟩
  | CreatureHookCall.KilledUnit me victim =>
    ⟨(Eluna.KilledUnit E me victim).1, some (Eluna.KilledUnit E me victim).2, none⟩
  | CreatureHookCall.JustSummoned me summon =>
    ⟨(Eluna.JustSummoned E me summon).1, some (Eluna.JustSummoned E me summon).2, none⟩
  | CreatureHookCall.SummonedCreatureDespawn me summon =>
    ⟨(Eluna.SummonedCreatureDespawn E me summon).1, some (Eluna.SummonedCreatureDespawn E me summon).2, none⟩
  | CreatureHookCall.MovementInform me type id =>
    ⟨(Eluna.MovementInform E me type id).1, some (Eluna.MovementInform E me type id).2, none⟩
  | CreatureHookCall.AttackStart me target =>
    ⟨(Eluna.AttackStart E me target).1, some (Eluna.AttackStart E me target).2, none⟩
  | CreatureHookCall.EnterEvadeMode me =>
    ⟨(Eluna.EnterEvadeMode E me).1, some (Eluna.EnterEvadeMode E me).2, none⟩
  | CreatureHookCall.JustRespawned me =>
    ⟨(Eluna.JustRespawned E me).1, some (Eluna.JustRespawned E me).2, none⟩
  | CreatureHookCall.JustReachedHome me =>
    ⟨(Eluna.JustReachedHome E me).1, some (Eluna.JustReachedHome E me).2, none⟩
  | CreatureHookCall.ReceiveEmote me player emoteId =>
    ⟨(Eluna.ReceiveEmote E me player emoteId).1, some (Eluna.ReceiveEmote E me player emoteId).2, none⟩
  | CreatureHookCall.CorpseRemoved me respawnDelay =>
    ⟨(Eluna.CorpseRemoved E me respawnDelay).1, some (Eluna.CorpseRemoved E me respawnDelay).2.1, some (Eluna.CorpseRemoved E me respawnDelay).2.2⟩
  | CreatureHookCall.MoveInLineOfSight me who =>
    ⟨(Eluna.MoveInLineOfSight E me who).1, some (Eluna.MoveInLineOfSight E me who).2, none⟩
  | CreatureHookCall.On_Reset me => ⟨Eluna.On_Reset E me, none, none⟩
  | CreatureHookCall.SpellHit me caster spell =>
    ⟨(Eluna.SpellHit E me caster spell).1, some (Eluna.SpellHit E me caster spell).2, none⟩
  | CreatureHookCall.SpellHitTarget me target spell =>
    ⟨(Eluna.SpellHitTarget E me target spell).1, some (Eluna.SpellHitTarget E me target spell).2, none⟩
  | CreatureHookCall.SummonedCreatureDies me summon killer =>
    ⟨(Eluna.SummonedCreatureDies E me summon killer).1, some (Eluna.SummonedCreatureDies E me summon killer).2, none⟩
  | CreatureHookCall.OwnerAttackedBy me attacker =>
    ⟨(Eluna.OwnerAttackedBy E me attacker).1, some (Eluna.OwnerAttackedBy E me attacker).2, none⟩
  | CreatureHookCall.OwnerAttacked me target =>
    ⟨(Eluna.OwnerAttacked E me target).1, some (Eluna.OwnerAttacked E me target).2, none⟩

/-- The invocations a hook logs before its own event: those of `On_Reset` for
the hooks that raise it first. -/
def CreatureHookCall.resetCalls (E : Eluna) (call : CreatureHookCall) : List CallRecord :=
  if call.raisesReset then
    chainCalls E.registry [pushCreature call.creature] 0
      (handlers E CreatureEvents.CREATURE_EVENT_ON_RESET call.creature)
  else []

/-- A call of one of the hooks of `VehicleHooks.cpp`, with its arguments. -/
inductive VehicleHookCall where
  | OnInstall (vehicle : Option Nat)
  | OnUninstall (vehicle : Option Nat)
  | OnInstallAccessory (vehicle : Option Nat) (accessory : Option Nat)
  | OnAddPassenger (vehicle : Option Nat) (passenger : Option Nat) (seatId : Int)
  | OnRemovePassenger (vehicle : Option Nat) (passenger : Option Nat)

/-- The event a vehicle hook raises. -/
def VehicleHookCall.event : VehicleHookCall → VehicleEvents
  | VehicleHookCall.OnInstall _ => VehicleEvents.VEHICLE_EVENT_ON_INSTALL
  | VehicleHookCall.OnUninstall _ => VehicleEvents.VEHICLE_EVENT_ON_UNINSTALL
  | VehicleHookCall.OnInstallAccessory _ _ => VehicleEvents.VEHICLE_EVENT_ON_INSTALL_ACCESSORY
  | VehicleHookCall.OnAddPassenger _ _ _ => VehicleEvents.VEHICLE_EVENT_ON_ADD_PASSENGER
  | VehicleHookCall.OnRemovePassenger _ _ => VehicleEvents.VEHICLE_EVENT_ON_REMOVE_PASSENGER

/-- The payload a vehicle hook pushes, in push order. -/
def VehicleHookCall.payload : VehicleHookCall → List LuaValue
  | VehicleHookCall.OnInstall vehicle => [pushObject vehicle]
  | VehicleHookCall.OnUninstall vehicle => [pushObject vehicle]
  | VehicleHookCall.OnInstallAccessory vehicle accessory =>
    [pushObject vehicle, pushObject accessory]
  | VehicleHookCall.OnAddPassenger vehicle passenger seatId =>
    [pushObject vehicle, pushObject passenger, LuaValue.number seatId]
  | VehicleHookCall.OnRemovePassenger vehicle passenger =>
    [pushObject vehicle, pushObject passenger]

/-- Run a vehicle hook call on an engine state. -/
def VehicleHookCall.run (E : Eluna) : VehicleHookCall → Eluna
  | VehicleHookCall.OnInstall vehicle => Eluna.OnInstall E vehicle
  | VehicleHookCall.OnUninstall vehicle => Eluna.OnUninstall E vehicle
  | VehicleHookCall.OnInstallAccessory vehicle accessory =>
    Eluna.OnInstallAccessory E vehicle accessory
  | VehicleHookCall.OnAddPassenger vehicle passenger seatId =>
    Eluna.OnAddPassenger E vehicle passenger seatId
  | VehicleHookCall.OnRemovePassenger vehicle passenger =>
    Eluna.OnRemovePassenger E vehicle passenger

/-! ## methods/VMangos/ItemMethods.h: the method table -/

/-- One row of a method table: the method name and its thunk, named by the
function it points to.  `none` stands for a row registered without a thunk. -/
structure ElunaRegister where
  name : String
  mfunc : Option String
  deriving DecidableEq, Repr

/-- Modelled from the spec: `METHOD_REG_NONE` (ElunaTemplate.h is outside src/)
registers a name as a not-implemented placeholder, a row without a thunk. -/
def METHOD_REG_NONE : Option String := none

/-- The table `ElunaRegister<Item> ItemMethods[]`, row by row. -/
def ItemMethods : List ElunaRegister :=
  [
    ⟨"GetOwnerGUID", some "LuaItem::GetOwnerGUID"⟩,
    ⟨"GetOwner", some "LuaItem::GetOwner"⟩,
    ⟨"GetCount", some "LuaItem::GetCount"⟩,
    ⟨"GetMaxStackCount", some "LuaItem::GetMaxStackCount"⟩,
    ⟨"GetSlot", some "LuaItem::GetSlot"⟩,
    ⟨"GetBagSlot", some "LuaItem::GetBagSlot"⟩,
    ⟨"GetEnchantmentId", some "LuaItem::GetEnchantmentId"⟩,
    ⟨"GetSpellId", some "LuaItem::GetSpellId"⟩,
    ⟨"GetSpellTrigger", some "LuaItem::GetSpellTrigger"⟩,
    ⟨"GetItemLink", some "LuaItem::GetItemLink"⟩,
    ⟨"GetClass", some "LuaItem::GetClass"⟩,
    ⟨"GetSubClass", some "LuaItem::GetSubClass"⟩,
    ⟨"GetItemId", some "LuaItem::GetItemId"⟩,
    ⟨"GetName", some "LuaItem::GetName"⟩,
    ⟨"GetDisplayId", some "LuaItem::GetDisplayId"⟩,
    ⟨"GetQuality", some "LuaItem::GetQuality"⟩,
    ⟨"GetFlags", some "LuaItem::GetFlags"⟩,
    ⟨"GetExtraFlags", some "LuaItem::GetExtraFlags"⟩,
    ⟨"GetBuyCount", some "LuaItem::GetBuyCount"⟩,
    ⟨"GetBuyPrice", some "LuaItem::GetBuyPrice"⟩,
    ⟨"GetSellPrice", some "LuaItem::GetSellPrice"⟩,
    ⟨"GetInventoryType", some "LuaItem::GetInventoryType"⟩,
    ⟨"GetAllowableClass", some "LuaItem::GetAllowableClass"⟩,
    ⟨"GetAllowableRace", some "LuaItem::GetAllowableRace"⟩,
    ⟨"GetItemLevel", some "LuaItem::GetItemLevel"⟩,
    ⟨"GetRequiredLevel", some "LuaItem::GetRequiredLevel"⟩,
    ⟨"GetRandomProperty", some "LuaItem::GetRandomProperty"⟩,
    ⟨"GetItemSet", some "LuaItem::GetItemSet"⟩,
    ⟨"GetBagSize", some "LuaItem::GetBagSize"⟩,
    ⟨"GetItemTemplate", some "LuaItem::GetItemTemplateEntry"⟩,
    ⟨"GetStatInfo", some "LuaItem::GetStatInfo"⟩,
    ⟨"GetDamageInfo", some "LuaItem::GetDamageInfo"⟩,
    ⟨"GetSpeed", some "LuaItem::GetSpeed"⟩,
    ⟨"GetArmor", some "LuaItem::GetArmor"⟩,
    ⟨"GetMaxDurability", some "LuaItem::GetMaxDurability"⟩,
    ⟨"GetDurability", some "LuaItem::GetDurability"⟩,
    ⟨"SetOwner", some "LuaItem::SetOwner"⟩,
    ⟨"SetBinding", some "LuaItem::SetBinding"⟩,
    ⟨"SetCount", some "LuaItem::SetCount"⟩,
    ⟨"IsSoulBound", some "LuaItem::IsSoulBound"⟩,
    ⟨"IsBoundByEnchant", some "LuaItem::IsBoundByEnchant"⟩,
    ⟨"IsNotBoundToPlayer", some "LuaItem::IsNotBoundToPlayer"⟩,
    ⟨"IsLocked", some "LuaItem::IsLocked"⟩,
    ⟨"IsBag", some "LuaItem::IsBag"⟩,
    ⟨"IsNotEmptyBag", some "LuaItem::IsNotEmptyBag"⟩,
    ⟨"IsBroken", some "LuaItem::IsBroken"⟩,
    ⟨"CanBeTraded", some "LuaItem::CanBeTraded"⟩,
    ⟨"IsInTrade", some "LuaItem::IsInTrade"⟩,
    ⟨"IsInBag", some "LuaItem::IsInBag"⟩,
    ⟨"IsEquipped", some "LuaItem::IsEquipped"⟩,
    ⟨"HasQuest", some "LuaItem::HasQuest"⟩,
    ⟨"IsConjuredConsumable", some "LuaItem::IsConjuredConsumable"⟩,
    ⟨"SetEnchantment", some "LuaItem::SetEnchantment"⟩,
    ⟨"ClearEnchantment", some "LuaItem::ClearEnchantment"⟩,
    ⟨"SaveToDB", some "LuaItem::SaveToDB"⟩,
    ⟨"GetRandomSuffix", METHOD_REG_NONE⟩,
    ⟨"GetStatsCount", METHOD_REG_NONE⟩,
    ⟨"GetFlags2", METHOD_REG_NONE⟩,
    ⟨"IsPotion", METHOD_REG_NONE⟩,
    ⟨"IsRefundExpired", METHOD_REG_NONE⟩,
    ⟨"IsCurrencyToken", METHOD_REG_NONE⟩,
    ⟨"IsBoundAccountWide", METHOD_REG_NONE⟩,
    ⟨"IsWeaponVellum", METHOD_REG_NONE⟩,
    ⟨"IsArmorVellum", METHOD_REG_NONE⟩
  ]

/-- Outcome of looking a method name up in a table. -/
inductive MethodLookup where
  | Callable (thunk : String)
  | NotImplemented
  | NoSuchMethod
  deriving DecidableEq, Repr

/-- Modelled from the spec: the lookup of `Invoke` (ElunaTemplate.h is outside
src/): a name absent from the table signals `NoSuchMethod`, a name whose row
is a not-implemented placeholder signals `NotImplemented`, any other row is
callable through its thunk. -/
def lookupMethod (table : List ElunaRegister) (name : String) : MethodLookup :=
  match table.find? (fun e => e.name == name) with
  | none => MethodLookup.NoSuchMethod
  | some e =>
    match e.mfunc with
    | none => MethodLookup.NotImplemented
    | some thunk => MethodLookup.Callable thunk

/-- The nine names the Item table registers with `METHOD_REG_NONE`. -/
def notImplementedItemMethods : List String :=
  ["GetRandomSuffix", "GetStatsCount", "GetFlags2", "IsPotion", "IsRefundExpired", "IsCurrencyToken", "IsBoundAccountWide", "IsWeaponVellum", "IsArmorVellum"]

/-! ## Example engine states -/

/-- Engine state of the `JustDied` example: one handler bound to
`CREATURE_EVENT_ON_RESET` of entry 100, nothing bound to `CREATURE_EVENT_ON_DIED`. -/
def resetOnlyEngine : Eluna :=
  { L := [], push_counter := 0, functions := [],
    registry := fun _ _ => some [],
    CreatureEventBindings := fun k =>
      if k = ⟨CreatureEvents.CREATURE_EVENT_ON_RESET, 100⟩ then [1] else [],
    CreatureUniqueBindings := fun _ => [],
    VehicleEventBindings := fun _ => [],
    calls := [], errors := 0 }

/-- Engine state of the threading examples, for the creature with entry 100,
guid 7 and instance 0.  Handler 1 returns (true, 5), handler 2 returns
(false, nil), handler 3 returns (false, 7), handler 4 returns the number 1,
handler 5 returns nothing and every other reference fails.  Bound to
`CREATURE_EVENT_ON_DAMAGE_TAKEN`: handlers 1, 9, 4 at entry level and 2 at
unique level; bound to `CREATURE_EVENT_ON_CORPSE_REMOVED`: handler 3 at entry
level. -/
def threadingEngine : Eluna :=
  { L := [], push_counter := 0, functions := [],
    registry := fun r => match r with
      | 1 => fun _ => some [LuaValue.boolean true, LuaValue.number 5]
      | 2 => fun _ => some [LuaValue.boolean false, LuaValue.nil]
      | 3 => fun _ => some [LuaValue.boolean false, LuaValue.number 7]
      | 4 => fun _ => some [LuaValue.number 1]
      | 5 => fun _ => some []
      | _ => fun _ => none,
    CreatureEventBindings := fun k =>
      if k = ⟨CreatureEvents.CREATURE_EVENT_ON_DAMAGE_TAKEN, 100⟩ then [1, 9, 4]
      else if k = ⟨CreatureEvents.CREATURE_EVENT_ON_CORPSE_REMOVED, 100⟩ then [3]
      else [],
    CreatureUniqueBindings := fun k =>
      if k = ⟨CreatureEvents.CREATURE_EVENT_ON_DAMAGE_TAKEN, 7, 0⟩ then [2] else [],
    VehicleEventBindings := fun _ => [],
    calls := [], errors := 0 }

/-- Engine state of the example scenario: handler 1 (A) returns (true, 5) and
is bound at entry level to template 100; handler 2 (B) returns (false, nil)
and is bound at unique level to guid 7 in instance 0, for both value-threading
events. -/
def scenarioEngine : Eluna :=
  { L := [], push_counter := 0, functions := [],
    registry := fun r => match r with
      | 1 => fun _ => some [LuaValue.boolean true, LuaValue.number 5]
      | _ => fun _ => some [LuaValue.boolean false, LuaValue.nil],
    CreatureEventBindings := fun k =>
      if k = ⟨CreatureEvents.CREATURE_EVENT_ON_DAMAGE_TAKEN, 100⟩ then [1]
      else if k = ⟨CreatureEvents.CREATURE_EVENT_ON_CORPSE_REMOVED, 100⟩ then [1]
      else [],
    CreatureUniqueBindings := fun k =>
      if k = ⟨CreatureEvents.CREATURE_EVENT_ON_DAMAGE_TAKEN, 7, 0⟩ then [2]
      else if k = ⟨CreatureEvents.CREATURE_EVENT_ON_CORPSE_REMOVED, 7, 0⟩ then [2]
      else [],
    VehicleEventBindings := fun _ => [],
    calls := [], errors := 0 }

/-- Engine state of the Boolean-OR example, for the creature with entry 100,
guid 7 and instance 0.  Handler 1 returns true, handler 2 returns nothing and
handler 3 fails.  Bound to `CREATURE_EVENT_ON_QUEST_ACCEPT`: handlers 2, 1 at
entry level and 3, 2 at unique level. -/
def questEngine : Eluna :=
  { L := [], push_counter := 0, functions := [],
    registry := fun r => match r with
      | 1 => fun _ => some [LuaValue.boolean true]
      | 2 => fun _ => some []
      | _ => fun _ => none,
    CreatureEventBindings := fun k =>
      if k = ⟨CreatureEvents.CREATURE_EVENT_ON_QUEST_ACCEPT, 100⟩ then [2, 1] else [],
    CreatureUniqueBindings := fun k =>
      if k = ⟨CreatureEvents.CREATURE_EVENT_ON_QUEST_ACCEPT, 7, 0⟩ then [3, 2] else [],
    VehicleEventBindings := fun _ => [],
    calls := [], errors := 0 }

/-- Engine state of the vehicle example: handlers 1 and 2 bound to
`VEHICLE_EVENT_ON_ADD_PASSENGER`, nothing bound to the other vehicle events. -/
def vehicleEngine : Eluna :=
  { L := [], push_counter := 0, functions := [],
    registry := fun _ _ => some [],
    CreatureEventBindings := fun _ => [],
    CreatureUniqueBindings := fun _ => [],
    VehicleEventBindings := fun k =>
      if k = ⟨VehicleEvents.VEHICLE_EVENT_ON_ADD_PASSENGER⟩ then [1, 2] else [],
    calls := [], errors := 0 }

/-! ## Method thunks: argument reading and results -/

/-- What reading one argument of a method call gives: the value, or the error
`ArgumentTypeError(index, expectedType)`, with the 1-based index of the
argument, which aborts the call. -/
inductive Checked (α : Type) where
  | ok (value : α)
  | ArgumentTypeError (index : Nat) (expectedType : String)
  deriving DecidableEq, Repr

/-- A number that lies in the range of a host integer type; none for a number
outside the range and for every value that is not a number. -/
def LuaValue.inRange (lo hi : Int) : LuaValue → Option Int
  | LuaValue.number n => if lo ≤ n ∧ n ≤ hi then some n else none
  | _ => none

/-- Modelled from the spec: `CHECKVAL<uint32>(narg)` in a method thunk
(LuaEngine.h is outside src/).  The argument must be a number from 0 to
2^32 - 1; a missing argument, a value of another type and a number outside
the range are `ArgumentTypeError(narg, expectedType)`. -/
def CHECKVAL_uint32 (E : Eluna) (idx : Nat) : Checked Nat :=
  match (lua_index E idx).inRange 0 (2 ^ 32 - 1) with
  | some n => Checked.ok n.toNat
  | none => Checked.ArgumentTypeError idx "uint32"

/-- Modelled from the spec: `CHECKVAL<uint8>(narg)` in a method thunk
(LuaEngine.h is outside src/).  The argument must be a number from 0 to 255;
anything else is `ArgumentTypeError(narg, expectedType)`. -/
def CHECKVAL_uint8 (E : Eluna) (idx : Nat) : Checked Nat :=
  match (lua_index E idx).inRange 0 (2 ^ 8 - 1) with
  | some n => Checked.ok n.toNat
  | none => Checked.ArgumentTypeError idx "uint8"

/-- Modelled from the spec: `CHECKVAL<uint8>(narg, def)` (LuaEngine.h is
outside src/): the default when the argument is absent or nil, otherwise the
argument is read as by `CHECKVAL<uint8>(narg)`. -/
def CHECKVAL_uint8_opt (E : Eluna) (idx : Nat) (dflt : Nat) : Checked Nat :=
  match lua_index E idx with
  | LuaValue.nil => Checked.ok dflt
  | _ => CHECKVAL_uint8 E idx

/-- Modelled from the spec: `CHECKVAL<uint32>(narg, def)` (LuaEngine.h is
outside src/): the default when the argument is absent or nil, otherwise the
argument is read as by `CHECKVAL<uint32>(narg)`. -/
def CHECKVAL_uint32_opt (E : Eluna) (idx : Nat) (dflt : Nat) : Checked Nat :=
  match lua_index E idx with
  | LuaValue.nil => Checked.ok dflt
  | _ => CHECKVAL_uint32 E idx

/-- Modelled from the spec: `CHECKVAL<int32>(narg, def)` (LuaEngine.h is
outside src/): the default when the argument is absent or nil; otherwise the
argument must be a number from -2^31 to 2^31 - 1, anything else being
`ArgumentTypeError(narg, expectedType)`. -/
def CHECKVAL_int32_opt (E : Eluna) (idx : Nat) (dflt : Int) : Checked Int :=
  match lua_index E idx with
  | LuaValue.nil => Checked.ok dflt
  | v =>
    match v.inRange (-2 ^ 31) (2 ^ 31 - 1) with
    | some n => Checked.ok n
    | none => Checked.ArgumentTypeError idx "int32"

/-- Modelled from the spec: `CHECKVAL<float>(narg, def)` (LuaEngine.h is
outside src/): the default when the argument is absent or nil; otherwise the
argument must be a number, anything else being
`ArgumentTypeError(narg, expectedType)`.  Only integral values are represented
and no float arithmetic is modelled: the methods compare the value with zero,
negate it and hand it on. -/
def CHECKVAL_float_opt (E : Eluna) (idx : Nat) (dflt : Int) : Checked Int :=
  match lua_index E idx with
  | LuaValue.nil => Checked.ok dflt
  | LuaValue.number n => Checked.ok n
  | _ => Checked.ArgumentTypeError idx "float"

/-- Modelled from the spec: `CHECKVAL<bool>(narg, def)` (LuaEngine.h is
outside src/): the default when the argument is absent or nil, otherwise its
truth value.  Every Lua value has a truth value, so this read has no
mismatch to signal. -/
def CHECKVAL_bool_opt (E : Eluna) (idx : Nat) (dflt : Bool) : Bool :=
  match lua_index E idx with
  | LuaValue.nil => dflt
  | v => v.toboolean

/-- Modelled from the spec: `CHECKOBJ<T>(narg)` (LuaEngine.h is outside src/)
reads the object at a stack index; `none` when the argument is not an object,
on which the thunk signals an argument error for that index. -/
def CHECKOBJ (E : Eluna) (idx : Nat) : Option Nat :=
  match lua_index E idx with
  | LuaValue.userdata id => some id
  | _ => none

/-- What a method thunk does: it returns a result count after pushing values,
it signals an argument error, or it runs into undefined behaviour (a read
outside an array, a null pointer dereferenced).  The argument error is the
`luaL_argerror(L, narg, extramsg)` of the thunk itself or the
`ArgumentTypeError(index, expectedType)` of an argument it could not read. -/
inductive MethodResult (α : Type) where
  | returned (pushed : List α) (count : Nat)
  | argerror (narg : Nat) (extramsg : String)
  | undefined
  deriving DecidableEq, Repr

/-- Modelled from the spec: the values a method call hands to the script.  The
method wrapper (ElunaTemplate.h is outside src/) takes the returned count of
results; a result the thunk did not push reads as nil. -/
def MethodResult.values : MethodResult LuaValue → Option (List LuaValue)
  | MethodResult.returned pushed count =>
    some ((pushed ++ List.replicate count LuaValue.nil).take count)
  | _ => none

/-! ## methods/VMangos/ItemMethods.h: the thunks -/

/-- Constants and stores of the host core that the Item thunks use and that
are declared outside src/. -/
structure ItemCore where
  MAX_ITEM_PROTO_SPELLS : Nat
  MAX_ITEM_PROTO_STATS : Nat
  MAX_ITEM_PROTO_DAMAGES : Nat
  MAX_INSPECTED_ENCHANTMENT_SLOT : Nat
  PERM_ENCHANTMENT_SLOT : Nat
  TOTAL_LOCALES : Nat
  DEFAULT_LOCALE : Nat
  /-- Whether `sSpellItemEnchantmentStore.LookupEntry` finds the id. -/
  LookupEntry : Nat → Bool
  /-- The localized names `eObjectMgr->GetItemLocale(ItemId)` yields, if any. -/
  GetItemLocale : Nat → Option (List String)

/-- One entry of `ItemTemplate::Spells`. -/
structure ItemSpell where
  SpellId : Nat
  SpellTrigger : Nat
  deriving DecidableEq, Repr

/-- One entry of `ItemTemplate::ItemStat`. -/
structure ItemStatEntry where
  ItemStatType : Int
  ItemStatValue : Int
  deriving DecidableEq, Repr

/-- One entry of `ItemTemplate::Damage`; the float bounds are carried as
integral numbers. -/
structure ItemDamage where
  DamageMin : Int
  DamageMax : Int
  DamageType : Nat
  deriving DecidableEq, Repr

/-- The part of an `ItemTemplate` the modelled thunks read.  The three arrays
have the fixed sizes `MAX_ITEM_PROTO_SPELLS`, `MAX_ITEM_PROTO_STATS` and
`MAX_ITEM_PROTO_DAMAGES` in the host. -/
structure ItemTemplate where
  ItemId : Nat
  Name1 : String
  Quality : Nat
  Spells : List ItemSpell
  ItemStat : List ItemStatEntry
  Damage : List ItemDamage
  deriving DecidableEq, Repr

/-- The array sizes of a template are the ones the host declares. -/
def ItemTemplate.WellFormed (core : ItemCore) (temp : ItemTemplate) : Prop :=
  temp.Spells.length = core.MAX_ITEM_PROTO_SPELLS ∧
  temp.ItemStat.length = core.MAX_ITEM_PROTO_STATS ∧
  temp.Damage.length = core.MAX_ITEM_PROTO_DAMAGES

instance (core : ItemCore) (temp : ItemTemplate) : Decidable (temp.WellFormed core) := by
  unfold ItemTemplate.WellFormed
  infer_instance

/-- The host's `enum EnchantmentSlot` (declared outside src/), as the integer
a value of it compares as: in a comparison the enum is promoted to `int`. -/
abbrev EnchantmentSlot := Int

/-- The cast `(EnchantmentSlot)value` of a `uint32`: the same 32 bits taken as
an `int`, so that the values from 2^31 on are negative. -/
def EnchantmentSlot.cast (value : Nat) : EnchantmentSlot :=
  if value % 2 ^ 32 < 2 ^ 31 then (value % 2 ^ 32 : Nat) else (value % 2 ^ 32 : Nat) - 2 ^ 32

/-- One call of `Player::ApplyEnchantment(item, slot, apply)`: the slot, the
enchantment id the item holds in that slot at the time of the call, and
whether the effect is applied or removed. -/
structure EnchantmentEffect where
  slot : EnchantmentSlot
  enchantId : Nat
  apply : Bool
  deriving DecidableEq, Repr

/-- The part of a `Player` the Item thunks touch: the level, and the record of
the `ApplyEnchantment` calls made on the player. -/
structure Player where
  guid : Nat
  level : Nat
  enchantmentEffects : List EnchantmentEffect
  deriving DecidableEq, Repr

/-- The part of an `Item` the modelled thunks read and write: the template,
the owner (none for an item without owner), the enchantment id per slot, and
the random property data of the chat link. -/
structure Item where
  template : ItemTemplate
  owner : Option Player
  enchantmentId : EnchantmentSlot → Nat
  randomPropertyId : Int
  suffixFactor : Nat

/-- The host's `Item::GetEnchantmentId(slot)`. -/
def Item.GetEnchantmentId (item : Item) (slot : EnchantmentSlot) : Nat :=
  item.enchantmentId slot

/-- The host's `Item::SetEnchantment(slot, id, duration, charges)`: the slot
holds the id afterwards. -/
def Item.SetEnchantment (item : Item) (slot : EnchantmentSlot) (id : Nat)
    (_duration _charges : Nat) : Item :=
  { item with enchantmentId := fun s => if s = slot then id else item.enchantmentId s }

/-- The host's `Item::ClearEnchantment(slot)`: the slot holds no enchantment
afterwards. -/
def Item.ClearEnchantment (item : Item) (slot : EnchantmentSlot) : Item :=
  { item with enchantmentId := fun s => if s = slot then 0 else item.enchantmentId s }

/-- The host's `Player::ApplyEnchantment(item, slot, apply)`, recorded on the
player and not interpreted. -/
def Player.ApplyEnchantment (owner : Player) (item : Item) (slot : EnchantmentSlot)
    (apply : Bool) : Player :=
  { owner with
    enchantmentEffects := owner.enchantmentEffects ++ [⟨slot, item.GetEnchantmentId slot, apply⟩] }

/-- What `GetItemLink` streams into the chat link, field by field. -/
structure ItemLink where
  Quality : Nat
  ItemId : Nat
  enchantId : Nat
  randomPropertyId : Int
  suffixFactor : Nat
  ownerLevel : Nat
  name : String
  deriving DecidableEq, Repr

namespace LuaItem

/-- The thunk `LuaItem::GetItemLink`. -/
def GetItemLink (core : ItemCore) (E : Eluna) (item : Item) : MethodResult ItemLink :=
  match CHECKVAL_uint8_opt E 2 core.DEFAULT_LOCALE with
  | Checked.ArgumentTypeError index expectedType => MethodResult.argerror index expectedType
  | Checked.ok locale =>
    if locale >= core.TOTAL_LOCALES then
      MethodResult.argerror 2 "valid LocaleConstant expected"
    else
      let temp := item.template
      let name : Option String :=
        match core.GetItemLocale temp.ItemId with
        | some il => il.get? locale
        | none => some temp.Name1
      match name, item.owner with
      | some name, some owner =>
        MethodResult.returned
          [⟨temp.Quality, temp.ItemId, item.GetEnchantmentId core.PERM_ENCHANTMENT_SLOT,
            item.randomPropertyId, item.suffixFactor, owner.level, name⟩] 1
      | _, _ => MethodResult.undefined

/-- The thunk `LuaItem::GetEnchantmentId`.  The slot is compared as the
`uint32` it was read as and converted to `EnchantmentSlot` after the guard. -/
def GetEnchantmentId (core : ItemCore) (E : Eluna) (item : Item) : MethodResult LuaValue :=
  match CHECKVAL_uint32 E 2 with
  | Checked.ArgumentTypeError index expectedType => MethodResult.argerror index expectedType
  | Checked.ok enchant_slot =>
    if enchant_slot >= core.MAX_INSPECTED_ENCHANTMENT_SLOT then
      MethodResult.argerror 2 "valid EnchantmentSlot expected"
    else
      MethodResult.returned
        [LuaValue.number (item.GetEnchantmentId (EnchantmentSlot.cast enchant_slot))] 1

/-- The thunk `LuaItem::GetSpellId`. -/
def GetSpellId (core : ItemCore) (E : Eluna) (item : Item) : MethodResult LuaValue :=
  match CHECKVAL_uint32 E 2 with
  | Checked.ArgumentTypeError index expectedType => MethodResult.argerror index expectedType
  | Checked.ok index =>
    if index >= core.MAX_ITEM_PROTO_SPELLS then
      MethodResult.argerror 2 "valid SpellIndex expected"
    else
      match item.template.Spells.get? index with
      | some spell => MethodResult.returned [LuaValue.number spell.SpellId] 1
      | none => MethodResult.undefined

/-- The thunk `LuaItem::GetSpellTrigger`. -/
def GetSpellTrigger (core : ItemCore) (E : Eluna) (item : Item) : MethodResult LuaValue :=
  match CHECKVAL_uint32 E 2 with
  | Checked.ArgumentTypeError index expectedType => MethodResult.argerror index expectedType
  | Checked.ok index =>
    if index >= core.MAX_ITEM_PROTO_SPELLS then
      MethodResult.argerror 2 "valid SpellIndex expected"
    else
      match item.template.Spells.get? index with
      | some spell => MethodResult.returned [LuaValue.number spell.SpellTrigger] 1
      | none => MethodResult.undefined

/-- The thunk `LuaItem::GetStatInfo`. -/
def GetStatInfo (core : ItemCore) (E : Eluna) (item : Item) : MethodResult LuaValue :=
  match CHECKVAL_uint8 E 2 with
  | Checked.ArgumentTypeError index expectedType => MethodResult.argerror index expectedType
  | Checked.ok statSlot =>
    if statSlot > 0 && statSlot <= core.MAX_ITEM_PROTO_STATS then
      match item.template.ItemStat.get? (statSlot - 1) with
      | some statEntry =>
        MethodResult.returned
          [LuaValue.number statEntry.ItemStatValue, LuaValue.number statEntry.ItemStatType] 2
      | none => MethodResult.undefined
    else
      MethodResult.returned [LuaValue.number 0, LuaValue.number 0] 2

/-- The thunk `LuaItem::GetDamageInfo`. -/
def GetDamageInfo (core : ItemCore) (E : Eluna) (item : Item) : MethodResult LuaValue :=
  match CHECKVAL_uint8 E 2 with
  | Checked.ArgumentTypeError index expectedType => MethodResult.argerror index expectedType
  | Checked.ok damageSlot =>
    if damageSlot > 0 && damageSlot <= core.MAX_ITEM_PROTO_DAMAGES then
      match item.template.Damage.get? (damageSlot - 1) with
      | some damageEntry =>
        MethodResult.returned
          [LuaValue.number damageEntry.DamageType, LuaValue.number damageEntry.DamageMin,
            LuaValue.number damageEntry.DamageMax] 3
      | none => MethodResult.undefined
    else
      MethodResult.returned [LuaValue.number 0, LuaValue.number 0, LuaValue.number 0] 3

/-- The thunk `LuaItem::SetEnchantment`: the item after the call (its owner
included) and what the thunk did.  The slot is cast to `EnchantmentSlot`
before it is compared with `MAX_INSPECTED_ENCHANTMENT_SLOT`. -/
def SetEnchantment (core : ItemCore) (E : Eluna) (item : Item) : Item × MethodResult LuaValue :=
  match item.owner with
  | none => (item, MethodResult.returned [LuaValue.boolean false] 1)
  | some owner =>
    match CHECKVAL_uint32 E 2 with
    | Checked.ArgumentTypeError index expectedType =>
      (item, MethodResult.argerror index expectedType)
    | Checked.ok enchant =>
      if !core.LookupEntry enchant then
        (item, MethodResult.returned [LuaValue.boolean false] 1)
      else
        match CHECKVAL_uint32 E 3 with
        | Checked.ArgumentTypeError index expectedType =>
          (item, MethodResult.argerror index expectedType)
        | Checked.ok value =>
          let slot := EnchantmentSlot.cast value
          if slot >= (core.MAX_INSPECTED_ENCHANTMENT_SLOT : Int) then
            (item, MethodResult.argerror 2 "valid EnchantmentSlot expected")
          else
            let owner1 := owner.ApplyEnchantment item slot false
            let item1 := item.SetEnchantment slot enchant 0 0
            let owner2 := owner1.ApplyEnchantment item1 slot true
            ({ item1 with owner := some owner2 },
              MethodResult.returned [LuaValue.boolean true] 1)

/-- The thunk `LuaItem::ClearEnchantment`: the item after the call (its owner
included) and what the thunk did.  The slot is cast to `EnchantmentSlot`
before it is compared with `MAX_INSPECTED_ENCHANTMENT_SLOT`. -/
def ClearEnchantment (core : ItemCore) (E : Eluna) (item : Item) : Item × MethodResult LuaValue :=
  match item.owner with
  | none => (item, MethodResult.returned [LuaValue.boolean false] 1)
  | some owner =>
    match CHECKVAL_uint32 E 2 with
    | Checked.ArgumentTypeError index expectedType =>
      (item, MethodResult.argerror index expectedType)
    | Checked.ok value =>
      let slot := EnchantmentSlot.cast value
      if slot >= (core.MAX_INSPECTED_ENCHANTMENT_SLOT : Int) then
        (item, MethodResult.argerror 2 "valid EnchantmentSlot expected")
      else if item.GetEnchantmentId slot = 0 then
        (item, MethodResult.returned [LuaValue.boolean false] 1)
      else
        let owner1 := owner.ApplyEnchantment item slot false
        let item1 := item.ClearEnchantment slot
        ({ item1 with owner := some owner1 }, MethodResult.returned [LuaValue.boolean true] 1)

end LuaItem

/-- Engine state at a method call `obj:Method(args...)`: the object at stack
index 1 and the arguments from index 2 on. -/
def methodCall (args : List LuaValue) : Eluna :=
  { L := LuaValue.userdata 0 :: args, push_counter := 0, functions := [],
    registry := fun _ _ => none,
    CreatureEventBindings := fun _ => [],
    CreatureUniqueBindings := fun _ => [],
    VehicleEventBindings := fun _ => [],
    calls := [], errors := 0 }

/-- Host constants of the Item examples: five spell slots, ten stat slots, five
damage slots, two inspected enchantment slots, nine locales, and an
enchantment store that knows the ids 1 to 3000. -/
def exampleItemCore : ItemCore :=
  { MAX_ITEM_PROTO_SPELLS := 5, MAX_ITEM_PROTO_STATS := 10, MAX_ITEM_PROTO_DAMAGES := 5,
    MAX_INSPECTED_ENCHANTMENT_SLOT := 2, PERM_ENCHANTMENT_SLOT := 0,
    TOTAL_LOCALES := 9, DEFAULT_LOCALE := 0,
    LookupEntry := fun id => decide (0 < id) && decide (id ≤ 3000),
    GetItemLocale := fun _ => none }

/-- Template of the Item examples. -/
def exampleItemTemplate : ItemTemplate :=
  { ItemId := 19019, Name1 := "Thunderfury", Quality := 5,
    Spells := [⟨21992, 1⟩, ⟨0, 0⟩, ⟨0, 0⟩, ⟨0, 0⟩, ⟨0, 0⟩],
    ItemStat := [⟨3, 5⟩, ⟨7, 8⟩, ⟨0, 0⟩, ⟨0, 0⟩, ⟨0, 0⟩, ⟨0, 0⟩, ⟨0, 0⟩, ⟨0, 0⟩, ⟨0, 0⟩, ⟨0, 0⟩],
    Damage := [⟨44, 115, 0⟩, ⟨16, 30, 3⟩, ⟨0, 0, 0⟩, ⟨0, 0, 0⟩, ⟨0, 0, 0⟩] }

/-- An owned item of the examples: slot 0 holds the enchantment 1900, the
other slots hold none. -/
def ownedItem : Item :=
  { template := exampleItemTemplate,
    owner := some ⟨42, 60, []⟩,
    enchantmentId := fun s => if s = 0 then 1900 else 0,
    randomPropertyId := 0, suffixFactor := 0 }

/-! ## methods/TrinityCore/CreatureMethods.h: the threat-list thunks -/

/-- The object types a `Unit` can have. -/
inductive TypeID where
  | TYPEID_UNIT
  | TYPEID_PLAYER
  deriving DecidableEq, Repr

/-- The part of a host `Unit` the threat-list thunks read: its identity, its
type and the auras it has.  (Named `WorldUnit` because `Unit` is taken.) -/
structure WorldUnit where
  id : Nat
  typeId : TypeID
  auras : List Nat
  deriving DecidableEq, Repr

/-- The host's `Unit::GetTypeId()`. -/
def WorldUnit.GetTypeId (target : WorldUnit) : TypeID := target.typeId

/-- The host's `Unit::HasAura(spellId)`. -/
def WorldUnit.HasAura (target : WorldUnit) (spellId : Nat) : Bool := decide (spellId ∈ target.auras)

/-- A `ThreatReference`: its victim, or none for a null victim. -/
structure ThreatReference where
  victim : Option WorldUnit
  deriving DecidableEq, Repr

/-- The host's `ThreatReference::GetVictim()`. -/
def ThreatReference.GetVictim (itr : ThreatReference) : Option WorldUnit := itr.victim

/-- The part of a `Creature` and of the host around it that the threat-list
thunks read: the sorted threat list, the distance test and the distance order
of the creature, one draw of the random source, and the spell store. -/
structure ThreatCreature where
  /-- The list `GetThreatManager().GetSortedThreatList()`. -/
  threatlist : List ThreatReference
  /-- The host's `Creature::IsWithinDist(target, dist)`. -/
  IsWithinDist : WorldUnit → Int → Bool
  /-- The distance of a unit from the creature, as an order key. -/
  distance : WorldUnit → Nat
  /-- The host's `urand(min, max)`, a value from min to max, both included. -/
  urand : Nat → Nat → Nat
  /-- The host's `sSpellMgr->GetSpellInfo(spell)`. -/
  GetSpellInfo : Nat → Option SpellInfo

/-- The values of `enum SelectAggroTarget`. -/
def SELECT_TARGET_RANDOM : Nat := 0

def SELECT_TARGET_TOPAGGRO : Nat := 1

def SELECT_TARGET_BOTTOMAGGRO : Nat := 2

def SELECT_TARGET_NEAREST : Nat := 3

def SELECT_TARGET_FARTHEST : Nat := 4

/-- Modelled from the spec: `ElunaUtil::ObjectDistanceOrderPred(creature)`
(ElunaUtil.h is outside src/) orders objects by their distance from the
creature, nearest first; `std::list::sort` keeps the order of equal ones. -/
def sortByDistance (creature : ThreatCreature) (targetList : List WorldUnit) : List WorldUnit :=
  targetList.insertionSort (fun a b => creature.distance a ≤ creature.distance b)

namespace LuaCreature

/-- The loop of `GetAITarget` over the threat list, which fills `targetList`. -/
def collectTargets (creature : ThreatCreature) (playerOnly : Bool) (dist : Int) (aura : Int) :
    List ThreatReference → List WorldUnit
  | [] => []
  | itr :: rest =>
    match itr.GetVictim with
    | none => collectTargets creature playerOnly dist aura rest
    | some target =>
      if playerOnly && target.GetTypeId != TypeID.TYPEID_PLAYER then
        collectTargets creature playerOnly dist aura rest
      else if decide (aura > 0) && !target.HasAura aura.toNat then
        collectTargets creature playerOnly dist aura rest
      else if decide (aura < 0) && target.HasAura (-aura).toNat then
        collectTargets creature playerOnly dist aura rest
      else if decide (dist > 0) && !creature.IsWithinDist target dist then
        collectTargets creature playerOnly dist aura rest
      else if decide (dist < 0) && creature.IsWithinDist target (-dist) then
        collectTargets creature playerOnly dist aura rest
      else
        target :: collectTargets creature playerOnly dist aura rest

/-- Pushing `*itr`: the unit the iterator stands on; an iterator at the end
cannot be dereferenced. -/
def pushDeref (itr : List WorldUnit) : MethodResult LuaValue :=
  match itr.head? with
  | some target => MethodResult.returned [LuaValue.userdata target.id] 1
  | none => MethodResult.undefined

/-- The thunk `LuaCreature::GetAITarget`. -/
def GetAITarget (E : Eluna) (creature : ThreatCreature) : MethodResult LuaValue :=
  match CHECKVAL_uint32 E 2 with
  | Checked.ArgumentTypeError index expectedType => MethodResult.argerror index expectedType
  | Checked.ok targetType =>
    let playerOnly := CHECKVAL_bool_opt E 3 false
    match CHECKVAL_uint32_opt E 4 0 with
    | Checked.ArgumentTypeError index expectedType => MethodResult.argerror index expectedType
    | Checked.ok position =>
      match CHECKVAL_float_opt E 5 0 with
      | Checked.ArgumentTypeError index expectedType => MethodResult.argerror index expectedType
      | Checked.ok dist =>
        match CHECKVAL_int32_opt E 6 0 with
        | Checked.ArgumentTypeError index expectedType =>
          MethodResult.argerror index expectedType
        | Checked.ok aura =>
          let targetList := collectTargets creature playerOnly dist aura creature.threatlist
          if targetList.isEmpty then MethodResult.returned [] 1
          else if position >= targetList.length then MethodResult.returned [] 1
          else
            let targetList :=
              if targetType = SELECT_TARGET_NEAREST ∨ targetType = SELECT_TARGET_FARTHEST then
                sortByDistance creature targetList
              else targetList
            if targetType = SELECT_TARGET_NEAREST ∨ targetType = SELECT_TARGET_TOPAGGRO then
              pushDeref (if position ≠ 0 then targetList.drop position else targetList)
            else if targetType = SELECT_TARGET_FARTHEST ∨
                targetType = SELECT_TARGET_BOTTOMAGGRO then
              pushDeref
                (if position ≠ 0 then targetList.reverse.drop position else targetList.reverse)
            else if targetType = SELECT_TARGET_RANDOM then
              pushDeref
                (if position ≠ 0 then targetList.drop (creature.urand 0 position)
                  else targetList.drop (creature.urand 0 (targetList.length - 1)))
            else MethodResult.argerror 2 "SelectAggroTarget expected"

/-- The call `GetThreatManager().AddThreat(victim, threat, spell, ignoreModifiers,
ignoreRedirects)` a thunk makes on the host. -/
structure AddThreatCall where
  victim : Nat
  threat : Int
  spell : Option SpellInfo
  ignoreModifiers : Bool
  ignoreRedirects : Bool
  deriving DecidableEq, Repr

/-- The thunk `LuaCreature::AddThreat`: the call it makes on the threat manager,
if any, and what the thunk did.  The default handed to `CHECKVAL<float>` is the
boolean `true`, which converts to 1. -/
def AddThreat (E : Eluna) (creature : ThreatCreature) :
    Option AddThreatCall × MethodResult LuaValue :=
  match CHECKOBJ E 2 with
  | none => (none, MethodResult.argerror 2 "Unit expected")
  | some victim =>
    match CHECKVAL_float_opt E 3 1 with
    | Checked.ArgumentTypeError index expectedType =>
      (none, MethodResult.argerror index expectedType)
    | Checked.ok threat =>
      match CHECKVAL_uint32_opt E 4 0 with
      | Checked.ArgumentTypeError index expectedType =>
        (none, MethodResult.argerror index expectedType)
      | Checked.ok spell =>
        (some ⟨victim, threat, if spell ≠ 0 then creature.GetSpellInfo spell else none,
            true, true⟩,
          MethodResult.returned [] 0)

end LuaCreature

/-- The filters of `GetAITarget` in the words of its documentation: with
`playerOnly` the victim is a player; a positive aura must be present and a
negative one absent; a positive distance is a maximum and a negative one a
minimum; zero and `playerOnly = false` exclude nobody. -/
def passesFilters (creature : ThreatCreature) (playerOnly : Bool) (dist : Int) (aura : Int)
    (target : WorldUnit) : Bool :=
  (!playerOnly || target.GetTypeId == TypeID.TYPEID_PLAYER) &&
  (!decide (aura > 0) || target.HasAura aura.toNat) &&
  (!decide (aura < 0) || !target.HasAura (-aura).toNat) &&
  (!decide (dist > 0) || creature.IsWithinDist target dist) &&
  (!decide (dist < 0) || !creature.IsWithinDist target (-dist))

/-- The candidate list of `GetAITarget`, its `targetList` after the filter
loop, for the filter values the thunk has read. -/
def candidates (creature : ThreatCreature) (playerOnly : Bool) (dist aura : Int) :
    List WorldUnit :=
  LuaCreature.collectTargets creature playerOnly dist aura creature.threatlist

/-- Distance of the units of the threat example from the creature, by unit id. -/
def exampleDistance (target : WorldUnit) : Nat :=
  match target.id with
  | 1 => 40
  | 2 => 10
  | 3 => 5
  | 4 => 30
  | 5 => 20
  | 6 => 15
  | _ => 60

/-- The creature of the threat examples.  Its threat list holds, from top
aggro down: player 1, a null victim, player 2, the non-player 3, players 4 and
5, all with aura 24328, then player 6 without the aura and player 7 with it.
Units 1 to 6 are 40, 10, 5, 30, 20 and 15 yards away and unit 7 is 60 yards
away.  The random source returns its upper bound. -/
def exampleThreat : ThreatCreature :=
  { threatlist :=
      [⟨some ⟨1, TypeID.TYPEID_PLAYER, [24328]⟩⟩, ⟨none⟩,
        ⟨some ⟨2, TypeID.TYPEID_PLAYER, [24328]⟩⟩, ⟨some ⟨3, TypeID.TYPEID_UNIT, [24328]⟩⟩,
        ⟨some ⟨4, TypeID.TYPEID_PLAYER, [24328]⟩⟩, ⟨some ⟨5, TypeID.TYPEID_PLAYER, [24328]⟩⟩,
        ⟨some ⟨6, TypeID.TYPEID_PLAYER, []⟩⟩, ⟨some ⟨7, TypeID.TYPEID_PLAYER, [24328]⟩⟩],
    IsWithinDist := fun target dist => decide ((exampleDistance target : Int) ≤ dist),
    distance := exampleDistance,
    urand := fun _ max => max,
    GetSpellInfo := fun spell => some ⟨spell⟩ }

/-! ## methods/TrinityCore/CreatureMethods.h: the table of `GetAITargets` -/

/-- A Lua table with integer keys, as `lua_rawseti` builds it: the keys that
hold a value, each once, with their values. -/
structure LuaTable where
  entries : List (Nat × LuaValue)
  deriving DecidableEq, Repr

/-- The value a table holds at an integer key, nil when the key holds none. -/
def LuaTable.rawgeti (t : LuaTable) (n : Nat) : LuaValue :=
  match t.entries.find? (fun e => e.1 == n) with
  | some e => e.2
  | none => LuaValue.nil

/-- The assignment `t[n] = v`: the key holds `v` afterwards, and holds nothing
when `v` is nil. -/
def LuaTable.rawseti (t : LuaTable) (n : Nat) (v : LuaValue) : LuaTable :=
  if v = LuaValue.nil then ⟨t.entries.filter (fun e => e.1 != n)⟩
  else ⟨t.entries.filter (fun e => e.1 != n) ++ [(n, v)]⟩

/-- A slot of the Lua stack of a thunk that builds a table: a plain value or a
table. -/
inductive StackSlot where
  | value (v : LuaValue)
  | table (t : LuaTable)
  deriving DecidableEq, Repr

namespace TableStack

/-- The C API call `lua_gettop` on a stack with tables (bottom first). -/
def lua_gettop (L : List StackSlot) : Nat := L.length

/-- The C API call `lua_createtable(L, narr, nrec)`: a new empty table is
pushed; the two sizes are allocation hints. -/
def lua_createtable (L : List StackSlot) (_narr _nrec : Nat) : List StackSlot :=
  L ++ [StackSlot.table ⟨[]⟩]

/-- The push of a non-null `Unit*`. -/
def Push (L : List StackSlot) (target : WorldUnit) : List StackSlot :=
  L ++ [StackSlot.value (LuaValue.userdata target.id)]

/-- The C API call `lua_rawseti(L, idx, n)`: the value on top of the stack is
popped and stored at key `n` of the table at stack index `idx`. -/
def lua_rawseti (L : List StackSlot) (idx n : Nat) : List StackSlot :=
  match L.getLast?, L.dropLast.get? (idx - 1) with
  | some (StackSlot.value v), some (StackSlot.table t) =>
    L.dropLast.set (idx - 1) (StackSlot.table (t.rawseti n v))
  | _, _ => L.dropLast

/-- The C API call `lua_settop(L, idx)` for an index within the stack: the
slots above it are dropped. -/
def lua_settop (L : List StackSlot) (idx : Nat) : List StackSlot := L.take idx

end TableStack

namespace LuaCreature

/-- The loop of `GetAITargets` over the threat list: the stack and the counter
`i` after it.  The counter is a `uint32`. -/
def GetAITargets_loop : List ThreatReference → List StackSlot → Nat → Nat → List StackSlot × Nat
  | [], L, _, i => (L, i)
  | itr :: rest, L, tbl, i =>
    match itr.GetVictim with
    | none => GetAITargets_loop rest L tbl i
    | some target =>
      GetAITargets_loop rest
        (TableStack.lua_rawseti (TableStack.Push L target) tbl ((i + 1) % 2 ^ 32))
        tbl ((i + 1) % 2 ^ 32)

/-- The thunk `LuaCreature::GetAITargets`: the stack after the call and the
number of results it returns, which are taken from the top of the stack. -/
def GetAITargets (L : List StackSlot) (creature : ThreatCreature) : List StackSlot × Nat :=
  let L1 := TableStack.lua_createtable L creature.threatlist.length 0
  let tbl := TableStack.lua_gettop L1
  let out := GetAITargets_loop creature.threatlist L1 tbl 0
  (TableStack.lua_settop out.1 tbl, 1)

end LuaCreature

/-! ## The handler loops on the modelled stack -/

theorem callResults_two (f : LuaFunction) (args : List LuaValue) :
    ∃ r0 r1, callResults f args 2 = [r0, r1] := by
  unfold callResults
  cases f args with
  | none => exact ⟨_, _, rfl⟩
  | some rs =>
    match rs with
    | [] => exact ⟨_, _, rfl⟩
    | [a] => exact ⟨_, _, rfl⟩
    | a :: b :: t => exact ⟨a, b, by simp⟩

theorem lua_index_append_right (E : Eluna) (S T : List LuaValue) (k : Nat) (h : E.L = S ++ T) :
    lua_index E (S.length + k + 1) = T.getD k LuaValue.nil := by
  simp [lua_index, h, List.getElem?_append_right, List.getD_eq_getElem?_getD]

theorem functions_getD_next (E : Eluna) (pre fs : List Nat) (f : Nat)
    (hf : E.functions = pre ++ f :: fs) :
    E.functions.getD (E.functions.length - (fs.length + 1)) 0 = f := by
  have hlen : (pre ++ f :: fs).length - (fs.length + 1) = pre.length := by
    simp
  rw [hf, hlen, List.getD_append_right _ _ _ _ (Nat.le_refl _)]
  simp

theorem override_if (r : LuaValue) (rs : List LuaValue) (b : Bool) :
    (if (r.isboolean && r.toboolean) = true then true else b) = (overrideFlag (r :: rs) || b) := by
  cases h : (r.isboolean && r.toboolean) <;> simp [overrideFlag, h]

theorem DamageTaken_loop_spec (fs : List Nat) :
    ∀ (pre : List Nat) (E : Eluna) (base : List LuaValue) (a1 a2 : LuaValue) (b : Bool) (d : Nat),
      E.functions = pre ++ fs → E.L = base ++ [a1, a2, LuaValue.number d] →
      DamageTaken_loop fs.length E (base.length + 3) b d =
        ({ E with
            L := base ++ [a1, a2, LuaValue.number (threadValue E.registry [a1, a2] fs d)]
            calls := E.calls ++ threadCalls E.registry [a1, a2] fs d
            errors := threadErrors E.registry [a1, a2] fs d E.errors },
          threadResult E.registry [a1, a2] fs d b, threadValue E.registry [a1, a2] fs d) := by
  induction fs with
  | nil =>
    intro pre E base a1 a2 b d hf hL
    cases E
    simp only at hL
    subst hL
    simp [DamageTaken_loop, threadValue, threadCalls, threadErrors, threadResult]
  | cons f fs ih =>
    intro pre E base a1 a2 b d hf hL
    obtain ⟨r0, r1, hr⟩ := callResults_two (E.registry f) [a1, a2, LuaValue.number d]
    have hfn := functions_getD_next E pre fs f hf
    have hargs : E.L.drop (lua_gettop E - 3) = [a1, a2, LuaValue.number d] := by
      rw [lua_gettop, hL]; simp
    have hstep : CallOneFunction E (fs.length + 1) 3 2 =
        ({ E with
            L := base ++ [a1, a2, LuaValue.number d] ++ [r0, r1]
            calls := E.calls ++ [⟨f, [a1, a2, LuaValue.number d], [r0, r1]⟩]
            errors := if (E.registry f [a1, a2, LuaValue.number d]).isSome then E.errors
              else E.errors + 1 }, base.length + 3 + 1) := by
      simp only [CallOneFunction, ExecuteCall, hfn, hargs, hr]
      simp [hL, lua_gettop]
    have hlist : List.length (f :: fs) = fs.length + 1 := rfl
    rw [hlist, DamageTaken_loop]
    simp only [hstep]
    have h0 : ∀ (S : Eluna), S.L = base ++ [a1, a2, LuaValue.number d] ++ [r0, r1] →
        lua_index S (base.length + 3 + 1 + 0) = r0 := by
      intro S hS
      simpa using lua_index_append_right S (base ++ [a1, a2, LuaValue.number d]) [r0, r1] 0 hS
    have h1 : ∀ (S : Eluna), S.L = base ++ [a1, a2, LuaValue.number d] ++ [r0, r1] →
        lua_index S (base.length + 3 + 1 + 1) = r1 := by
      intro S hS
      simpa using lua_index_append_right S (base ++ [a1, a2, LuaValue.number d]) [r0, r1] 1 hS
    simp only [lua_isnumber, lua_isboolean, lua_toboolean, CHECKVAL_uint32_number, h0, h1]
    rw [override_if r0 [r1] b]
    by_cases hnum : r1.isnumber = true
    · simp only [hnum, if_true]
      rw [ih (pre ++ [f]) _ base a1 a2 _ r1.touint32 (by simp [lua_pop, ReplaceArgument, hf])
        (by simp [lua_pop, ReplaceArgument, List.set_append_right, List.take_append])]
      simp [threadValue, threadCalls, threadErrors, threadResult, hr, valueLeft, lua_pop,
        ReplaceArgument, hnum]
    · simp only [hnum, if_false]
      rw [ih (pre ++ [f]) _ base a1 a2 _ d (by simp [lua_pop, hf]) (by simp [lua_pop, List.take_append])]
      simp [threadValue, threadCalls, threadErrors, threadResult, hr, valueLeft, lua_pop, hnum]

theorem callResults_one (f : LuaFunction) (args : List LuaValue) :
    ∃ r0, callResults f args 1 = [r0] := by
  unfold callResults
  cases f args with
  | none => exact ⟨_, rfl⟩
  | some rs =>
    match rs with
    | [] => exact ⟨_, rfl⟩
    | a :: t => exact ⟨a, by simp⟩

theorem callResults_zero (f : LuaFunction) (args : List LuaValue) :
    callResults f args 0 = [] := by
  unfold callResults
  cases f args <;> simp

theorem CorpseRemoved_loop_spec (fs : List Nat) :
    ∀ (pre : List Nat) (E : Eluna) (base : List LuaValue) (a1 : LuaValue) (b : Bool) (d : Nat),
      E.functions = pre ++ fs → E.L = base ++ [a1, LuaValue.number d] →
      CorpseRemoved_loop fs.length E (base.length + 2) b d =
        ({ E with
            L := base ++ [a1, LuaValue.number (threadValue E.registry [a1] fs d)]
            calls := E.calls ++ threadCalls E.registry [a1] fs d
            errors := threadErrors E.registry [a1] fs d E.errors },
          threadResult E.registry [a1] fs d b, threadValue E.registry [a1] fs d) := by
  induction fs with
  | nil =>
    intro pre E base a1 b d hf hL
    cases E
    simp only at hL
    subst hL
    simp [CorpseRemoved_loop, threadValue, threadCalls, threadErrors, threadResult]
  | cons f fs ih =>
    intro pre E base a1 b d hf hL
    obtain ⟨r0, r1, hr⟩ := callResults_two (E.registry f) [a1, LuaValue.number d]
    have hfn := functions_getD_next E pre fs f hf
    have hargs : E.L.drop (lua_gettop E - 2) = [a1, LuaValue.number d] := by
      rw [lua_gettop, hL]; simp
    have hstep : CallOneFunction E (fs.length + 1) 2 2 =
        ({ E with
            L := base ++ [a1, LuaValue.number d] ++ [r0, r1]
            calls := E.calls ++ [⟨f, [a1, LuaValue.number d], [r0, r1]⟩]
            errors := if (E.registry f [a1, LuaValue.number d]).isSome then E.errors
              else E.errors + 1 }, base.length + 2 + 1) := by
      simp only [CallOneFunction, ExecuteCall, hfn, hargs, hr]
      simp [hL, lua_gettop]
    have hlist : List.length (f :: fs) = fs.length + 1 := rfl
    rw [hlist, CorpseRemoved_loop]
    simp only [hstep]
    have h0 : ∀ (S : Eluna), S.L = base ++ [a1, LuaValue.number d] ++ [r0, r1] →
        lua_index S (base.length + 2 + 1 + 0) = r0 := by
      intro S hS
      simpa using lua_index_append_right S (base ++ [a1, LuaValue.number d]) [r0, r1] 0 hS
    have h1 : ∀ (S : Eluna), S.L = base ++ [a1, LuaValue.number d] ++ [r0, r1] →
        lua_index S (base.length + 2 + 1 + 1) = r1 := by
      intro S hS
      simpa using lua_index_append_right S (base ++ [a1, LuaValue.number d]) [r0, r1] 1 hS
    simp only [lua_isnumber, lua_isboolean, lua_toboolean, CHECKVAL_uint32_number, h0, h1]
    rw [override_if r0 [r1] b]
    by_cases hnum : r1.isnumber = true
    · simp only [hnum, if_true]
      rw [ih (pre ++ [f]) _ base a1 _ r1.touint32 (by simp [lua_pop, ReplaceArgument, hf])
        (by simp [lua_pop, ReplaceArgument, List.set_append_right, List.take_append])]
      simp [threadValue, threadCalls, threadErrors, threadResult, hr, valueLeft, lua_pop,
        ReplaceArgument, hnum]
    · simp only [hnum, if_false]
      rw [ih (pre ++ [f]) _ base a1 _ d (by simp [lua_pop, hf])
        (by simp [lua_pop, List.take_append])]
      simp [threadValue, threadCalls, threadErrors, threadResult, hr, valueLeft, lua_pop, hnum]

theorem CallAllFunctionsBool_loop_spec (fs : List Nat) :
    ∀ (pre : List Nat) (E : Eluna) (base args : List LuaValue) (b : Bool),
      E.functions = pre ++ fs → E.L = base ++ args →
      CallAllFunctionsBool_loop fs.length E args.length b =
        ({ E with
            calls := E.calls ++ chainCalls E.registry args 1 fs
            errors := chainErrors E.registry args fs E.errors },
          chainResult E.registry args fs || b) := by
  induction fs with
  | nil =>
    intro pre E base args b hf hL
    simp [CallAllFunctionsBool_loop, chainCalls, chainErrors, chainResult]
  | cons f fs ih =>
    intro pre E base args b hf hL
    obtain ⟨r0, hr⟩ := callResults_one (E.registry f) args
    have hfn := functions_getD_next E pre fs f hf
    have hargs : E.L.drop (lua_gettop E - args.length) = args := by
      rw [lua_gettop, hL]; simp
    have hstep : CallOneFunction E (fs.length + 1) args.length 1 =
        ({ E with
            L := base ++ args ++ [r0]
            calls := E.calls ++ [⟨f, args, [r0]⟩]
            errors := if (E.registry f args).isSome then E.errors else E.errors + 1 },
          (base ++ args).length + 0 + 1) := by
      simp only [CallOneFunction, ExecuteCall, hfn, hargs, hr]
      simp [hL, lua_gettop]
    have hlist : List.length (f :: fs) = fs.length + 1 := rfl
    rw [hlist, CallAllFunctionsBool_loop]
    simp only [hstep]
    have h0 : ∀ (S : Eluna), S.L = base ++ args ++ [r0] →
        lua_index S ((base ++ args).length + 0 + 1) = r0 := by
      intro S hS
      simpa using lua_index_append_right S (base ++ args) [r0] 0 hS
    simp only [lua_isboolean, lua_toboolean, h0]
    rw [override_if r0 [] b]
    rw [ih (pre ++ [f]) _ base args _ (by simp [lua_pop, hf])
      (by simp [lua_pop, List.take_append])]
    simp only [chainCalls, chainErrors, chainResult, hr, lua_pop, List.map_cons, List.any_cons,
      List.filter_cons]
    refine Prod.ext ?_ ?_
    · cases hs : (E.registry f args).isSome <;>
        simp [hL, List.take_append, Nat.add_assoc, Nat.add_comm]
    · generalize (fs.any fun f => overrideFlag (callResults (E.registry f) args 1)) = x
      cases x <;> cases b <;> cases overrideFlag [r0] <;> rfl

theorem CallAllFunctions_loop_spec (fs : List Nat) :
    ∀ (pre : List Nat) (E : Eluna) (base args : List LuaValue),
      E.functions = pre ++ fs → E.L = base ++ args →
      CallAllFunctions_loop fs.length E args.length =
        { E with
            calls := E.calls ++ chainCalls E.registry args 0 fs
            errors := chainErrors E.registry args fs E.errors } := by
  induction fs with
  | nil =>
    intro pre E base args hf hL
    simp [CallAllFunctions_loop, chainCalls, chainErrors]
  | cons f fs ih =>
    intro pre E base args hf hL
    have hr := callResults_zero (E.registry f) args
    have hfn := functions_getD_next E pre fs f hf
    have hargs : E.L.drop (lua_gettop E - args.length) = args := by
      rw [lua_gettop, hL]; simp
    have hstep : (CallOneFunction E (fs.length + 1) args.length 0).1 =
        { E with
            calls := E.calls ++ [⟨f, args, []⟩]
            errors := if (E.registry f args).isSome then E.errors else E.errors + 1 } := by
      simp only [CallOneFunction, ExecuteCall, hfn, hargs, hr]
      simp
    have hlist : List.length (f :: fs) = fs.length + 1 := rfl
    rw [hlist, CallAllFunctions_loop, hstep]
    rw [ih (pre ++ [f]) _ base args (by simp [hf]) (by simp [hL])]
    simp only [chainCalls, chainErrors, hr, List.map_cons, List.filter_cons]
    cases hs : (E.registry f args).isSome <;>
      simp [Nat.add_assoc, Nat.add_comm]

theorem CallAllFunctionsBool_spec {K1 K2 : Type} (E : Eluna) (b1 : BindingMap K1)
    (b2 : BindingMap K2) (k1 : K1) (k2 : K2) (base args : List LuaValue)
    (hL : E.L = base ++ args) (hc : E.push_counter = args.length) :
    CallAllFunctionsBool E b1 b2 k1 k2 =
      ({ E with
          L := base
          push_counter := 0
          functions := []
          calls := E.calls ++ chainCalls E.registry args 1 (b1 k1 ++ b2 k2)
          errors := chainErrors E.registry args (b1 k1 ++ b2 k2) E.errors },
        chainResult E.registry args (b1 k1 ++ b2 k2)) := by
  unfold CallAllFunctionsBool SetupStack
  simp only [hc]
  rw [CallAllFunctionsBool_loop_spec (b1 k1 ++ b2 k2) []
    { E with functions := b1 k1 ++ b2 k2, push_counter := 0 } base args false rfl hL]
  simp [CleanUpStack, lua_pop, hL]

theorem CallAllFunctions_spec {K1 K2 : Type} (E : Eluna) (b1 : BindingMap K1)
    (b2 : BindingMap K2) (k1 : K1) (k2 : K2) (base args : List LuaValue)
    (hL : E.L = base ++ args) (hc : E.push_counter = args.length) :
    CallAllFunctions E b1 b2 k1 k2 =
      { E with
          L := base
          push_counter := 0
          functions := []
          calls := E.calls ++ chainCalls E.registry args 0 (b1 k1 ++ b2 k2)
          errors := chainErrors E.registry args (b1 k1 ++ b2 k2) E.errors } := by
  unfold CallAllFunctions SetupStack
  simp only [hc]
  rw [CallAllFunctions_loop_spec (b1 k1 ++ b2 k2) []
    { E with functions := b1 k1 ++ b2 k2, push_counter := 0 } base args rfl hL]
  simp [CleanUpStack, lua_pop, hL]

theorem DamageTaken_spec (E : Eluna) (me : Creature) (attacker : Option Nat) (damage : Nat) :
    DamageTaken E me attacker damage =
      match START_HOOK E CreatureEvents.CREATURE_EVENT_ON_DAMAGE_TAKEN me with
      | none => (E, false, damage)
      | some (entry_key, unique_key) =>
        ({ E with
            push_counter := 0
            functions := []
            calls := E.calls ++ threadCalls E.registry [pushCreature me, pushObject attacker]
              (E.CreatureEventBindings entry_key ++ E.CreatureUniqueBindings unique_key) damage
            errors := threadErrors E.registry [pushCreature me, pushObject attacker]
              (E.CreatureEventBindings entry_key ++ E.CreatureUniqueBindings unique_key) damage
              E.errors },
          threadResult E.registry [pushCreature me, pushObject attacker]
            (E.CreatureEventBindings entry_key ++ E.CreatureUniqueBindings unique_key) damage false,
          threadValue E.registry [pushCreature me, pushObject attacker]
            (E.CreatureEventBindings entry_key ++ E.CreatureUniqueBindings unique_key) damage) := by
  unfold DamageTaken
  cases hg : START_HOOK E CreatureEvents.CREATURE_EVENT_ON_DAMAGE_TAKEN me with
  | none => rfl
  | some keys =>
    obtain ⟨entry_key, unique_key⟩ := keys
    simp only [SetupStack, HookPush, lua_gettop]
    have hlen : (E.L ++ [pushCreature me] ++ [pushObject attacker] ++ [LuaValue.number damage]).length
        = E.L.length + 3 := by simp
    rw [hlen, DamageTaken_loop_spec
      (E.CreatureEventBindings entry_key ++ E.CreatureUniqueBindings unique_key) []
      { E with
        L := E.L ++ [pushCreature me] ++ [pushObject attacker] ++ [LuaValue.number damage]
        functions := E.CreatureEventBindings entry_key ++ E.CreatureUniqueBindings unique_key
        push_counter := 0 }
      E.L (pushCreature me) (pushObject attacker) false damage rfl (by simp)]
    simp [CleanUpStack, lua_pop, List.take_append]

theorem CorpseRemoved_spec (E : Eluna) (me : Creature) (respawnDelay : Nat) :
    CorpseRemoved E me respawnDelay =
      match START_HOOK E CreatureEvents.CREATURE_EVENT_ON_CORPSE_REMOVED me with
      | none => (E, false, respawnDelay)
      | some (entry_key, unique_key) =>
        ({ E with
            push_counter := 0
            functions := []
            calls := E.calls ++ threadCalls E.registry [pushCreature me]
              (E.CreatureEventBindings entry_key ++ E.CreatureUniqueBindings unique_key)
              respawnDelay
            errors := threadErrors E.registry [pushCreature me]
              (E.CreatureEventBindings entry_key ++ E.CreatureUniqueBindings unique_key)
              respawnDelay E.errors },
          threadResult E.registry [pushCreature me]
            (E.CreatureEventBindings entry_key ++ E.CreatureUniqueBindings unique_key)
            respawnDelay false,
          threadValue E.registry [pushCreature me]
            (E.CreatureEventBindings entry_key ++ E.CreatureUniqueBindings unique_key)
            respawnDelay) := by
  unfold CorpseRemoved
  cases hg : START_HOOK E CreatureEvents.CREATURE_EVENT_ON_CORPSE_REMOVED me with
  | none => rfl
  | some keys =>
    obtain ⟨entry_key, unique_key⟩ := keys
    simp only [SetupStack, HookPush, lua_gettop]
    have hlen : (E.L ++ [pushCreature me] ++ [LuaValue.number respawnDelay]).length
        = E.L.length + 2 := by simp
    rw [hlen, CorpseRemoved_loop_spec
      (E.CreatureEventBindings entry_key ++ E.CreatureUniqueBindings unique_key) []
      { E with
        L := E.L ++ [pushCreature me] ++ [LuaValue.number respawnDelay]
        functions := E.CreatureEventBindings entry_key ++ E.CreatureUniqueBindings unique_key
        push_counter := 0 }
      E.L (pushCreature me) false respawnDelay rfl (by simp)]
    simp [CleanUpStack, lua_pop, List.take_append]

/-! ## The gate of the creature hooks -/

theorem START_HOOK_none (E : Eluna) (ev : CreatureEvents) (c : Creature)
    (h1 : E.CreatureEventBindings.HasBindingsFor ⟨ev, c.entry⟩ = false)
    (h2 : E.CreatureUniqueBindings.HasBindingsFor ⟨ev, c.guid, c.instanceId⟩ = false) :
    START_HOOK E ev c = none := by
  simp [START_HOOK, h1, h2]

/-- C1, as amended: a creature hook that returns a value and, when it tests
its gate, finds no binding for its own event, neither for (event, entry) nor
for (event, guid, instance id), returns false and leaves an in/out scalar
equal to its input.  The gate is tested on the state the hook is called in,
except that `JustDied`, `EnterEvadeMode` and `JustRespawned` raise `On_Reset`
first and test their gate on the state it leaves.  From that state on nothing
changes: no payload is pushed and no handler is invoked. -/
theorem creature_hook_gate (E : Eluna) (call : CreatureHookCall)
    (hret : call.policy ≠ Policy.Void)
    (h1 : (if call.raisesReset then On_Reset E call.creature
        else E).CreatureEventBindings.HasBindingsFor
      ⟨call.event, call.creature.entry⟩ = false)
    (h2 : (if call.raisesReset then On_Reset E call.creature
        else E).CreatureUniqueBindings.HasBindingsFor
      ⟨call.event, call.creature.guid, call.creature.instanceId⟩ = false) :
    call.run E =
      ⟨if call.raisesReset then On_Reset E call.creature else E, some false, call.scalarIn⟩ := by
  cases call <;>
    simp only [CreatureHookCall.policy, ne_eq, not_true_eq_false, reduceCtorEq] at hret <;>
    simp only [CreatureHookCall.event, CreatureHookCall.creature, CreatureHookCall.raisesReset,
      if_true, Bool.false_eq_true, if_false] at h1 h2 <;>
    simp [CreatureHookCall.run, CreatureHookCall.raisesReset, CreatureHookCall.scalarIn,
      CreatureHookCall.creature,
      OnQuestAccept, OnQuestReward, OnSummoned, UpdateAI, EnterCombat, DamageTaken, JustDied,
      KilledUnit, JustSummoned, SummonedCreatureDespawn, MovementInform, AttackStart,
      EnterEvadeMode, JustRespawned, JustReachedHome, ReceiveEmote, CorpseRemoved,
      MoveInLineOfSight, SpellHit, SpellHitTarget, SummonedCreatureDies, OwnerAttackedBy,
      OwnerAttacked, START_HOOK_none _ _ _ h1 h2]

theorem creature_hook_gate_witness :
    (CreatureHookCall.DamageTaken ⟨100, 7, 0⟩ (some 3) 10).run resetOnlyEngine =
      ⟨resetOnlyEngine, some false, some 10⟩ ∧
    (On_Reset resetOnlyEngine ⟨100, 7, 0⟩).CreatureEventBindings.HasBindingsFor
      ⟨CreatureEvents.CREATURE_EVENT_ON_DIED, 100⟩ = false ∧
    (On_Reset resetOnlyEngine ⟨100, 7, 0⟩).calls = [⟨1, [LuaValue.userdata 7], []⟩] ∧
    (CreatureHookCall.JustDied ⟨100, 7, 0⟩ none).run resetOnlyEngine =
      ⟨On_Reset resetOnlyEngine ⟨100, 7, 0⟩, some false, none⟩ ∧
    (CreatureHookCall.EnterEvadeMode ⟨100, 7, 0⟩).run resetOnlyEngine =
      ⟨On_Reset resetOnlyEngine ⟨100, 7, 0⟩, some false, none⟩ :=
  ⟨creature_hook_gate resetOnlyEngine (CreatureHookCall.DamageTaken ⟨100, 7, 0⟩ (some 3) 10)
      (by decide) (by decide) (by decide),
    by decide, by decide,
    creature_hook_gate resetOnlyEngine (CreatureHookCall.JustDied ⟨100, 7, 0⟩ none)
      (by decide) (by decide) (by decide),
    creature_hook_gate resetOnlyEngine (CreatureHookCall.EnterEvadeMode ⟨100, 7, 0⟩)
      (by decide) (by decide) (by decide)⟩

/-- C1 fails as stated for a hook that raises `On_Reset` first: with nothing
bound to `CREATURE_EVENT_ON_DIED`, `JustDied` still pushes the creature and
invokes the handler bound to `CREATURE_EVENT_ON_RESET`. -/
theorem creature_hook_gate_counterexample :
    resetOnlyEngine.CreatureEventBindings.HasBindingsFor
        ⟨CreatureEvents.CREATURE_EVENT_ON_DIED, 100⟩ = false ∧
      resetOnlyEngine.CreatureUniqueBindings.HasBindingsFor
        ⟨CreatureEvents.CREATURE_EVENT_ON_DIED, 7, 0⟩ = false ∧
      resetOnlyEngine.calls = [] ∧
      (JustDied resetOnlyEngine ⟨100, 7, 0⟩ none).1.calls = [⟨1, [LuaValue.userdata 7], []⟩] ∧
      (JustDied resetOnlyEngine ⟨100, 7, 0⟩ none).2 = false := by
  decide

/-! ## Value-threading hooks -/

theorem START_HOOK_cases (E : Eluna) (ev : CreatureEvents) (c : Creature) :
    (START_HOOK E ev c = none ∧ handlers E ev c = []) ∨
    (START_HOOK E ev c = some (⟨ev, c.entry⟩, ⟨ev, c.guid, c.instanceId⟩) ∧
      handlers E ev c ≠ []) := by
  unfold START_HOOK handlers BindingMap.HasBindingsFor
  cases h1 : E.CreatureEventBindings ⟨ev, c.entry⟩ <;>
    cases h2 : E.CreatureUniqueBindings ⟨ev, c.guid, c.instanceId⟩ <;> simp

theorem DamageTaken_calls (E : Eluna) (me : Creature) (attacker : Option Nat) (damage : Nat) :
    invocations E (DamageTaken E me attacker damage).1 =
      threadCalls E.registry [pushCreature me, pushObject attacker]
        (handlers E CreatureEvents.CREATURE_EVENT_ON_DAMAGE_TAKEN me) damage ∧
    (DamageTaken E me attacker damage).2.1 =
      threadResult E.registry [pushCreature me, pushObject attacker]
        (handlers E CreatureEvents.CREATURE_EVENT_ON_DAMAGE_TAKEN me) damage false ∧
    (DamageTaken E me attacker damage).2.2 =
      threadValue E.registry [pushCreature me, pushObject attacker]
        (handlers E CreatureEvents.CREATURE_EVENT_ON_DAMAGE_TAKEN me) damage := by
  rw [DamageTaken_spec]
  rcases START_HOOK_cases E CreatureEvents.CREATURE_EVENT_ON_DAMAGE_TAKEN me with ⟨h, hh⟩ | ⟨h, _⟩
  · rw [h, hh]
    simp [invocations, threadCalls, threadResult, threadValue]
  · rw [h]
    simp [invocations, handlers]

theorem CorpseRemoved_calls (E : Eluna) (me : Creature) (respawnDelay : Nat) :
    invocations E (CorpseRemoved E me respawnDelay).1 =
      threadCalls E.registry [pushCreature me]
        (handlers E CreatureEvents.CREATURE_EVENT_ON_CORPSE_REMOVED me) respawnDelay ∧
    (CorpseRemoved E me respawnDelay).2.1 =
      threadResult E.registry [pushCreature me]
        (handlers E CreatureEvents.CREATURE_EVENT_ON_CORPSE_REMOVED me) respawnDelay false ∧
    (CorpseRemoved E me respawnDelay).2.2 =
      threadValue E.registry [pushCreature me]
        (handlers E CreatureEvents.CREATURE_EVENT_ON_CORPSE_REMOVED me) respawnDelay := by
  rw [CorpseRemoved_spec]
  rcases START_HOOK_cases E CreatureEvents.CREATURE_EVENT_ON_CORPSE_REMOVED me with ⟨h, hh⟩ | ⟨h, _⟩
  · rw [h, hh]
    simp [invocations, threadCalls, threadResult, threadValue]
  · rw [h]
    simp [invocations, handlers]

theorem threadCalls_length (reg : Nat → LuaFunction) (p : List LuaValue) (fs : List Nat) :
    ∀ d, (threadCalls reg p fs d).length = fs.length := by
  induction fs with
  | nil => intro d; rfl
  | cons f fs ih => intro d; simp [threadCalls, ih]

theorem threadCalls_fn (reg : Nat → LuaFunction) (p : List LuaValue) (fs : List Nat) :
    ∀ d, (threadCalls reg p fs d).map CallRecord.fn = fs := by
  induction fs with
  | nil => intro d; rfl
  | cons f fs ih => intro d; simp [threadCalls, ih]

theorem threadCalls_head (reg : Nat → LuaFunction) (p : List LuaValue) (fs : List Nat) (d : Nat)
    (c : CallRecord) (h : (threadCalls reg p fs d)[0]? = some c) :
    c.args = p ++ [LuaValue.number d] := by
  cases fs with
  | nil => simp [threadCalls] at h
  | cons f fs =>
    simp [threadCalls] at h
    rw [← h]

/-- Sequential threading of the reference chain: every record holds what the
handler returned on the arguments it was given; the first handler sees the
start value, each later handler the value left by the one before it, and the
chain ends with the value left by the last. -/
theorem threadCalls_index (reg : Nat → LuaFunction) (p : List LuaValue) (fs : List Nat) :
    ∀ (d i : Nat) (c : CallRecord), (threadCalls reg p fs d)[i]? = some c →
      c.results = callResults (reg c.fn) c.args 2 ∧
      ∃ di : Nat, c.args = p ++ [LuaValue.number di] ∧ (i = 0 → di = d) ∧
        (∀ c', (threadCalls reg p fs d)[i + 1]? = some c' →
          c'.args = p ++ [LuaValue.number (valueLeft c.results di)]) ∧
        (i + 1 = fs.length → threadValue reg p fs d = valueLeft c.results di) := by
  induction fs with
  | nil => intro d i c h; simp [threadCalls] at h
  | cons f fs ih =>
    intro d i c h
    cases i with
    | zero =>
      simp only [threadCalls, List.getElem?_cons_zero, Option.some.injEq] at h
      subst h
      refine ⟨rfl, d, rfl, fun _ => rfl, ?_, ?_⟩
      · intro c' hc'
        simp only [threadCalls, List.getElem?_cons_succ] at hc'
        exact threadCalls_head reg p fs _ c' hc'
      · intro hlen
        have : fs = [] := by
          cases fs with
          | nil => rfl
          | cons g gs => simp at hlen
        subst this
        rfl
    | succ j =>
      simp only [threadCalls, List.getElem?_cons_succ] at h
      obtain ⟨hres, di, hargs, _, hnext, hlast⟩ := ih _ j c h
      refine ⟨hres, di, hargs, fun h0 => by simp at h0, ?_, ?_⟩
      · intro c' hc'
        simp only [threadCalls, List.getElem?_cons_succ] at hc'
        exact hnext c' hc'
      · intro hlen
        simp only [threadValue]
        exact hlast (by simpa using hlen)

theorem valueLeft_override (V1 d : Nat) (hV : V1 < 2 ^ 32) :
    valueLeft [LuaValue.boolean true, LuaValue.number V1] d = V1 := by
  simp only [valueLeft, List.getD_cons_succ, List.getD_cons_zero, LuaValue.isnumber,
    LuaValue.touint32, if_true]
  omega

/-- C2: sequential value threading in `DamageTaken` and `CorpseRemoved`.  Every
logged invocation holds what the handler returned on the arguments it was
called with; the first handler is called with the scalar the host passed in,
handler i+1 is called with the value left by handler i (the value it wrote
back when its second result is a number, otherwise the value it was called
with), and the scalar handed back to the host is the value left by the last
handler.  In particular a first handler that returns (true, V1) makes the
second handler see V1. -/
theorem value_threading (E : Eluna) (me : Creature) (attacker : Option Nat)
    (damage respawnDelay : Nat) :
    (∀ (i : Nat) (c : CallRecord),
      (invocations E (DamageTaken E me attacker damage).1)[i]? = some c →
        c.results = callResults (E.registry c.fn) c.args 2 ∧
        ∃ d : Nat, c.args = [pushCreature me, pushObject attacker, LuaValue.number d] ∧
          (i = 0 → d = damage) ∧
          (∀ c', (invocations E (DamageTaken E me attacker damage).1)[i + 1]? = some c' →
            c'.args = [pushCreature me, pushObject attacker,
              LuaValue.number (valueLeft c.results d)]) ∧
          (i + 1 = (invocations E (DamageTaken E me attacker damage).1).length →
            (DamageTaken E me attacker damage).2.2 = valueLeft c.results d)) ∧
    (∀ (c0 c1 : CallRecord) (V1 : Nat), V1 < 2 ^ 32 →
      (invocations E (DamageTaken E me attacker damage).1)[0]? = some c0 →
      (invocations E (DamageTaken E me attacker damage).1)[1]? = some c1 →
      c0.results = [LuaValue.boolean true, LuaValue.number V1] →
      c1.args = [pushCreature me, pushObject attacker, LuaValue.number V1]) ∧
    (∀ (i : Nat) (c : CallRecord),
      (invocations E (CorpseRemoved E me respawnDelay).1)[i]? = some c →
        c.results = callResults (E.registry c.fn) c.args 2 ∧
        ∃ d : Nat, c.args = [pushCreature me, LuaValue.number d] ∧
          (i = 0 → d = respawnDelay) ∧
          (∀ c', (invocations E (CorpseRemoved E me respawnDelay).1)[i + 1]? = some c' →
            c'.args = [pushCreature me, LuaValue.number (valueLeft c.results d)]) ∧
          (i + 1 = (invocations E (CorpseRemoved E me respawnDelay).1).length →
            (CorpseRemoved E me respawnDelay).2.2 = valueLeft c.results d)) ∧
    (∀ (c0 c1 : CallRecord) (V1 : Nat), V1 < 2 ^ 32 →
      (invocations E (CorpseRemoved E me respawnDelay).1)[0]? = some c0 →
      (invocations E (CorpseRemoved E me respawnDelay).1)[1]? = some c1 →
      c0.results = [LuaValue.boolean true, LuaValue.number V1] →
      c1.args = [pushCreature me, LuaValue.number V1]) := by
  obtain ⟨hc, _, hv⟩ := DamageTaken_calls E me attacker damage
  obtain ⟨hc2, _, hv2⟩ := CorpseRemoved_calls E me respawnDelay
  rw [hc, hv, hc2, hv2]
  have key := threadCalls_index E.registry [pushCreature me, pushObject attacker]
    (handlers E CreatureEvents.CREATURE_EVENT_ON_DAMAGE_TAKEN me) damage
  have key2 := threadCalls_index E.registry [pushCreature me]
    (handlers E CreatureEvents.CREATURE_EVENT_ON_CORPSE_REMOVED me) respawnDelay
  simp only [threadCalls_length]
  refine ⟨fun i c h => ?_, fun c0 c1 V1 hV h0 h1 hr => ?_, fun i c h => ?_,
    fun c0 c1 V1 hV h0 h1 hr => ?_⟩
  · simpa using key i c h
  · obtain ⟨_, d, _, _, hnext, _⟩ := key 0 c0 h0
    have := hnext c1 h1
    rw [hr, valueLeft_override V1 d hV] at this
    simpa using this
  · simpa using key2 i c h
  · obtain ⟨_, d, _, _, hnext, _⟩ := key2 0 c0 h0
    have := hnext c1 h1
    rw [hr, valueLeft_override V1 d hV] at this
    simpa using this

theorem value_threading_witness :
    ∃ c1, (invocations threadingEngine
        (DamageTaken threadingEngine ⟨100, 7, 0⟩ (some 3) 10).1)[1]? = some c1 ∧
      c1.args = [pushCreature ⟨100, 7, 0⟩, pushObject (some 3), LuaValue.number (5 : Nat)] :=
  ⟨⟨9, [LuaValue.userdata 7, LuaValue.userdata 3, LuaValue.number 5],
      [LuaValue.nil, LuaValue.nil]⟩, by decide,
    (value_threading threadingEngine ⟨100, 7, 0⟩ (some 3) 10 0).2.1
      ⟨1, [LuaValue.userdata 7, LuaValue.userdata 3, LuaValue.number 10],
        [LuaValue.boolean true, LuaValue.number 5]⟩ _ 5 (by decide) (by decide) (by decide) rfl⟩

theorem threadResult_any (reg : Nat → LuaFunction) (p : List LuaValue) (fs : List Nat) :
    ∀ (d : Nat) (b : Bool), threadResult reg p fs d b =
      ((threadCalls reg p fs d).any (fun c => overrideFlag c.results) || b) := by
  induction fs with
  | nil => intro d b; simp [threadResult, threadCalls]
  | cons f fs ih =>
    intro d b
    simp only [threadResult, threadCalls, List.any_cons, ih]
    generalize overrideFlag (callResults (reg f) (p ++ [LuaValue.number d]) 2) = x
    generalize (threadCalls reg p fs _).any (fun c => overrideFlag c.results) = y
    cases x <;> cases y <;> cases b <;> rfl

theorem threadCalls_results (reg : Nat → LuaFunction) (p : List LuaValue) (fs : List Nat) :
    ∀ (d : Nat) (c : CallRecord), c ∈ threadCalls reg p fs d →
      c.results = callResults (reg c.fn) c.args 2 := by
  induction fs with
  | nil => intro d c h; simp [threadCalls] at h
  | cons f fs ih =>
    intro d c h
    simp only [threadCalls, List.mem_cons] at h
    rcases h with h | h
    · subst h; rfl
    · exact ih _ c h

theorem overrideFlag_callResults (f : LuaFunction) (args : List LuaValue) (n : Nat) :
    overrideFlag (callResults f args (n + 1)) = true ↔
      ∃ rs, f args = some rs ∧ rs.head? = some (LuaValue.boolean true) := by
  unfold callResults overrideFlag
  cases h : f args with
  | none => simp [List.replicate, LuaValue.isboolean]
  | some rs =>
    cases rs with
    | nil => simp [List.replicate, LuaValue.isboolean]
    | cons r rest =>
      cases r with
      | boolean b => cases b <;> simp [LuaValue.isboolean, LuaValue.toboolean]
      | _ => simp [LuaValue.isboolean, LuaValue.toboolean]

/-- C3: the boolean returned by `DamageTaken` and by `CorpseRemoved` is the
logical OR, over the invoked handlers, of the handler's override flag, and a
handler's flag is set exactly when the handler returned values of which the
first is the boolean true.  So the hook returns false when no handler returns
a value, and a first value that is not a boolean, such as the number 1, does
not count. -/
theorem threading_result_is_or (E : Eluna) (me : Creature) (attacker : Option Nat)
    (damage respawnDelay : Nat) :
    ((DamageTaken E me attacker damage).2.1 =
        (invocations E (DamageTaken E me attacker damage).1).any
          (fun c => overrideFlag c.results)) ∧
    (∀ c ∈ invocations E (DamageTaken E me attacker damage).1,
      (overrideFlag c.results = true ↔
        ∃ rs, E.registry c.fn c.args = some rs ∧ rs.head? = some (LuaValue.boolean true))) ∧
    ((CorpseRemoved E me respawnDelay).2.1 =
        (invocations E (CorpseRemoved E me respawnDelay).1).any
          (fun c => overrideFlag c.results)) ∧
    (∀ c ∈ invocations E (CorpseRemoved E me respawnDelay).1,
      (overrideFlag c.results = true ↔
        ∃ rs, E.registry c.fn c.args = some rs ∧ rs.head? = some (LuaValue.boolean true))) ∧
    (∀ rest, overrideFlag (callResults (fun _ => some (LuaValue.number 1 :: rest)) [] 2) = false) ∧
    overrideFlag (callResults (fun _ => some []) [] 2) = false ∧
    overrideFlag (callResults (fun _ => none) [] 2) = false := by
  obtain ⟨hc, hr, _⟩ := DamageTaken_calls E me attacker damage
  obtain ⟨hc2, hr2, _⟩ := CorpseRemoved_calls E me respawnDelay
  rw [hc, hr, hc2, hr2]
  refine ⟨by simp [threadResult_any], fun c h => ?_, by simp [threadResult_any], fun c h => ?_,
    fun rest => ?_, ?_, ?_⟩
  · rw [threadCalls_results _ _ _ _ c h]
    exact overrideFlag_callResults _ _ 1
  · rw [threadCalls_results _ _ _ _ c h]
    exact overrideFlag_callResults _ _ 1
  · cases h : overrideFlag (callResults (fun _ => some (LuaValue.number 1 :: rest)) [] 2) with
    | false => rfl
    | true => simp [overrideFlag_callResults] at h
  · rfl
  · rfl

theorem threading_result_is_or_witness :
    (DamageTaken threadingEngine ⟨100, 7, 0⟩ (some 3) 10).2.1 = true ∧
      (invocations threadingEngine (DamageTaken threadingEngine ⟨100, 7, 0⟩ (some 3) 10).1).any
        (fun c => overrideFlag c.results) = true :=
  ⟨by decide,
    (threading_result_is_or threadingEngine ⟨100, 7, 0⟩ (some 3) 10 0).1 ▸ by decide⟩

theorem threadValue_unchanged (reg : Nat → LuaFunction) (p : List LuaValue) (fs : List Nat) :
    ∀ (d : Nat), (∀ c ∈ threadCalls reg p fs d, (c.results.getD 1 LuaValue.nil).isnumber = false) →
      threadValue reg p fs d = d := by
  induction fs with
  | nil => intro d _; rfl
  | cons f fs ih =>
    intro d h
    simp only [threadCalls, List.mem_cons, forall_eq_or_imp] at h
    have h0 : valueLeft (callResults (reg f) (p ++ [LuaValue.number d]) 2) d = d := by
      unfold valueLeft
      rw [h.1]
      rfl
    simp only [threadValue]
    rw [h0] at h ⊢
    exact ih d h.2

theorem threadValue_last (reg : Nat → LuaFunction) (p : List LuaValue) (fs : List Nat) :
    ∀ (d : Nat) (pre : List CallRecord) (c : CallRecord) (post : List CallRecord),
      threadCalls reg p fs d = pre ++ c :: post →
      (c.results.getD 1 LuaValue.nil).isnumber = true →
      (∀ c' ∈ post, (c'.results.getD 1 LuaValue.nil).isnumber = false) →
      threadValue reg p fs d = (c.results.getD 1 LuaValue.nil).touint32 := by
  induction fs with
  | nil => intro d pre c post h; simp [threadCalls] at h
  | cons f fs ih =>
    intro d pre c post h hnum hpost
    cases pre with
    | nil =>
      simp only [threadCalls, List.nil_append, List.cons.injEq] at h
      obtain ⟨hc, hrest⟩ := h
      simp only [threadValue]
      rw [threadValue_unchanged reg p fs _ (by rw [hrest]; exact hpost)]
      rw [← hc] at hnum ⊢
      simp only at hnum ⊢
      unfold valueLeft
      rw [hnum]
      rfl
    | cons x pre =>
      simp only [threadCalls, List.cons_append, List.cons.injEq] at h
      simp only [threadValue]
      exact ih _ pre c post h.2 hnum hpost

/-- C4, as amended: in `DamageTaken` and `CorpseRemoved` the scalar is changed
by exactly the handlers whose second result is a number, whatever their first
result.  The scalar handed back is the second result, read as a 32-bit
unsigned value, of the last handler whose second result is a number, and it
is the host's input when no handler's second result is a number; every logged
result is what the handler returned on its arguments. -/
theorem threading_final_scalar (E : Eluna) (me : Creature) (attacker : Option Nat)
    (damage respawnDelay : Nat) :
    ((∀ c ∈ invocations E (DamageTaken E me attacker damage).1,
        (c.results.getD 1 LuaValue.nil).isnumber = false) →
      (DamageTaken E me attacker damage).2.2 = damage) ∧
    (∀ (pre : List CallRecord) (c : CallRecord) (post : List CallRecord),
      invocations E (DamageTaken E me attacker damage).1 = pre ++ c :: post →
      (c.results.getD 1 LuaValue.nil).isnumber = true →
      (∀ c' ∈ post, (c'.results.getD 1 LuaValue.nil).isnumber = false) →
      (DamageTaken E me attacker damage).2.2 = (c.results.getD 1 LuaValue.nil).touint32) ∧
    (∀ c ∈ invocations E (DamageTaken E me attacker damage).1,
      c.results = callResults (E.registry c.fn) c.args 2) ∧
    ((∀ c ∈ invocations E (CorpseRemoved E me respawnDelay).1,
        (c.results.getD 1 LuaValue.nil).isnumber = false) →
      (CorpseRemoved E me respawnDelay).2.2 = respawnDelay) ∧
    (∀ (pre : List CallRecord) (c : CallRecord) (post : List CallRecord),
      invocations E (CorpseRemoved E me respawnDelay).1 = pre ++ c :: post →
      (c.results.getD 1 LuaValue.nil).isnumber = true →
      (∀ c' ∈ post, (c'.results.getD 1 LuaValue.nil).isnumber = false) →
      (CorpseRemoved E me respawnDelay).2.2 = (c.results.getD 1 LuaValue.nil).touint32) ∧
    (∀ c ∈ invocations E (CorpseRemoved E me respawnDelay).1,
      c.results = callResults (E.registry c.fn) c.args 2) := by
  obtain ⟨hc, _, hv⟩ := DamageTaken_calls E me attacker damage
  obtain ⟨hc2, _, hv2⟩ := CorpseRemoved_calls E me respawnDelay
  rw [hc, hv, hc2, hv2]
  exact ⟨threadValue_unchanged _ _ _ _, threadValue_last _ _ _ _, threadCalls_results _ _ _ _,
    threadValue_unchanged _ _ _ _, threadValue_last _ _ _ _, threadCalls_results _ _ _ _⟩

theorem threading_final_scalar_witness :
    (CorpseRemoved threadingEngine ⟨100, 7, 0⟩ 10).2.2 =
      (LuaValue.number 7).touint32 :=
  (threading_final_scalar threadingEngine ⟨100, 7, 0⟩ none 0 10).2.2.2.2.1 []
    ⟨3, [LuaValue.userdata 7, LuaValue.number 10], [LuaValue.boolean false, LuaValue.number 7]⟩
    [] (by decide) (by decide) (by decide)

/-- C4 fails as stated: a handler that returns (false, 7) does change the
scalar.  `CorpseRemoved` with that single handler and input 10 returns false
and leaves 7 in the scalar. -/
theorem threading_final_scalar_counterexample :
    threadingEngine.registry 3 [LuaValue.userdata 7, LuaValue.number 10] =
        some [LuaValue.boolean false, LuaValue.number 7] ∧
      handlers threadingEngine CreatureEvents.CREATURE_EVENT_ON_CORPSE_REMOVED ⟨100, 7, 0⟩ = [3] ∧
      (CorpseRemoved threadingEngine ⟨100, 7, 0⟩ 10).2 = (false, 7) := by
  decide

/-- C5: the example scenario on a value-threading hook.  With one entry-level
handler A that returns (true, 5) and one unique-level handler B that returns
(false, nil) bound to the hook's event, `DamageTaken` (and likewise
`CorpseRemoved`) called with the scalar 10 returns true and leaves 5 in the
scalar. -/
theorem example_scenario (E : Eluna) (me : Creature) (attacker : Option Nat) (A B : Nat)
    (hA : ∀ args, E.registry A args = some [LuaValue.boolean true, LuaValue.number 5])
    (hB : ∀ args, E.registry B args = some [LuaValue.boolean false, LuaValue.nil]) :
    (E.CreatureEventBindings ⟨CreatureEvents.CREATURE_EVENT_ON_DAMAGE_TAKEN, me.entry⟩ = [A] →
      E.CreatureUniqueBindings
        ⟨CreatureEvents.CREATURE_EVENT_ON_DAMAGE_TAKEN, me.guid, me.instanceId⟩ = [B] →
      (DamageTaken E me attacker 10).2 = (true, 5)) ∧
    (E.CreatureEventBindings ⟨CreatureEvents.CREATURE_EVENT_ON_CORPSE_REMOVED, me.entry⟩ = [A] →
      E.CreatureUniqueBindings
        ⟨CreatureEvents.CREATURE_EVENT_ON_CORPSE_REMOVED, me.guid, me.instanceId⟩ = [B] →
      (CorpseRemoved E me 10).2 = (true, 5)) := by
  obtain ⟨_, hr, hv⟩ := DamageTaken_calls E me attacker 10
  obtain ⟨_, hr2, hv2⟩ := CorpseRemoved_calls E me 10
  refine ⟨fun hentry hunique => Prod.ext ?_ ?_, fun hentry hunique => Prod.ext ?_ ?_⟩
  · rw [hr]
    simp [handlers, hentry, hunique, threadResult, callResults, hA, hB, valueLeft, overrideFlag,
      LuaValue.isboolean, LuaValue.toboolean, LuaValue.isnumber, LuaValue.touint32]
  · rw [hv]
    simp [handlers, hentry, hunique, threadValue, callResults, hA, hB, valueLeft,
      LuaValue.isnumber, LuaValue.touint32]
  · rw [hr2]
    simp [handlers, hentry, hunique, threadResult, callResults, hA, hB, valueLeft, overrideFlag,
      LuaValue.isboolean, LuaValue.toboolean, LuaValue.isnumber, LuaValue.touint32]
  · rw [hv2]
    simp [handlers, hentry, hunique, threadValue, callResults, hA, hB, valueLeft,
      LuaValue.isnumber, LuaValue.touint32]

theorem example_scenario_witness :
    (DamageTaken scenarioEngine ⟨100, 7, 0⟩ (some 3) 10).2 = (true, 5) ∧
      (CorpseRemoved scenarioEngine ⟨100, 7, 0⟩ 10).2 = (true, 5) :=
  ⟨(example_scenario scenarioEngine ⟨100, 7, 0⟩ (some 3) 1 2 (fun _ => rfl) (fun _ => rfl)).1
      (by decide) (by decide),
    (example_scenario scenarioEngine ⟨100, 7, 0⟩ (some 3) 1 2 (fun _ => rfl) (fun _ => rfl)).2
      (by decide) (by decide)⟩

/-- C6: fault isolation in the value-threading loops.  An iteration whose
handler fails logs the call with both result slots nil and one error, and
otherwise continues exactly as the loop over the remaining handlers would
from the same stack, accumulated boolean and scalar.  At hook level every
bound handler is invoked whatever fails, and the handler after a failed one is
called with the same arguments as the failed one. -/
theorem fault_isolation (E : Eluna) (n index : Nat) (result : Bool) (scalar : Nat)
    (me : Creature) (attacker : Option Nat) :
    (E.registry (E.functions.getD (E.functions.length - (n + 1)) 0)
        (E.L.drop (E.L.length - 3)) = none →
      DamageTaken_loop (n + 1) E index result scalar =
        DamageTaken_loop n
          { E with
            calls := E.calls ++ [⟨E.functions.getD (E.functions.length - (n + 1)) 0,
              E.L.drop (E.L.length - 3), [LuaValue.nil, LuaValue.nil]⟩]
            errors := E.errors + 1 } index result scalar) ∧
    (E.registry (E.functions.getD (E.functions.length - (n + 1)) 0)
        (E.L.drop (E.L.length - 2)) = none →
      CorpseRemoved_loop (n + 1) E index result scalar =
        CorpseRemoved_loop n
          { E with
            calls := E.calls ++ [⟨E.functions.getD (E.functions.length - (n + 1)) 0,
              E.L.drop (E.L.length - 2), [LuaValue.nil, LuaValue.nil]⟩]
            errors := E.errors + 1 } index result scalar) ∧
    ((invocations E (DamageTaken E me attacker scalar).1).map CallRecord.fn =
      handlers E CreatureEvents.CREATURE_EVENT_ON_DAMAGE_TAKEN me) ∧
    (∀ (i : Nat) (c : CallRecord),
      (invocations E (DamageTaken E me attacker scalar).1)[i]? = some c →
      E.registry c.fn c.args = none →
        c.results = [LuaValue.nil, LuaValue.nil] ∧
        (∀ c', (invocations E (DamageTaken E me attacker scalar).1)[i + 1]? = some c' →
          c'.args = c.args) ∧
        (i + 1 = (invocations E (DamageTaken E me attacker scalar).1).length →
          c.args = [pushCreature me, pushObject attacker,
            LuaValue.number (DamageTaken E me attacker scalar).2.2])) := by
  refine ⟨fun hfail => ?_, fun hfail => ?_, ?_, ?_⟩
  · rw [DamageTaken_loop]
    have hres : callResults (E.registry (E.functions.getD (E.functions.length - (n + 1)) 0))
        (E.L.drop (E.L.length - 3)) 2 = [LuaValue.nil, LuaValue.nil] := by
      unfold callResults
      rw [hfail]
      rfl
    have h0 : ∀ (S : Eluna), S.L = E.L ++ [LuaValue.nil, LuaValue.nil] →
        lua_index S (E.L.length + 1 + 0) = LuaValue.nil := by
      intro S hS
      simpa using lua_index_append_right S E.L [LuaValue.nil, LuaValue.nil] 0 hS
    have h1 : ∀ (S : Eluna), S.L = E.L ++ [LuaValue.nil, LuaValue.nil] →
        lua_index S (E.L.length + 1 + 1) = LuaValue.nil := by
      intro S hS
      simpa using lua_index_append_right S E.L [LuaValue.nil, LuaValue.nil] 1 hS
    simp only [CallOneFunction, ExecuteCall, lua_gettop, hres, hfail, lua_isnumber,
      lua_isboolean, lua_toboolean, h0, h1, LuaValue.isnumber, LuaValue.isboolean,
      LuaValue.toboolean]
    simp [lua_pop]
  · rw [CorpseRemoved_loop]
    have hres : callResults (E.registry (E.functions.getD (E.functions.length - (n + 1)) 0))
        (E.L.drop (E.L.length - 2)) 2 = [LuaValue.nil, LuaValue.nil] := by
      unfold callResults
      rw [hfail]
      rfl
    have h0 : ∀ (S : Eluna), S.L = E.L ++ [LuaValue.nil, LuaValue.nil] →
        lua_index S (E.L.length + 1 + 0) = LuaValue.nil := by
      intro S hS
      simpa using lua_index_append_right S E.L [LuaValue.nil, LuaValue.nil] 0 hS
    have h1 : ∀ (S : Eluna), S.L = E.L ++ [LuaValue.nil, LuaValue.nil] →
        lua_index S (E.L.length + 1 + 1) = LuaValue.nil := by
      intro S hS
      simpa using lua_index_append_right S E.L [LuaValue.nil, LuaValue.nil] 1 hS
    simp only [CallOneFunction, ExecuteCall, lua_gettop, hres, hfail, lua_isnumber,
      lua_isboolean, lua_toboolean, h0, h1, LuaValue.isnumber, LuaValue.isboolean,
      LuaValue.toboolean]
    simp [lua_pop]
  · rw [(DamageTaken_calls E me attacker scalar).1, threadCalls_fn]
  · obtain ⟨hc, _, hv⟩ := DamageTaken_calls E me attacker scalar
    rw [hc, hv]
    intro i c h hfail
    obtain ⟨hres, d, hargs, _, hnext, hlast⟩ := threadCalls_index _ _ _ _ i c h
    have hnil : c.results = [LuaValue.nil, LuaValue.nil] := by
      rw [hres]
      unfold callResults
      rw [hfail]
      rfl
    have hval : valueLeft c.results d = d := by
      rw [hnil]; rfl
    rw [hval] at hnext hlast
    refine ⟨hnil, fun c' hc' => ?_, fun hlen => ?_⟩
    · rw [hnext c' hc', hargs]
    · rw [threadCalls_length] at hlen
      rw [hlast hlen, hargs]; rfl

theorem fault_isolation_witness :
    ∃ c', (invocations threadingEngine
        (DamageTaken threadingEngine ⟨100, 7, 0⟩ (some 3) 10).1)[2]? = some c' ∧
      c'.args = [LuaValue.userdata 7, LuaValue.userdata 3, LuaValue.number 5] :=
  ⟨⟨4, [LuaValue.userdata 7, LuaValue.userdata 3, LuaValue.number 5],
      [LuaValue.number 1, LuaValue.nil]⟩, by decide,
    ((fault_isolation threadingEngine 0 0 false 10 ⟨100, 7, 0⟩ (some 3)).2.2.2 1
      ⟨9, [LuaValue.userdata 7, LuaValue.userdata 3, LuaValue.number 5],
        [LuaValue.nil, LuaValue.nil]⟩ (by decide) (by decide)).2.1 _ (by decide)⟩

/-! ## Dispatch on a fixed payload -/

theorem foldl_HookPush (args : List LuaValue) :
    ∀ E : Eluna, args.foldl HookPush E =
      { E with L := E.L ++ args, push_counter := E.push_counter + args.length } := by
  induction args with
  | nil => intro E; simp
  | cons a args ih =>
    intro E
    simp only [List.foldl_cons, ih, HookPush]
    simp
    omega

theorem boolDispatch (E : Eluna) (ev : CreatureEvents) (c : Creature) (args : List LuaValue)
    (hc : E.push_counter = 0) :
    (match START_HOOK E ev c with
      | none => (E, false)
      | some (entry_key, unique_key) =>
        CallAllFunctionsBool (args.foldl HookPush E)
          E.CreatureEventBindings E.CreatureUniqueBindings entry_key unique_key) =
      (dispatchState E ev c args 1, chainResult E.registry args (handlers E ev c)) := by
  unfold dispatchState
  rcases START_HOOK_cases E ev c with ⟨h, hh⟩ | ⟨h, _⟩
  · rw [h, hh]; rfl
  · rw [h]
    simp only
    rw [CallAllFunctionsBool_spec _ _ _ _ _ E.L args (by simp [foldl_HookPush])
      (by simp [foldl_HookPush, hc])]
    simp [foldl_HookPush, handlers]

theorem voidDispatch (E : Eluna) (ev : CreatureEvents) (c : Creature) (args : List LuaValue)
    (hc : E.push_counter = 0) :
    (match START_HOOK E ev c with
      | none => E
      | some (entry_key, unique_key) =>
        CallAllFunctions (args.foldl HookPush E)
          E.CreatureEventBindings E.CreatureUniqueBindings entry_key unique_key) =
      dispatchState E ev c args 0 := by
  unfold dispatchState
  rcases START_HOOK_cases E ev c with ⟨h, hh⟩ | ⟨h, _⟩
  · rw [h]
  · rw [h]
    simp only
    rw [CallAllFunctions_spec _ _ _ _ _ E.L args (by simp [foldl_HookPush])
      (by simp [foldl_HookPush, hc])]
    simp [foldl_HookPush, handlers]

theorem dispatchState_calls (E : Eluna) (ev : CreatureEvents) (c : Creature)
    (args : List LuaValue) (n : Nat) :
    (dispatchState E ev c args n).calls =
      E.calls ++ chainCalls E.registry args n (handlers E ev c) := by
  unfold dispatchState
  rcases START_HOOK_cases E ev c with ⟨h, hh⟩ | ⟨h, _⟩
  · rw [h, hh]; simp [chainCalls]
  · rw [h]

theorem dispatchState_fields (E : Eluna) (ev : CreatureEvents) (c : Creature)
    (args : List LuaValue) (n : Nat) :
    (dispatchState E ev c args n).registry = E.registry ∧
    (dispatchState E ev c args n).CreatureEventBindings = E.CreatureEventBindings ∧
    (dispatchState E ev c args n).CreatureUniqueBindings = E.CreatureUniqueBindings ∧
    (dispatchState E ev c args n).L = E.L ∧
    (E.push_counter = 0 → (dispatchState E ev c args n).push_counter = 0) := by
  unfold dispatchState
  cases START_HOOK E ev c <;> simp

theorem handlers_dispatchState (E : Eluna) (ev ev' : CreatureEvents) (c c' : Creature)
    (args : List LuaValue) (n : Nat) :
    handlers (dispatchState E ev c args n) ev' c' = handlers E ev' c' := by
  obtain ⟨_, h1, h2, _⟩ := dispatchState_fields E ev c args n
  simp [handlers, h1, h2]

theorem chainCalls_fn (reg : Nat → LuaFunction) (args : List LuaValue) (n : Nat)
    (fs : List Nat) : (chainCalls reg args n fs).map CallRecord.fn = fs := by
  induction fs with
  | nil => rfl
  | cons f fs ih => simp [chainCalls] at ih ⊢; exact ih

theorem On_Reset_eq (E : Eluna) (me : Creature) (hc : E.push_counter = 0) :
    On_Reset E me =
      dispatchState E CreatureEvents.CREATURE_EVENT_ON_RESET me [pushCreature me] 0 :=
  voidDispatch E _ me [pushCreature me] hc

theorem invocations_of_calls (E S : Eluna) (X : List CallRecord)
    (h : S.calls = E.calls ++ X) : invocations E S = X := by
  simp [invocations, h]

theorem boolDispatch_obs (E : Eluna) (ev : CreatureEvents) (c : Creature)
    (args : List LuaValue) (hc : E.push_counter = 0) :
    invocations E (match START_HOOK E ev c with
      | none => (E, false)
      | some (entry_key, unique_key) =>
        CallAllFunctionsBool (args.foldl HookPush E)
          E.CreatureEventBindings E.CreatureUniqueBindings entry_key unique_key).1 =
      chainCalls E.registry args 1 (handlers E ev c) ∧
    some (match START_HOOK E ev c with
      | none => (E, false)
      | some (entry_key, unique_key) =>
        CallAllFunctionsBool (args.foldl HookPush E)
          E.CreatureEventBindings E.CreatureUniqueBindings entry_key unique_key).2 =
      some (chainResult E.registry args (handlers E ev c)) := by
  rw [boolDispatch E ev c args hc]
  exact ⟨invocations_of_calls _ _ _ (dispatchState_calls _ _ _ _ _), rfl⟩

theorem voidDispatch_obs (E : Eluna) (ev : CreatureEvents) (c : Creature)
    (args : List LuaValue) (hc : E.push_counter = 0) :
    invocations E (match START_HOOK E ev c with
      | none => E
      | some (entry_key, unique_key) =>
        CallAllFunctions (args.foldl HookPush E)
          E.CreatureEventBindings E.CreatureUniqueBindings entry_key unique_key) =
      chainCalls E.registry args 0 (handlers E ev c) := by
  rw [voidDispatch E ev c args hc]
  exact invocations_of_calls _ _ _ (dispatchState_calls _ _ _ _ _)

theorem boolDispatch_reset_obs (E : Eluna) (ev : CreatureEvents) (me : Creature)
    (args : List LuaValue) (hc : E.push_counter = 0) :
    invocations E (match START_HOOK (On_Reset E me) ev me with
      | none => (On_Reset E me, false)
      | some (entry_key, unique_key) =>
        CallAllFunctionsBool (args.foldl HookPush (On_Reset E me))
          (On_Reset E me).CreatureEventBindings (On_Reset E me).CreatureUniqueBindings
          entry_key unique_key).1 =
      chainCalls E.registry [pushCreature me] 0
          (handlers E CreatureEvents.CREATURE_EVENT_ON_RESET me) ++
        chainCalls E.registry args 1 (handlers E ev me) ∧
    some (match START_HOOK (On_Reset E me) ev me with
      | none => (On_Reset E me, false)
      | some (entry_key, unique_key) =>
        CallAllFunctionsBool (args.foldl HookPush (On_Reset E me))
          (On_Reset E me).CreatureEventBindings (On_Reset E me).CreatureUniqueBindings
          entry_key unique_key).2 =
      some (chainResult E.registry args (handlers E ev me)) := by
  obtain ⟨hreg, _, _, _, hpc⟩ := dispatchState_fields E CreatureEvents.CREATURE_EVENT_ON_RESET me
    [pushCreature me] 0
  rw [On_Reset_eq E me hc, boolDispatch _ ev me args (hpc hc)]
  simp only [handlers_dispatchState, hreg]
  refine ⟨invocations_of_calls _ _ _ ?_, trivial⟩
  rw [dispatchState_calls, dispatchState_calls, handlers_dispatchState, hreg, List.append_assoc]

theorem run_bool (E : Eluna) (call : CreatureHookCall) (hc : E.push_counter = 0)
    (hp : call.policy = Policy.BooleanOr) :
    invocations E (call.run E).state =
      call.resetCalls E ++
        chainCalls E.registry call.payload 1 (handlers E call.event call.creature) ∧
    (call.run E).result =
      some (chainResult E.registry call.payload (handlers E call.event call.creature)) := by
  have h1 := boolDispatch_obs E call.event call.creature call.payload hc
  have h2 := boolDispatch_reset_obs E call.event call.creature call.payload hc
  cases call <;> simp only [CreatureHookCall.policy, reduceCtorEq] at hp <;>
    first
    | exact h1
    | exact h2

theorem run_void (E : Eluna) (call : CreatureHookCall) (hc : E.push_counter = 0)
    (hp : call.policy = Policy.Void) :
    invocations E (call.run E).state =
      chainCalls E.registry call.payload 0 (handlers E call.event call.creature) ∧
    call.raisesReset = false := by
  have h1 := voidDispatch_obs E call.event call.creature call.payload hc
  cases call <;> simp only [CreatureHookCall.policy, reduceCtorEq] at hp <;>
    exact ⟨h1, rfl⟩

theorem run_thread (E : Eluna) (call : CreatureHookCall)
    (hp : call.policy = Policy.ValueThreading) :
    (invocations E (call.run E).state).map CallRecord.fn =
      handlers E call.event call.creature ∧
    call.raisesReset = false := by
  cases call <;> simp only [CreatureHookCall.policy, reduceCtorEq] at hp
  case DamageTaken me attacker damage =>
    refine ⟨?_, rfl⟩
    simp only [CreatureHookCall.run, CreatureHookCall.event, CreatureHookCall.creature]
    rw [(DamageTaken_calls E me attacker damage).1, threadCalls_fn]
  case CorpseRemoved me respawnDelay =>
    refine ⟨?_, rfl⟩
    simp only [CreatureHookCall.run, CreatureHookCall.event, CreatureHookCall.creature]
    rw [(CorpseRemoved_calls E me respawnDelay).1, threadCalls_fn]

/-- C7: tier order.  For every creature hook raised on an engine with no
pending pushed argument, the handlers it invokes for its event are, in order
of invocation, the entry-level bindings for (event, entry) followed by the
unique-level bindings for (event, guid, instance id), so every entry-level
handler runs before any unique-level handler.  The hooks that raise
`On_Reset` first run the handlers of `CREATURE_EVENT_ON_RESET` before, in the
same tier order. -/
theorem tier_order (E : Eluna) (call : CreatureHookCall) (hc : E.push_counter = 0) :
    (invocations E (call.run E).state).map CallRecord.fn =
      (if call.raisesReset then
          E.CreatureEventBindings ⟨CreatureEvents.CREATURE_EVENT_ON_RESET, call.creature.entry⟩ ++
            E.CreatureUniqueBindings ⟨CreatureEvents.CREATURE_EVENT_ON_RESET, call.creature.guid,
              call.creature.instanceId⟩
        else []) ++
      (E.CreatureEventBindings ⟨call.event, call.creature.entry⟩ ++
        E.CreatureUniqueBindings
          ⟨call.event, call.creature.guid, call.creature.instanceId⟩) := by
  cases hp : call.policy with
  | Void =>
    obtain ⟨h, hr⟩ := run_void E call hc hp
    rw [h, hr, chainCalls_fn]
    rfl
  | BooleanOr =>
    rw [(run_bool E call hc hp).1, List.map_append, chainCalls_fn]
    unfold CreatureHookCall.resetCalls
    cases call.raisesReset
    · rfl
    · simp only [if_true]
      rw [chainCalls_fn]
      rfl
  | ValueThreading =>
    obtain ⟨h, hr⟩ := run_thread E call hp
    rw [h, hr]
    rfl

theorem tier_order_witness :
    (invocations questEngine
        ((CreatureHookCall.OnQuestAccept (some 1) ⟨100, 7, 0⟩ (some 2)).run questEngine).state).map
      CallRecord.fn = [] ++ ([2, 1] ++ [3, 2]) :=
  tier_order questEngine (CreatureHookCall.OnQuestAccept (some 1) ⟨100, 7, 0⟩ (some 2)) rfl

theorem chainResult_iff (reg : Nat → LuaFunction) (args : List LuaValue) (fs : List Nat) :
    chainResult reg args fs = true ↔
      ∃ f ∈ fs, ∃ rs, reg f args = some rs ∧ rs.head? = some (LuaValue.boolean true) := by
  unfold chainResult
  rw [List.any_eq_true]
  constructor
  · rintro ⟨f, hf, h⟩
    exact ⟨f, hf, (overrideFlag_callResults (reg f) args 0).1 h⟩
  · rintro ⟨f, hf, h⟩
    exact ⟨f, hf, (overrideFlag_callResults (reg f) args 0).2 h⟩

/-- C8: Boolean-OR hooks.  A hook of the Boolean-OR policy raised on an engine
with no pending pushed argument invokes every handler of its combined list, in
order and each on the hook's payload, whatever the earlier handlers returned
(no short-circuit).  It returns true exactly when some handler returns values
of which the first is the boolean true, hence for every position k of a single
such handler, and it returns false when no handler returns a value. -/
theorem boolean_or_hooks (E : Eluna) (call : CreatureHookCall) (hc : E.push_counter = 0)
    (hp : call.policy = Policy.BooleanOr) :
    (invocations E (call.run E).state =
      call.resetCalls E ++ (handlers E call.event call.creature).map
        (fun f => ⟨f, call.payload, callResults (E.registry f) call.payload 1⟩)) ∧
    (∃ b, (call.run E).result = some b ∧
      (b = true ↔ ∃ f ∈ handlers E call.event call.creature,
        ∃ rs, E.registry f call.payload = some rs ∧ rs.head? = some (LuaValue.boolean true))) ∧
    (∀ (k : Nat) (hk : k < (handlers E call.event call.creature).length) (rest : List LuaValue),
      E.registry ((handlers E call.event call.creature).get ⟨k, hk⟩) call.payload =
        some (LuaValue.boolean true :: rest) →
      (call.run E).result = some true) ∧
    ((∀ f ∈ handlers E call.event call.creature,
        E.registry f call.payload = some [] ∨ E.registry f call.payload = none) →
      (call.run E).result = some false) := by
  obtain ⟨hcalls, hres⟩ := run_bool E call hc hp
  refine ⟨hcalls, ⟨_, hres, chainResult_iff _ _ _⟩, fun k hk rest h => ?_, fun h => ?_⟩
  · rw [hres]
    exact congrArg some ((chainResult_iff _ _ _).2 ⟨_, List.get_mem _ _ _, _, h, rfl⟩)
  · rw [hres]
    cases hb : chainResult E.registry call.payload (handlers E call.event call.creature) with
    | false => rfl
    | true =>
      obtain ⟨f, hf, rs, hrs, hhead⟩ := (chainResult_iff _ _ _).1 hb
      rcases h f hf with h0 | h0 <;> rw [h0] at hrs <;> simp at hrs
      subst hrs
      simp at hhead

theorem boolean_or_hooks_witness :
    ((CreatureHookCall.OnQuestAccept (some 1) ⟨100, 7, 0⟩ (some 2)).run questEngine).result =
      some true :=
  (boolean_or_hooks questEngine (CreatureHookCall.OnQuestAccept (some 1) ⟨100, 7, 0⟩ (some 2))
    rfl rfl).2.2.1 1 (by decide) [] (by decide)

/-! ## The Item method table -/

theorem find_none_of_not_mem (table : List ElunaRegister) (name : String)
    (h : name ∉ table.map ElunaRegister.name) :
    table.find? (fun e => e.name == name) = none := by
  rw [List.find?_eq_none]
  intro e he hname
  exact h (List.mem_map.2 ⟨e, he, by simpa using hname⟩)

set_option maxRecDepth 100000 in
/-- C9: lookups in the VMangos Item method table have three distinct outcomes.
Every name registered with a thunk, such as GetCount, is callable through that
thunk; exactly the nine names registered with `METHOD_REG_NONE` are present
but not implemented; every name outside the table is absent.  Each name has
one row only, so no name is both implemented and not implemented. -/
theorem item_method_lookup :
    lookupMethod ItemMethods "GetCount" = MethodLookup.Callable "LuaItem::GetCount" ∧
    (∀ e ∈ ItemMethods, ∀ thunk, e.mfunc = some thunk →
      lookupMethod ItemMethods e.name = MethodLookup.Callable thunk) ∧
    (∀ name ∈ notImplementedItemMethods,
      lookupMethod ItemMethods name = MethodLookup.NotImplemented) ∧
    (∀ e ∈ ItemMethods, e.mfunc = none → e.name ∈ notImplementedItemMethods) ∧
    (∀ name, name ∉ ItemMethods.map ElunaRegister.name →
      lookupMethod ItemMethods name = MethodLookup.NoSuchMethod) ∧
    (ItemMethods.map ElunaRegister.name).Nodup ∧
    (∀ name thunk, ¬ (⟨name, some thunk⟩ ∈ ItemMethods ∧ ⟨name, none⟩ ∈ ItemMethods)) ∧
    (∀ name, lookupMethod ItemMethods name = MethodLookup.NotImplemented →
      lookupMethod ItemMethods name ≠ MethodLookup.NoSuchMethod) := by
  have hnodup : (ItemMethods.map ElunaRegister.name).Nodup := by decide
  refine ⟨by decide, by decide, by decide, by decide, fun name h => ?_, hnodup,
    fun name thunk h => ?_, fun name h1 h2 => ?_⟩
  · unfold lookupMethod
    rw [find_none_of_not_mem _ _ h]
  · have := List.inj_on_of_nodup_map hnodup h.1 h.2 rfl
    simp at this
  · rw [h1] at h2
    exact MethodLookup.noConfusion h2

/-! ## Vehicle hooks -/

/-- C10: the five vehicle hooks.  When the event-only map reports no binding
for the hook's event, the hook returns the engine unchanged: nothing is
pushed and no handler is called.  Otherwise the hook is `CallAllFunctions` on
that same map and key, applied to the engine with the payload pushed once on
top of the stack; raised with no pending pushed argument it invokes every
bound handler in order, each on exactly that payload, and leaves the stack as
it found it. -/
theorem vehicle_hooks (E : Eluna) (call : VehicleHookCall) :
    (E.VehicleEventBindings.HasBindingsFor ⟨call.event⟩ = false → call.run E = E) ∧
    (E.VehicleEventBindings.HasBindingsFor ⟨call.event⟩ = true →
      call.run E =
        CallAllFunctions1 (call.payload.foldl HookPush E) E.VehicleEventBindings ⟨call.event⟩ ∧
      (call.payload.foldl HookPush E).L = E.L ++ call.payload ∧
      (E.push_counter = 0 →
        invocations E (call.run E) =
          (E.VehicleEventBindings ⟨call.event⟩).map (fun f => ⟨f, call.payload, []⟩) ∧
        (call.run E).L = E.L)) := by
  have hspec : E.push_counter = 0 →
      CallAllFunctions1 (call.payload.foldl HookPush E) E.VehicleEventBindings ⟨call.event⟩ =
        { E with
          push_counter := 0
          functions := []
          calls := E.calls ++ chainCalls E.registry call.payload 0
            (E.VehicleEventBindings ⟨call.event⟩)
          errors := chainErrors E.registry call.payload (E.VehicleEventBindings ⟨call.event⟩)
            E.errors } := by
    intro hc
    unfold CallAllFunctions1
    rw [CallAllFunctions_spec _ _ _ _ _ E.L call.payload (by simp [foldl_HookPush])
      (by simp [foldl_HookPush, hc])]
    simp [foldl_HookPush]
  have hrun : call.run E =
      match START_HOOK_VEHICLE E call.event with
      | none => E
      | some key => CallAllFunctions1 (call.payload.foldl HookPush E) E.VehicleEventBindings key := by
    cases call <;> rfl
  refine ⟨fun h => ?_, fun h => ⟨?_, by simp [foldl_HookPush], fun hc => ?_⟩⟩
  · rw [hrun]
    simp [START_HOOK_VEHICLE, h]
  · rw [hrun]
    simp [START_HOOK_VEHICLE, h]
  · have hrun2 : call.run E = CallAllFunctions1 (call.payload.foldl HookPush E)
        E.VehicleEventBindings ⟨call.event⟩ := by
      rw [hrun]
      simp [START_HOOK_VEHICLE, h]
    rw [hrun2, hspec hc]
    refine ⟨invocations_of_calls _ _ _ ?_, rfl⟩
    simp [chainCalls, callResults_zero]

theorem vehicle_hooks_witness :
    invocations vehicleEngine
        ((VehicleHookCall.OnAddPassenger (some 4) (some 5) 1).run vehicleEngine) =
      [⟨1, [LuaValue.userdata 4, LuaValue.userdata 5, LuaValue.number 1], []⟩,
        ⟨2, [LuaValue.userdata 4, LuaValue.userdata 5, LuaValue.number 1], []⟩] ∧
    (VehicleHookCall.OnInstall (some 4)).run vehicleEngine = vehicleEngine :=
  ⟨((vehicle_hooks vehicleEngine (VehicleHookCall.OnAddPassenger (some 4) (some 5) 1)).2
      (by decide)).2.2 rfl |>.1,
    (vehicle_hooks vehicleEngine (VehicleHookCall.OnInstall (some 4))).1 (by decide)⟩

/-! ## The Item thunks -/

theorem inRange_bounds (v : LuaValue) (lo hi n : Int) (h : v.inRange lo hi = some n) :
    v = LuaValue.number n ∧ lo ≤ n ∧ n ≤ hi := by
  cases v with
  | number m =>
    simp only [LuaValue.inRange] at h
    by_cases hm : lo ≤ m ∧ m ≤ hi
    · rw [if_pos hm] at h
      cases h
      exact ⟨rfl, hm⟩
    · rw [if_neg hm] at h
      cases h
  | nil => cases h
  | boolean b => cases h
  | userdata id => cases h

theorem CHECKVAL_uint32_ok (E : Eluna) (idx value : Nat)
    (h : CHECKVAL_uint32 E idx = Checked.ok value) :
    lua_index E idx = LuaValue.number value ∧ value < 2 ^ 32 := by
  unfold CHECKVAL_uint32 at h
  cases hr : (lua_index E idx).inRange 0 (2 ^ 32 - 1) with
  | none => rw [hr] at h; cases h
  | some n =>
    rw [hr] at h
    cases h
    obtain ⟨hv, h0, h1⟩ := inRange_bounds _ _ _ _ hr
    refine ⟨?_, ?_⟩
    · rw [hv, Int.toNat_of_nonneg h0]
    · omega

theorem CHECKVAL_uint32_error (E : Eluna) (idx index : Nat) (expectedType : String)
    (h : CHECKVAL_uint32 E idx = Checked.ArgumentTypeError index expectedType) :
    index = idx := by
  unfold CHECKVAL_uint32 at h
  cases hr : (lua_index E idx).inRange 0 (2 ^ 32 - 1) with
  | none => rw [hr] at h; cases h; rfl
  | some n => rw [hr] at h; cases h

theorem CHECKVAL_uint8_ok (E : Eluna) (idx value : Nat)
    (h : CHECKVAL_uint8 E idx = Checked.ok value) :
    lua_index E idx = LuaValue.number value ∧ value < 2 ^ 8 := by
  unfold CHECKVAL_uint8 at h
  cases hr : (lua_index E idx).inRange 0 (2 ^ 8 - 1) with
  | none => rw [hr] at h; cases h
  | some n =>
    rw [hr] at h
    cases h
    obtain ⟨hv, h0, h1⟩ := inRange_bounds _ _ _ _ hr
    refine ⟨?_, ?_⟩
    · rw [hv, Int.toNat_of_nonneg h0]
    · omega

theorem CHECKVAL_uint8_error (E : Eluna) (idx index : Nat) (expectedType : String)
    (h : CHECKVAL_uint8 E idx = Checked.ArgumentTypeError index expectedType) :
    index = idx := by
  unfold CHECKVAL_uint8 at h
  cases hr : (lua_index E idx).inRange 0 (2 ^ 8 - 1) with
  | none => rw [hr] at h; cases h; rfl
  | some n => rw [hr] at h; cases h

theorem CHECKVAL_uint8_opt_error (E : Eluna) (idx dflt index : Nat) (expectedType : String)
    (h : CHECKVAL_uint8_opt E idx dflt = Checked.ArgumentTypeError index expectedType) :
    index = idx := by
  unfold CHECKVAL_uint8_opt at h
  split at h
  · cases h
  · exact CHECKVAL_uint8_error E idx index expectedType h

theorem CHECKVAL_uint32_opt_error (E : Eluna) (idx dflt index : Nat) (expectedType : String)
    (h : CHECKVAL_uint32_opt E idx dflt = Checked.ArgumentTypeError index expectedType) :
    index = idx := by
  unfold CHECKVAL_uint32_opt at h
  split at h
  · cases h
  · exact CHECKVAL_uint32_error E idx index expectedType h

theorem EnchantmentSlot_cast_ge (value max : Nat) (h : value < 2 ^ 32) :
    EnchantmentSlot.cast value ≥ (max : Int) ↔ max ≤ value ∧ value < 2 ^ 31 := by
  unfold EnchantmentSlot.cast
  have hm : value % 2 ^ 32 = value := Nat.mod_eq_of_lt h
  rw [hm]
  by_cases hlt : value < 2 ^ 31
  · rw [if_pos hlt]
    constructor
    · intro hge
      exact ⟨by exact_mod_cast hge, hlt⟩
    · intro hge
      exact_mod_cast hge.1
  · rw [if_neg hlt]
    constructor
    · intro hge
      exfalso
      have h1 : (value : Int) < 2 ^ 32 := by exact_mod_cast h
      have h2 : (0 : Int) ≤ max := Int.ofNat_nonneg _
      have h3 : (value : Int) - 2 ^ 32 ≥ (max : Int) := hge
      omega
    · intro hge
      exact absurd hge.2 hlt

theorem EnchantmentSlot_cast_small (value : Nat) (h : value < 2 ^ 31) :
    EnchantmentSlot.cast value = (value : Int) := by
  unfold EnchantmentSlot.cast
  have hm : value % 2 ^ 32 = value := Nat.mod_eq_of_lt (by omega)
  rw [hm, if_pos h]

/-- C11: what `Item:SetEnchantment` does on an owned item with a valid enchant
id and a slot, read from stack index 3, that is not below
`MAX_INSPECTED_ENCHANTMENT_SLOT`.  For a slot below 2^31 it leaves the item
unchanged and raises the argument error with index 2, the index of the enchant
id, not with index 3.  A slot from 2^31 on is negative after the cast to
`EnchantmentSlot`, passes the guard, and the enchantment is set with no error
at all. -/
theorem SetEnchantment_slot_error (core : ItemCore) (E : Eluna) (item : Item) (owner : Player)
    (enchant slot : Nat)
    (howner : item.owner = some owner)
    (h2 : CHECKVAL_uint32 E 2 = Checked.ok enchant)
    (hvalid : core.LookupEntry enchant = true)
    (h3 : CHECKVAL_uint32 E 3 = Checked.ok slot)
    (hslot : slot ≥ core.MAX_INSPECTED_ENCHANTMENT_SLOT) :
    (slot < 2 ^ 31 →
      LuaItem.SetEnchantment core E item =
        (item, MethodResult.argerror 2 "valid EnchantmentSlot expected")) ∧
    (2 ^ 31 ≤ slot →
      (LuaItem.SetEnchantment core E item).2 = MethodResult.returned [LuaValue.boolean true] 1 ∧
      (LuaItem.SetEnchantment core E item).1.GetEnchantmentId (EnchantmentSlot.cast slot) =
        enchant) := by
  have hlt := (CHECKVAL_uint32_ok E 3 slot h3).2
  refine ⟨fun hs => ?_, fun hs => ?_⟩
  · have hge : EnchantmentSlot.cast slot ≥ (core.MAX_INSPECTED_ENCHANTMENT_SLOT : Int) :=
      (EnchantmentSlot_cast_ge slot _ hlt).2 ⟨hslot, hs⟩
    simp only [LuaItem.SetEnchantment, howner, h2, hvalid, h3, hge, Bool.not_true,
      Bool.false_eq_true, if_false, if_true]
  · have hge : ¬ EnchantmentSlot.cast slot ≥ (core.MAX_INSPECTED_ENCHANTMENT_SLOT : Int) := by
      rw [EnchantmentSlot_cast_ge slot _ hlt]
      omega
    simp only [LuaItem.SetEnchantment, howner, h2, hvalid, h3, hge, Bool.not_true,
      Bool.false_eq_true, if_false]
    simp [Item.GetEnchantmentId, Item.SetEnchantment]

theorem SetEnchantment_slot_error_witness :
    CHECKVAL_uint32 (methodCall [LuaValue.number 2564, LuaValue.number 2]) 3 = Checked.ok 2 ∧
    LuaItem.SetEnchantment exampleItemCore
        (methodCall [LuaValue.number 2564, LuaValue.number 2]) ownedItem =
      (ownedItem, MethodResult.argerror 2 "valid EnchantmentSlot expected") ∧
    EnchantmentSlot.cast 4294967295 = -1 ∧
    (LuaItem.SetEnchantment exampleItemCore
        (methodCall [LuaValue.number 2564, LuaValue.number 4294967295]) ownedItem).2 =
      MethodResult.returned [LuaValue.boolean true] 1 ∧
    (LuaItem.SetEnchantment exampleItemCore
        (methodCall [LuaValue.number 2564, LuaValue.number 4294967295])
        ownedItem).1.GetEnchantmentId (EnchantmentSlot.cast 4294967295) = 2564 :=
  ⟨by decide,
    (SetEnchantment_slot_error exampleItemCore
      (methodCall [LuaValue.number 2564, LuaValue.number 2]) ownedItem ⟨42, 60, []⟩ 2564 2 rfl
      (by decide) (by decide) (by decide) (by decide)).1 (by decide),
    by decide,
    (SetEnchantment_slot_error exampleItemCore
      (methodCall [LuaValue.number 2564, LuaValue.number 4294967295]) ownedItem ⟨42, 60, []⟩
      2564 4294967295 rfl (by decide) (by decide) (by decide) (by decide)).2 (by decide)⟩

/-- C12: `Item:GetStatInfo` and `Item:GetDamageInfo` are 1-based and total on
every slot that is a `uint8`.  On a template whose arrays have the declared
sizes, a slot from 1 to the maximum reads entry slot - 1, which exists, and
returns its fields; slot 0 or a slot above the maximum returns zeros whatever
the template holds; for every slot the script gets exactly two, respectively
three, values.  An argument that is not a `uint8` is answered with the
argument error of the read at index 2 and no array is read. -/
theorem stat_and_damage_info (core : ItemCore) (E : Eluna) (item : Item) :
    (∀ statSlot, CHECKVAL_uint8 E 2 = Checked.ok statSlot →
      (item.template.WellFormed core →
        1 ≤ statSlot → statSlot ≤ core.MAX_ITEM_PROTO_STATS →
        ∃ e, item.template.ItemStat.get? (statSlot - 1) = some e ∧
          LuaItem.GetStatInfo core E item =
            MethodResult.returned
              [LuaValue.number e.ItemStatValue, LuaValue.number e.ItemStatType] 2) ∧
      (statSlot = 0 ∨ statSlot > core.MAX_ITEM_PROTO_STATS →
        LuaItem.GetStatInfo core E item =
          MethodResult.returned [LuaValue.number 0, LuaValue.number 0] 2) ∧
      (item.template.WellFormed core →
        ∃ vs, (LuaItem.GetStatInfo core E item).values = some vs ∧ vs.length = 2)) ∧
    (∀ index expectedType,
      CHECKVAL_uint8 E 2 = Checked.ArgumentTypeError index expectedType →
      index = 2 ∧ LuaItem.GetStatInfo core E item = MethodResult.argerror 2 expectedType) ∧
    (∀ damageSlot, CHECKVAL_uint8 E 2 = Checked.ok damageSlot →
      (item.template.WellFormed core →
        1 ≤ damageSlot → damageSlot ≤ core.MAX_ITEM_PROTO_DAMAGES →
        ∃ e, item.template.Damage.get? (damageSlot - 1) = some e ∧
          LuaItem.GetDamageInfo core E item =
            MethodResult.returned
              [LuaValue.number e.DamageType, LuaValue.number e.DamageMin,
                LuaValue.number e.DamageMax] 3) ∧
      (damageSlot = 0 ∨ damageSlot > core.MAX_ITEM_PROTO_DAMAGES →
        LuaItem.GetDamageInfo core E item =
          MethodResult.returned [LuaValue.number 0, LuaValue.number 0, LuaValue.number 0] 3) ∧
      (item.template.WellFormed core →
        ∃ vs, (LuaItem.GetDamageInfo core E item).values = some vs ∧ vs.length = 3)) ∧
    (∀ index expectedType,
      CHECKVAL_uint8 E 2 = Checked.ArgumentTypeError index expectedType →
      index = 2 ∧ LuaItem.GetDamageInfo core E item = MethodResult.argerror 2 expectedType) := by
  refine ⟨fun statSlot hr => ?_, fun index expectedType hr => ?_, fun damageSlot hr => ?_,
    fun index expectedType hr => ?_⟩
  · have hstat : item.template.WellFormed core →
        1 ≤ statSlot → statSlot ≤ core.MAX_ITEM_PROTO_STATS →
        ∃ e, item.template.ItemStat.get? (statSlot - 1) = some e ∧
          LuaItem.GetStatInfo core E item =
            MethodResult.returned
              [LuaValue.number e.ItemStatValue, LuaValue.number e.ItemStatType] 2 := by
      intro hwf h1 h2
      have hlt : statSlot - 1 < item.template.ItemStat.length := by
        rw [hwf.2.1]; omega
      refine ⟨item.template.ItemStat.get ⟨_, hlt⟩, List.get?_eq_get hlt, ?_⟩
      have hpos : 0 < statSlot := h1
      simp [LuaItem.GetStatInfo, hr, hpos, h2, List.getElem?_eq_getElem hlt]
    have hstat0 : statSlot = 0 ∨ statSlot > core.MAX_ITEM_PROTO_STATS →
        LuaItem.GetStatInfo core E item =
          MethodResult.returned [LuaValue.number 0, LuaValue.number 0] 2 := by
      intro h
      rcases h with h | h
      · simp [LuaItem.GetStatInfo, hr, h]
      · simp [LuaItem.GetStatInfo, hr, Nat.not_le.2 h]
    refine ⟨hstat, hstat0, fun hwf => ?_⟩
    by_cases h : 1 ≤ statSlot ∧ statSlot ≤ core.MAX_ITEM_PROTO_STATS
    · obtain ⟨e, _, he⟩ := hstat hwf h.1 h.2
      rw [he]; exact ⟨_, rfl, rfl⟩
    · rw [hstat0 (by omega)]; exact ⟨_, rfl, rfl⟩
  · have hi := CHECKVAL_uint8_error E 2 index expectedType hr
    subst hi
    exact ⟨rfl, by simp [LuaItem.GetStatInfo, hr]⟩
  · have hdmg : item.template.WellFormed core →
        1 ≤ damageSlot → damageSlot ≤ core.MAX_ITEM_PROTO_DAMAGES →
        ∃ e, item.template.Damage.get? (damageSlot - 1) = some e ∧
          LuaItem.GetDamageInfo core E item =
            MethodResult.returned
              [LuaValue.number e.DamageType, LuaValue.number e.DamageMin,
                LuaValue.number e.DamageMax] 3 := by
      intro hwf h1 h2
      have hlt : damageSlot - 1 < item.template.Damage.length := by
        rw [hwf.2.2]; omega
      refine ⟨item.template.Damage.get ⟨_, hlt⟩, List.get?_eq_get hlt, ?_⟩
      have hpos : 0 < damageSlot := h1
      simp [LuaItem.GetDamageInfo, hr, hpos, h2, List.getElem?_eq_getElem hlt]
    have hdmg0 : damageSlot = 0 ∨ damageSlot > core.MAX_ITEM_PROTO_DAMAGES →
        LuaItem.GetDamageInfo core E item =
          MethodResult.returned [LuaValue.number 0, LuaValue.number 0, LuaValue.number 0] 3 := by
      intro h
      rcases h with h | h
      · simp [LuaItem.GetDamageInfo, hr, h]
      · simp [LuaItem.GetDamageInfo, hr, Nat.not_le.2 h]
    refine ⟨hdmg, hdmg0, fun hwf => ?_⟩
    by_cases h : 1 ≤ damageSlot ∧ damageSlot ≤ core.MAX_ITEM_PROTO_DAMAGES
    · obtain ⟨e, _, he⟩ := hdmg hwf h.1 h.2
      rw [he]; exact ⟨_, rfl, rfl⟩
    · rw [hdmg0 (by omega)]; exact ⟨_, rfl, rfl⟩
  · have hi := CHECKVAL_uint8_error E 2 index expectedType hr
    subst hi
    exact ⟨rfl, by simp [LuaItem.GetDamageInfo, hr]⟩

theorem stat_and_damage_info_witness :
    (∃ e, exampleItemTemplate.ItemStat.get? (2 - 1) = some e ∧
      LuaItem.GetStatInfo exampleItemCore (methodCall [LuaValue.number 2]) ownedItem =
        MethodResult.returned
          [LuaValue.number e.ItemStatValue, LuaValue.number e.ItemStatType] 2) ∧
    LuaItem.GetStatInfo exampleItemCore (methodCall [LuaValue.number 11]) ownedItem =
      MethodResult.returned [LuaValue.number 0, LuaValue.number 0] 2 ∧
    (2 = 2 ∧ LuaItem.GetStatInfo exampleItemCore (methodCall [LuaValue.number 257]) ownedItem =
      MethodResult.argerror 2 "uint8") ∧
    (2 = 2 ∧ LuaItem.GetDamageInfo exampleItemCore (methodCall []) ownedItem =
      MethodResult.argerror 2 "uint8") :=
  ⟨((stat_and_damage_info exampleItemCore (methodCall [LuaValue.number 2]) ownedItem).1 2
      (by decide)).1 (by decide) (by decide) (by decide),
    ((stat_and_damage_info exampleItemCore (methodCall [LuaValue.number 11]) ownedItem).1 11
      (by decide)).2.1 (by decide),
    (stat_and_damage_info exampleItemCore (methodCall [LuaValue.number 257]) ownedItem).2.1
      2 "uint8" (by decide),
    (stat_and_damage_info exampleItemCore (methodCall []) ownedItem).2.2.2
      2 "uint8" (by decide)⟩

/-- C13: the range-validated Item getters, for an argument of the type the
getter reads.  `GetSpellId` and `GetSpellTrigger` raise an argument error
exactly when the spell index is not below `MAX_ITEM_PROTO_SPELLS`, and
otherwise return the field of `Spells[spellIndex]`, an entry that exists when
the array has its declared size.  `GetEnchantmentId` raises an argument error
exactly when the slot is not below `MAX_INSPECTED_ENCHANTMENT_SLOT`, and
`GetItemLink` exactly when the locale, `DEFAULT_LOCALE` when omitted, is not
below `TOTAL_LOCALES`.  Every argument error of the four getters has index 2,
the error for an argument of the wrong type included. -/
theorem range_validated_getters (core : ItemCore) (E : Eluna) (item : Item) :
    (∀ spellIndex, CHECKVAL_uint32 E 2 = Checked.ok spellIndex →
      ((∃ narg msg, LuaItem.GetSpellId core E item = MethodResult.argerror narg msg) ↔
        spellIndex ≥ core.MAX_ITEM_PROTO_SPELLS) ∧
      (item.template.WellFormed core → spellIndex < core.MAX_ITEM_PROTO_SPELLS →
        ∃ spell, item.template.Spells.get? spellIndex = some spell ∧
          LuaItem.GetSpellId core E item =
            MethodResult.returned [LuaValue.number spell.SpellId] 1) ∧
      ((∃ narg msg, LuaItem.GetSpellTrigger core E item = MethodResult.argerror narg msg) ↔
        spellIndex ≥ core.MAX_ITEM_PROTO_SPELLS) ∧
      (item.template.WellFormed core → spellIndex < core.MAX_ITEM_PROTO_SPELLS →
        ∃ spell, item.template.Spells.get? spellIndex = some spell ∧
          LuaItem.GetSpellTrigger core E item =
            MethodResult.returned [LuaValue.number spell.SpellTrigger] 1)) ∧
    (∀ enchantSlot, CHECKVAL_uint32 E 2 = Checked.ok enchantSlot →
      ((∃ narg msg, LuaItem.GetEnchantmentId core E item = MethodResult.argerror narg msg) ↔
        enchantSlot ≥ core.MAX_INSPECTED_ENCHANTMENT_SLOT)) ∧
    (∀ locale, CHECKVAL_uint8_opt E 2 core.DEFAULT_LOCALE = Checked.ok locale →
      ((∃ narg msg, LuaItem.GetItemLink core E item = MethodResult.argerror narg msg) ↔
        locale ≥ core.TOTAL_LOCALES)) ∧
    (lua_index E 2 = LuaValue.nil →
      CHECKVAL_uint8_opt E 2 core.DEFAULT_LOCALE = Checked.ok core.DEFAULT_LOCALE) ∧
    (∀ narg msg, LuaItem.GetSpellId core E item = MethodResult.argerror narg msg → narg = 2) ∧
    (∀ narg msg,
      LuaItem.GetSpellTrigger core E item = MethodResult.argerror narg msg → narg = 2) ∧
    (∀ narg msg,
      LuaItem.GetEnchantmentId core E item = MethodResult.argerror narg msg → narg = 2) ∧
    (∀ narg msg, LuaItem.GetItemLink core E item = MethodResult.argerror narg msg → narg = 2) ∧
    (∀ index expectedType,
      CHECKVAL_uint32 E 2 = Checked.ArgumentTypeError index expectedType →
      LuaItem.GetSpellId core E item = MethodResult.argerror 2 expectedType ∧
      LuaItem.GetSpellTrigger core E item = MethodResult.argerror 2 expectedType ∧
      LuaItem.GetEnchantmentId core E item = MethodResult.argerror 2 expectedType) ∧
    (∀ index expectedType,
      CHECKVAL_uint8_opt E 2 core.DEFAULT_LOCALE =
        Checked.ArgumentTypeError index expectedType →
      LuaItem.GetItemLink core E item = MethodResult.argerror 2 expectedType) := by
  refine ⟨fun spellIndex hr => ⟨?_, ?_, ?_, ?_⟩, fun enchantSlot hr => ?_, fun locale hr => ?_,
    fun h => ?_, fun narg msg hx => ?_, fun narg msg hx => ?_, fun narg msg hx => ?_,
    fun narg msg hx => ?_, fun index expectedType hr => ?_, fun index expectedType hr => ?_⟩
  · simp only [LuaItem.GetSpellId, hr]
    by_cases h : spellIndex ≥ core.MAX_ITEM_PROTO_SPELLS
    · simp [h]
    · simp only [h, if_false, iff_false]
      rintro ⟨narg, msg, hx⟩
      cases hs : item.template.Spells.get? spellIndex <;> rw [hs] at hx <;> cases hx
  · intro hwf h
    have hlt : spellIndex < item.template.Spells.length := by rw [hwf.1]; exact h
    refine ⟨item.template.Spells.get ⟨_, hlt⟩, List.get?_eq_get hlt, ?_⟩
    simp [LuaItem.GetSpellId, hr, Nat.not_le.2 h, List.getElem?_eq_getElem hlt]
  · simp only [LuaItem.GetSpellTrigger, hr]
    by_cases h : spellIndex ≥ core.MAX_ITEM_PROTO_SPELLS
    · simp [h]
    · simp only [h, if_false, iff_false]
      rintro ⟨narg, msg, hx⟩
      cases hs : item.template.Spells.get? spellIndex <;> rw [hs] at hx <;> cases hx
  · intro hwf h
    have hlt : spellIndex < item.template.Spells.length := by rw [hwf.1]; exact h
    refine ⟨item.template.Spells.get ⟨_, hlt⟩, List.get?_eq_get hlt, ?_⟩
    simp [LuaItem.GetSpellTrigger, hr, Nat.not_le.2 h, List.getElem?_eq_getElem hlt]
  · simp only [LuaItem.GetEnchantmentId, hr]
    by_cases h : enchantSlot ≥ core.MAX_INSPECTED_ENCHANTMENT_SLOT
    · simp [h]
    · simp [h]
  · simp only [LuaItem.GetItemLink, hr]
    by_cases h : locale ≥ core.TOTAL_LOCALES
    · simp [h]
    · simp only [h, if_false, iff_false]
      rintro ⟨narg, msg, hx⟩
      split at hx <;> cases hx
  · simp [CHECKVAL_uint8_opt, h]
  · unfold LuaItem.GetSpellId at hx
    cases hr : CHECKVAL_uint32 E 2 with
    | ArgumentTypeError index expectedType =>
      rw [hr] at hx
      cases hx
      exact CHECKVAL_uint32_error E 2 _ _ hr
    | ok spellIndex =>
      rw [hr] at hx
      by_cases h : spellIndex ≥ core.MAX_ITEM_PROTO_SPELLS
      · simp only [h, if_true] at hx
        cases hx; rfl
      · simp only [h, if_false] at hx
        cases hs : item.template.Spells.get? spellIndex <;> rw [hs] at hx <;> cases hx
  · unfold LuaItem.GetSpellTrigger at hx
    cases hr : CHECKVAL_uint32 E 2 with
    | ArgumentTypeError index expectedType =>
      rw [hr] at hx
      cases hx
      exact CHECKVAL_uint32_error E 2 _ _ hr
    | ok spellIndex =>
      rw [hr] at hx
      by_cases h : spellIndex ≥ core.MAX_ITEM_PROTO_SPELLS
      · simp only [h, if_true] at hx
        cases hx; rfl
      · simp only [h, if_false] at hx
        cases hs : item.template.Spells.get? spellIndex <;> rw [hs] at hx <;> cases hx
  · unfold LuaItem.GetEnchantmentId at hx
    cases hr : CHECKVAL_uint32 E 2 with
    | ArgumentTypeError index expectedType =>
      rw [hr] at hx
      cases hx
      exact CHECKVAL_uint32_error E 2 _ _ hr
    | ok enchantSlot =>
      rw [hr] at hx
      by_cases h : enchantSlot ≥ core.MAX_INSPECTED_ENCHANTMENT_SLOT
      · simp only [h, if_true] at hx
        cases hx; rfl
      · simp only [h, if_false] at hx
        cases hx
  · unfold LuaItem.GetItemLink at hx
    cases hr : CHECKVAL_uint8_opt E 2 core.DEFAULT_LOCALE with
    | ArgumentTypeError index expectedType =>
      rw [hr] at hx
      cases hx
      exact CHECKVAL_uint8_opt_error E 2 _ _ _ hr
    | ok locale =>
      rw [hr] at hx
      by_cases h : locale ≥ core.TOTAL_LOCALES
      · simp only [h, if_true] at hx
        cases hx; rfl
      · simp only [h, if_false] at hx
        split at hx <;> cases hx
  · have hi := CHECKVAL_uint32_error E 2 index expectedType hr
    subst hi
    simp [LuaItem.GetSpellId, LuaItem.GetSpellTrigger, LuaItem.GetEnchantmentId, hr]
  · have hi := CHECKVAL_uint8_opt_error E 2 _ index expectedType hr
    subst hi
    simp [LuaItem.GetItemLink, hr]

theorem range_validated_getters_witness :
    (∃ narg msg, LuaItem.GetSpellId exampleItemCore (methodCall [LuaValue.number 5]) ownedItem =
      MethodResult.argerror narg msg) ∧
    (∃ spell, exampleItemTemplate.Spells.get? 0 = some spell ∧
      LuaItem.GetSpellId exampleItemCore (methodCall [LuaValue.number 0]) ownedItem =
        MethodResult.returned [LuaValue.number spell.SpellId] 1) ∧
    LuaItem.GetSpellId exampleItemCore (methodCall [LuaValue.number 4294967296]) ownedItem =
      MethodResult.argerror 2 "uint32" ∧
    LuaItem.GetSpellTrigger exampleItemCore (methodCall []) ownedItem =
      MethodResult.argerror 2 "uint32" ∧
    LuaItem.GetEnchantmentId exampleItemCore (methodCall [LuaValue.boolean true]) ownedItem =
      MethodResult.argerror 2 "uint32" ∧
    CHECKVAL_uint8_opt (methodCall []) 2 exampleItemCore.DEFAULT_LOCALE =
      Checked.ok exampleItemCore.DEFAULT_LOCALE :=
  ⟨((range_validated_getters exampleItemCore (methodCall [LuaValue.number 5]) ownedItem).1 5
      (by decide)).1.2 (by decide),
    ((range_validated_getters exampleItemCore (methodCall [LuaValue.number 0]) ownedItem).1 0
      (by decide)).2.1 (by decide) (by decide),
    ((range_validated_getters exampleItemCore (methodCall [LuaValue.number 4294967296])
      ownedItem).2.2.2.2.2.2.2.2.1 2 "uint32" (by decide)).1,
    ((range_validated_getters exampleItemCore (methodCall []) ownedItem).2.2.2.2.2.2.2.2.1
      2 "uint32" (by decide)).2.1,
    ((range_validated_getters exampleItemCore (methodCall [LuaValue.boolean true])
      ownedItem).2.2.2.2.2.2.2.2.1 2 "uint32" (by decide)).2.2,
    (range_validated_getters exampleItemCore (methodCall []) ownedItem).2.2.2.1 (by decide)⟩

/-- C14: `Item:SetEnchantment` returns true exactly when it set the
enchantment, that is when the item has an owner, the enchant id read from
index 2 is in the enchantment store and the slot read from index 3, cast to
`EnchantmentSlot`, is below `MAX_INSPECTED_ENCHANTMENT_SLOT`.  Without an
owner, or with an enchant id the store does not know, it returns false and
leaves the item and its owner unchanged; whenever the result is not true the
item and its owner are unchanged.  When it returns true the slot holds the
given id, the other slots are untouched, and the owner has seen the removal
of the old enchantment's effect followed by the application of the new one. -/
theorem SetEnchantment_result (core : ItemCore) (E : Eluna) (item : Item) :
    ((LuaItem.SetEnchantment core E item).2 =
        MethodResult.returned [LuaValue.boolean true] 1 ↔
      (item.owner.isSome = true ∧
        ∃ enchant slot, CHECKVAL_uint32 E 2 = Checked.ok enchant ∧
          core.LookupEntry enchant = true ∧ CHECKVAL_uint32 E 3 = Checked.ok slot ∧
          EnchantmentSlot.cast slot < (core.MAX_INSPECTED_ENCHANTMENT_SLOT : Int))) ∧
    (item.owner = none →
      LuaItem.SetEnchantment core E item =
        (item, MethodResult.returned [LuaValue.boolean false] 1)) ∧
    (∀ enchant, CHECKVAL_uint32 E 2 = Checked.ok enchant → core.LookupEntry enchant = false →
      LuaItem.SetEnchantment core E item =
        (item, MethodResult.returned [LuaValue.boolean false] 1)) ∧
    ((LuaItem.SetEnchantment core E item).2 ≠ MethodResult.returned [LuaValue.boolean true] 1 →
      (LuaItem.SetEnchantment core E item).1 = item) ∧
    (∀ owner enchant slot, item.owner = some owner →
      CHECKVAL_uint32 E 2 = Checked.ok enchant → core.LookupEntry enchant = true →
      CHECKVAL_uint32 E 3 = Checked.ok slot →
      EnchantmentSlot.cast slot < (core.MAX_INSPECTED_ENCHANTMENT_SLOT : Int) →
      (LuaItem.SetEnchantment core E item).1.GetEnchantmentId (EnchantmentSlot.cast slot) =
        enchant ∧
      (∀ s, s ≠ EnchantmentSlot.cast slot →
        (LuaItem.SetEnchantment core E item).1.GetEnchantmentId s = item.GetEnchantmentId s) ∧
      (LuaItem.SetEnchantment core E item).1.template = item.template ∧
      (LuaItem.SetEnchantment core E item).1.owner =
        some { owner with
          enchantmentEffects := owner.enchantmentEffects ++
            [⟨EnchantmentSlot.cast slot, item.GetEnchantmentId (EnchantmentSlot.cast slot),
                false⟩,
              ⟨EnchantmentSlot.cast slot, enchant, true⟩] }) := by
  refine ⟨?_, ?_, ?_, ?_, ?_⟩
  · unfold LuaItem.SetEnchantment
    cases ho : item.owner with
    | none => simp
    | some owner =>
      cases h2 : CHECKVAL_uint32 E 2 with
      | ArgumentTypeError index expectedType => simp
      | ok enchant =>
        cases hv : core.LookupEntry enchant with
        | false => simp [hv]
        | true =>
          cases h3 : CHECKVAL_uint32 E 3 with
          | ArgumentTypeError index expectedType => simp [hv]
          | ok slot =>
            by_cases hs : EnchantmentSlot.cast slot < (core.MAX_INSPECTED_ENCHANTMENT_SLOT : Int)
            · have hs' : ¬ EnchantmentSlot.cast slot ≥
                  (core.MAX_INSPECTED_ENCHANTMENT_SLOT : Int) := Int.not_le.2 hs
              simp [hs, hs', hv]
            · have hs' : EnchantmentSlot.cast slot ≥
                  (core.MAX_INSPECTED_ENCHANTMENT_SLOT : Int) := Int.not_lt.1 hs
              simp [hs, hs', hv]
  · intro ho
    simp [LuaItem.SetEnchantment, ho]
  · intro enchant h2 hv
    unfold LuaItem.SetEnchantment
    cases ho : item.owner with
    | none => rfl
    | some owner => simp [h2, hv]
  · unfold LuaItem.SetEnchantment
    cases ho : item.owner with
    | none => simp
    | some owner =>
      cases h2 : CHECKVAL_uint32 E 2 with
      | ArgumentTypeError index expectedType => simp
      | ok enchant =>
        cases hv : core.LookupEntry enchant with
        | false => simp [hv]
        | true =>
          cases h3 : CHECKVAL_uint32 E 3 with
          | ArgumentTypeError index expectedType => simp [hv]
          | ok slot =>
            by_cases hs : EnchantmentSlot.cast slot ≥ (core.MAX_INSPECTED_ENCHANTMENT_SLOT : Int)
            · simp [hs, hv]
            · simp [hs, hv]
  · intro owner enchant slot ho h2 hv h3 hs
    have hs' : ¬ EnchantmentSlot.cast slot ≥ (core.MAX_INSPECTED_ENCHANTMENT_SLOT : Int) :=
      Int.not_le.2 hs
    simp only [LuaItem.SetEnchantment, ho, h2, hv, h3, hs', Bool.not_true, Bool.false_eq_true,
      if_false]
    refine ⟨by simp [Item.GetEnchantmentId, Item.SetEnchantment], fun s hne => ?_, rfl, ?_⟩
    · simp [Item.GetEnchantmentId, Item.SetEnchantment, hne]
    · simp [Player.ApplyEnchantment, Item.GetEnchantmentId, Item.SetEnchantment]

theorem SetEnchantment_result_witness :
    (LuaItem.SetEnchantment exampleItemCore
        (methodCall [LuaValue.number 2564, LuaValue.number 0]) ownedItem).1.owner =
      some ⟨42, 60, [⟨0, 1900, false⟩, ⟨0, 2564, true⟩]⟩ ∧
    (LuaItem.SetEnchantment exampleItemCore
        (methodCall [LuaValue.number 2564, LuaValue.number 0]) ownedItem).2 =
      MethodResult.returned [LuaValue.boolean true] 1 ∧
    LuaItem.SetEnchantment exampleItemCore
        (methodCall [LuaValue.number 5000, LuaValue.number 0]) ownedItem =
      (ownedItem, MethodResult.returned [LuaValue.boolean false] 1) :=
  ⟨((SetEnchantment_result exampleItemCore
      (methodCall [LuaValue.number 2564, LuaValue.number 0]) ownedItem).2.2.2.2
      ⟨42, 60, []⟩ 2564 0 rfl (by decide) (by decide) (by decide) (by decide)).2.2.2.trans
      (by decide),
    (SetEnchantment_result exampleItemCore
      (methodCall [LuaValue.number 2564, LuaValue.number 0]) ownedItem).1.2
      ⟨rfl, 2564, 0, by decide, by decide, by decide, by decide⟩,
    (SetEnchantment_result exampleItemCore
      (methodCall [LuaValue.number 5000, LuaValue.number 0]) ownedItem).2.2.1 5000
      (by decide) (by decide)⟩

/-- C15, as amended: `Item:ClearEnchantment` returns true exactly when the item
has an owner, the slot read from index 2, cast to `EnchantmentSlot`, is below
`MAX_INSPECTED_ENCHANTMENT_SLOT` and the slot holds a non-zero enchantment id;
the slot is then cleared, the other slots are untouched and the owner has
seen the removal of the effect.  It returns false and changes nothing when
there is no owner, or when the slot is below the maximum and holds no
enchantment.  With an owner and a slot that after the cast is not below the
maximum, which are the values from the maximum up to 2^31 - 1, it raises an
argument error at index 2 and changes nothing, whatever the slot holds.  The
cast leaves a value below 2^31 as it is. -/
theorem ClearEnchantment_result (core : ItemCore) (E : Eluna) (item : Item) :
    ((LuaItem.ClearEnchantment core E item).2 =
        MethodResult.returned [LuaValue.boolean true] 1 ↔
      (item.owner.isSome = true ∧
        ∃ slot, CHECKVAL_uint32 E 2 = Checked.ok slot ∧
          EnchantmentSlot.cast slot < (core.MAX_INSPECTED_ENCHANTMENT_SLOT : Int) ∧
          item.GetEnchantmentId (EnchantmentSlot.cast slot) ≠ 0)) ∧
    (∀ owner slot, item.owner = some owner → CHECKVAL_uint32 E 2 = Checked.ok slot →
      EnchantmentSlot.cast slot < (core.MAX_INSPECTED_ENCHANTMENT_SLOT : Int) →
      item.GetEnchantmentId (EnchantmentSlot.cast slot) ≠ 0 →
      (LuaItem.ClearEnchantment core E item).1.GetEnchantmentId (EnchantmentSlot.cast slot) =
        0 ∧
      (∀ s, s ≠ EnchantmentSlot.cast slot →
        (LuaItem.ClearEnchantment core E item).1.GetEnchantmentId s =
          item.GetEnchantmentId s) ∧
      (LuaItem.ClearEnchantment core E item).1.owner =
        some { owner with
          enchantmentEffects := owner.enchantmentEffects ++
            [⟨EnchantmentSlot.cast slot, item.GetEnchantmentId (EnchantmentSlot.cast slot),
              false⟩] }) ∧
    (item.owner = none →
      LuaItem.ClearEnchantment core E item =
        (item, MethodResult.returned [LuaValue.boolean false] 1)) ∧
    (∀ slot, CHECKVAL_uint32 E 2 = Checked.ok slot →
      EnchantmentSlot.cast slot < (core.MAX_INSPECTED_ENCHANTMENT_SLOT : Int) →
      item.GetEnchantmentId (EnchantmentSlot.cast slot) = 0 →
      LuaItem.ClearEnchantment core E item =
        (item, MethodResult.returned [LuaValue.boolean false] 1)) ∧
    (∀ slot, item.owner.isSome = true → CHECKVAL_uint32 E 2 = Checked.ok slot →
      (EnchantmentSlot.cast slot ≥ (core.MAX_INSPECTED_ENCHANTMENT_SLOT : Int) ↔
        core.MAX_INSPECTED_ENCHANTMENT_SLOT ≤ slot ∧ slot < 2 ^ 31) ∧
      (EnchantmentSlot.cast slot ≥ (core.MAX_INSPECTED_ENCHANTMENT_SLOT : Int) →
        LuaItem.ClearEnchantment core E item =
          (item, MethodResult.argerror 2 "valid EnchantmentSlot expected"))) ∧
    (∀ slot : Nat, slot < 2 ^ 31 → EnchantmentSlot.cast slot = (slot : Int)) := by
  refine ⟨?_, ?_, ?_, ?_, ?_, fun slot h => EnchantmentSlot_cast_small slot h⟩
  · unfold LuaItem.ClearEnchantment
    cases ho : item.owner with
    | none => simp
    | some owner =>
      cases h2 : CHECKVAL_uint32 E 2 with
      | ArgumentTypeError index expectedType => simp
      | ok slot =>
        by_cases hs : EnchantmentSlot.cast slot < (core.MAX_INSPECTED_ENCHANTMENT_SLOT : Int)
        · have hs' : ¬ EnchantmentSlot.cast slot ≥
              (core.MAX_INSPECTED_ENCHANTMENT_SLOT : Int) := Int.not_le.2 hs
          by_cases hz : item.GetEnchantmentId (EnchantmentSlot.cast slot) = 0
          · simp [hs, hs', hz]
          · simp [hs, hs', hz]
        · have hs' : EnchantmentSlot.cast slot ≥
              (core.MAX_INSPECTED_ENCHANTMENT_SLOT : Int) := Int.not_lt.1 hs
          simp [hs, hs']
  · intro owner slot ho h2 hs hz
    have hs' : ¬ EnchantmentSlot.cast slot ≥ (core.MAX_INSPECTED_ENCHANTMENT_SLOT : Int) :=
      Int.not_le.2 hs
    simp only [LuaItem.ClearEnchantment, ho, h2, hs', hz, if_false]
    refine ⟨by simp [Item.GetEnchantmentId, Item.ClearEnchantment], fun s hne => ?_, ?_⟩
    · simp [Item.GetEnchantmentId, Item.ClearEnchantment, hne]
    · simp [Player.ApplyEnchantment, Item.GetEnchantmentId, Item.ClearEnchantment]
  · intro ho
    simp [LuaItem.ClearEnchantment, ho]
  · intro slot h2 hs hz
    have hs' : ¬ EnchantmentSlot.cast slot ≥ (core.MAX_INSPECTED_ENCHANTMENT_SLOT : Int) :=
      Int.not_le.2 hs
    unfold LuaItem.ClearEnchantment
    cases ho : item.owner with
    | none => rfl
    | some owner => simp [h2, hs', hz]
  · intro slot ho h2
    refine ⟨EnchantmentSlot_cast_ge slot _ (CHECKVAL_uint32_ok E 2 slot h2).2, fun hs => ?_⟩
    unfold LuaItem.ClearEnchantment
    cases ho' : item.owner with
    | none => simp [ho'] at ho
    | some owner => simp [h2, hs]

theorem ClearEnchantment_result_witness :
    (LuaItem.ClearEnchantment exampleItemCore (methodCall [LuaValue.number 0])
        ownedItem).1.GetEnchantmentId (EnchantmentSlot.cast 0) = 0 ∧
    (LuaItem.ClearEnchantment exampleItemCore (methodCall [LuaValue.number 0]) ownedItem).2 =
      MethodResult.returned [LuaValue.boolean true] 1 ∧
    LuaItem.ClearEnchantment exampleItemCore (methodCall [LuaValue.number 2]) ownedItem =
      (ownedItem, MethodResult.argerror 2 "valid EnchantmentSlot expected") :=
  ⟨((ClearEnchantment_result exampleItemCore (methodCall [LuaValue.number 0]) ownedItem).2.1
      ⟨42, 60, []⟩ 0 rfl (by decide) (by decide) (by decide)).1,
    (ClearEnchantment_result exampleItemCore (methodCall [LuaValue.number 0]) ownedItem).1.2
      ⟨rfl, 0, by decide, by decide, by decide⟩,
    ((ClearEnchantment_result exampleItemCore (methodCall [LuaValue.number 2])
      ownedItem).2.2.2.2.1 2 rfl (by decide)).2 (by decide)⟩

/-- C15 fails as stated: on an owned item, whose slot 2 holds no enchantment,
`ClearEnchantment(2)` with two inspected slots does not return false; it
raises the argument error. -/
theorem ClearEnchantment_result_counterexample :
    ownedItem.owner.isSome = true ∧
    CHECKVAL_uint32 (methodCall [LuaValue.number 2]) 2 = Checked.ok 2 ∧
    ownedItem.GetEnchantmentId (EnchantmentSlot.cast 2) = 0 ∧
    (LuaItem.ClearEnchantment exampleItemCore (methodCall [LuaValue.number 2]) ownedItem).2 =
      MethodResult.argerror 2 "valid EnchantmentSlot expected" ∧
    (LuaItem.ClearEnchantment exampleItemCore (methodCall [LuaValue.number 2]) ownedItem).2 ≠
      MethodResult.returned [LuaValue.boolean false] 1 := by
  decide

/-! ## The threat-list thunks -/

theorem pushDeref_drop (l : List WorldUnit) (n : Nat) (target : WorldUnit)
    (h : l.get? n = some target) :
    LuaCreature.pushDeref (if n ≠ 0 then l.drop n else l) =
      MethodResult.returned [LuaValue.userdata target.id] 1 := by
  have hd : (if n ≠ 0 then l.drop n else l) = l.drop n := by
    by_cases h0 : n = 0
    · simp [h0]
    · simp [h0]
  rw [hd]
  unfold LuaCreature.pushDeref
  rw [List.head?_drop]
  simp only [List.get?_eq_getElem?] at h
  rw [h]

/-- An argument of `GetAITarget` that cannot be read ends the call with the
argument error of that read: the targetType at index 2, and after it the
position at index 4. -/
theorem GetAITarget_argument_error (E : Eluna) (creature : ThreatCreature) :
    (∀ index expectedType,
      CHECKVAL_uint32 E 2 = Checked.ArgumentTypeError index expectedType →
      LuaCreature.GetAITarget E creature = MethodResult.argerror 2 expectedType) ∧
    (∀ targetType index expectedType, CHECKVAL_uint32 E 2 = Checked.ok targetType →
      CHECKVAL_uint32_opt E 4 0 = Checked.ArgumentTypeError index expectedType →
      LuaCreature.GetAITarget E creature = MethodResult.argerror 4 expectedType) := by
  refine ⟨fun index expectedType h2 => ?_, fun targetType index expectedType h2 h4 => ?_⟩
  · have hi := CHECKVAL_uint32_error E 2 index expectedType h2
    subst hi
    simp only [LuaCreature.GetAITarget, h2]
  · have hi := CHECKVAL_uint32_opt_error E 4 0 index expectedType h4
    subst hi
    simp only [LuaCreature.GetAITarget, h2, h4]

theorem GetAITarget_in_range (E : Eluna) (creature : ThreatCreature)
    (targetType position : Nat) (dist aura : Int)
    (h2 : CHECKVAL_uint32 E 2 = Checked.ok targetType)
    (h4 : CHECKVAL_uint32_opt E 4 0 = Checked.ok position)
    (h5 : CHECKVAL_float_opt E 5 0 = Checked.ok dist)
    (h6 : CHECKVAL_int32_opt E 6 0 = Checked.ok aura)
    (h : position < (candidates creature (CHECKVAL_bool_opt E 3 false) dist aura).length) :
    LuaCreature.GetAITarget E creature =
      if targetType = SELECT_TARGET_NEAREST ∨
          targetType = SELECT_TARGET_TOPAGGRO then
        LuaCreature.pushDeref
          (if position ≠ 0 then
            (if targetType = SELECT_TARGET_NEAREST ∨
                targetType = SELECT_TARGET_FARTHEST then
              sortByDistance creature
                (candidates creature (CHECKVAL_bool_opt E 3 false) dist aura)
            else candidates creature (CHECKVAL_bool_opt E 3 false) dist aura).drop position
          else
            (if targetType = SELECT_TARGET_NEAREST ∨
                targetType = SELECT_TARGET_FARTHEST then
              sortByDistance creature
                (candidates creature (CHECKVAL_bool_opt E 3 false) dist aura)
            else candidates creature (CHECKVAL_bool_opt E 3 false) dist aura))
      else if targetType = SELECT_TARGET_FARTHEST ∨
          targetType = SELECT_TARGET_BOTTOMAGGRO then
        LuaCreature.pushDeref
          (if position ≠ 0 then
            (if targetType = SELECT_TARGET_NEAREST ∨
                targetType = SELECT_TARGET_FARTHEST then
              sortByDistance creature
                (candidates creature (CHECKVAL_bool_opt E 3 false) dist aura)
            else candidates creature (CHECKVAL_bool_opt E 3 false) dist
              aura).reverse.drop position
          else
            (if targetType = SELECT_TARGET_NEAREST ∨
                targetType = SELECT_TARGET_FARTHEST then
              sortByDistance creature
                (candidates creature (CHECKVAL_bool_opt E 3 false) dist aura)
            else candidates creature (CHECKVAL_bool_opt E 3 false) dist aura).reverse)
      else if targetType = SELECT_TARGET_RANDOM then
        LuaCreature.pushDeref
          (if position ≠ 0 then
            (candidates creature (CHECKVAL_bool_opt E 3 false) dist aura).drop
              (creature.urand 0 position)
          else
            (candidates creature (CHECKVAL_bool_opt E 3 false) dist aura).drop
              (creature.urand 0
                ((candidates creature (CHECKVAL_bool_opt E 3 false) dist aura).length - 1)))
      else MethodResult.argerror 2 "SelectAggroTarget expected" := by
  have hne : (candidates creature (CHECKVAL_bool_opt E 3 false) dist aura).isEmpty = false := by
    cases hc : candidates creature (CHECKVAL_bool_opt E 3 false) dist aura with
    | nil => rw [hc] at h; simp at h
    | cons a l => rfl
  have hge : ¬ position ≥ (candidates creature (CHECKVAL_bool_opt E 3 false) dist aura).length :=
    Nat.not_le.2 h
  unfold candidates at hne hge ⊢
  simp only [LuaCreature.GetAITarget, h2, h4, h5, h6]
  simp only [hne, hge, Bool.false_eq_true, if_false]
  by_cases h3 : targetType = SELECT_TARGET_NEAREST
  · simp [h3]
  · by_cases h4 : targetType = SELECT_TARGET_FARTHEST
    · simp [h4]
    · simp [h3, h4]

theorem GetAITarget_out_of_range (E : Eluna) (creature : ThreatCreature)
    (targetType position : Nat) (dist aura : Int)
    (h2 : CHECKVAL_uint32 E 2 = Checked.ok targetType)
    (h4 : CHECKVAL_uint32_opt E 4 0 = Checked.ok position)
    (h5 : CHECKVAL_float_opt E 5 0 = Checked.ok dist)
    (h6 : CHECKVAL_int32_opt E 6 0 = Checked.ok aura)
    (h : ¬ position < (candidates creature (CHECKVAL_bool_opt E 3 false) dist aura).length) :
    LuaCreature.GetAITarget E creature = MethodResult.returned [] 1 := by
  have hge : position ≥ (candidates creature (CHECKVAL_bool_opt E 3 false) dist aura).length :=
    Nat.not_lt.1 h
  unfold candidates at hge
  simp only [LuaCreature.GetAITarget, h2, h4, h5, h6]
  simp only [hge, if_true, ite_self]

theorem sortByDistance_length (creature : ThreatCreature) (l : List WorldUnit) :
    (sortByDistance creature l).length = l.length :=
  List.length_insertionSort _ l

/-- C16: `Creature:GetAITarget`, called with arguments of the types it reads,
uses position as a 0-based offset into the candidate list c.  It yields no
target, so nil, when c is empty or position is not below the length of c.
Otherwise TOPAGGRO returns c[position], BOTTOMAGGRO returns
c[|c| - 1 - position], and NEAREST and FARTHEST return the same two positions
of c sorted by distance from the creature, a list that is a permutation of c
in ascending distance.  Each of these entries exists. -/
theorem GetAITarget_offset (E : Eluna) (creature : ThreatCreature)
    (targetType position : Nat) (dist aura : Int)
    (h2 : CHECKVAL_uint32 E 2 = Checked.ok targetType)
    (h4 : CHECKVAL_uint32_opt E 4 0 = Checked.ok position)
    (h5 : CHECKVAL_float_opt E 5 0 = Checked.ok dist)
    (h6 : CHECKVAL_int32_opt E 6 0 = Checked.ok aura) :
    (candidates creature (CHECKVAL_bool_opt E 3 false) dist aura = [] ∨
        position ≥ (candidates creature (CHECKVAL_bool_opt E 3 false) dist aura).length →
      LuaCreature.GetAITarget E creature = MethodResult.returned [] 1 ∧
      (LuaCreature.GetAITarget E creature).values = some [LuaValue.nil]) ∧
    (position < (candidates creature (CHECKVAL_bool_opt E 3 false) dist aura).length →
      (targetType = SELECT_TARGET_TOPAGGRO →
        ∃ target, (candidates creature (CHECKVAL_bool_opt E 3 false) dist aura).get? position =
            some target ∧
          LuaCreature.GetAITarget E creature =
            MethodResult.returned [LuaValue.userdata target.id] 1) ∧
      (targetType = SELECT_TARGET_BOTTOMAGGRO →
        ∃ target, (candidates creature (CHECKVAL_bool_opt E 3 false) dist aura).get?
            ((candidates creature (CHECKVAL_bool_opt E 3 false) dist aura).length - 1 -
              position) = some target ∧
          LuaCreature.GetAITarget E creature =
            MethodResult.returned [LuaValue.userdata target.id] 1) ∧
      (targetType = SELECT_TARGET_NEAREST →
        ∃ target, (sortByDistance creature
            (candidates creature (CHECKVAL_bool_opt E 3 false) dist aura)).get? position =
            some target ∧
          LuaCreature.GetAITarget E creature =
            MethodResult.returned [LuaValue.userdata target.id] 1) ∧
      (targetType = SELECT_TARGET_FARTHEST →
        ∃ target, (sortByDistance creature
            (candidates creature (CHECKVAL_bool_opt E 3 false) dist aura)).get?
            ((candidates creature (CHECKVAL_bool_opt E 3 false) dist aura).length - 1 -
              position) = some target ∧
          LuaCreature.GetAITarget E creature =
            MethodResult.returned [LuaValue.userdata target.id] 1)) ∧
    (sortByDistance creature
      (candidates creature (CHECKVAL_bool_opt E 3 false) dist aura)).Perm
      (candidates creature (CHECKVAL_bool_opt E 3 false) dist aura) ∧
    (sortByDistance creature
      (candidates creature (CHECKVAL_bool_opt E 3 false) dist aura)).Sorted
      (fun a b => creature.distance a ≤ creature.distance b) := by
  haveI : IsTotal WorldUnit (fun a b => creature.distance a ≤ creature.distance b) :=
    ⟨fun a b => Nat.le_total _ _⟩
  haveI : IsTrans WorldUnit (fun a b => creature.distance a ≤ creature.distance b) :=
    ⟨fun _ _ _ hab hbc => Nat.le_trans hab hbc⟩
  refine ⟨fun h => ?_, fun h => ⟨fun ht => ?_, fun ht => ?_, fun ht => ?_, fun ht => ?_⟩,
    List.perm_insertionSort _ _, List.sorted_insertionSort _ _⟩
  · have hres : LuaCreature.GetAITarget E creature = MethodResult.returned [] 1 := by
      refine GetAITarget_out_of_range E creature targetType position dist aura h2 h4 h5 h6 ?_
      rcases h with h | h
      · rw [h]; simp
      · omega
    rw [hres]
    exact ⟨rfl, rfl⟩
  · have hlt : position <
        (candidates creature (CHECKVAL_bool_opt E 3 false) dist aura).length := h
    refine ⟨(candidates creature (CHECKVAL_bool_opt E 3 false) dist aura).get ⟨_, hlt⟩,
      List.get?_eq_get hlt, ?_⟩
    rw [GetAITarget_in_range E creature targetType position dist aura h2 h4 h5 h6 h]
    simp only [ht, SELECT_TARGET_TOPAGGRO, SELECT_TARGET_NEAREST, SELECT_TARGET_FARTHEST,
      Nat.reduceEqDiff, OfNat.ofNat_ne_one, or_true, or_false, if_true, if_false,
      OfNat.one_ne_ofNat]
    exact pushDeref_drop _ _ _ (List.get?_eq_get hlt)
  · have hlt : (candidates creature (CHECKVAL_bool_opt E 3 false) dist aura).length - 1 -
        position < (candidates creature (CHECKVAL_bool_opt E 3 false) dist aura).length := by
      omega
    refine ⟨(candidates creature (CHECKVAL_bool_opt E 3 false) dist aura).get ⟨_, hlt⟩,
      List.get?_eq_get hlt, ?_⟩
    rw [GetAITarget_in_range E creature targetType position dist aura h2 h4 h5 h6 h]
    have e1 : ¬ (targetType = SELECT_TARGET_NEAREST ∨
        targetType = SELECT_TARGET_TOPAGGRO) := by
      rw [ht]; decide
    have e2 : ¬ (targetType = SELECT_TARGET_NEAREST ∨
        targetType = SELECT_TARGET_FARTHEST) := by
      rw [ht]; decide
    simp only [e1, e2, if_false, ht, or_true, if_true]
    refine pushDeref_drop _ _ _ ?_
    rw [List.get?_eq_getElem?, List.getElem?_reverse (by simpa using h),
      ← List.get?_eq_getElem?]
    exact List.get?_eq_get hlt
  · have hlt : position < (sortByDistance creature
        (candidates creature (CHECKVAL_bool_opt E 3 false) dist aura)).length := by
      rw [sortByDistance_length]; exact h
    refine ⟨(sortByDistance creature
      (candidates creature (CHECKVAL_bool_opt E 3 false) dist aura)).get ⟨_, hlt⟩,
      List.get?_eq_get hlt, ?_⟩
    rw [GetAITarget_in_range E creature targetType position dist aura h2 h4 h5 h6 h]
    simp only [ht, true_or, if_true]
    exact pushDeref_drop _ _ _ (List.get?_eq_get hlt)
  · have hlen := sortByDistance_length creature
      (candidates creature (CHECKVAL_bool_opt E 3 false) dist aura)
    have hlt : (sortByDistance creature
        (candidates creature (CHECKVAL_bool_opt E 3 false) dist aura)).length - 1 - position <
        (sortByDistance creature
          (candidates creature (CHECKVAL_bool_opt E 3 false) dist aura)).length := by omega
    refine ⟨(sortByDistance creature
      (candidates creature (CHECKVAL_bool_opt E 3 false) dist aura)).get ⟨_, hlt⟩,
      by rw [← hlen]; exact List.get?_eq_get hlt, ?_⟩
    rw [GetAITarget_in_range E creature targetType position dist aura h2 h4 h5 h6 h]
    have e1 : ¬ (targetType = SELECT_TARGET_NEAREST ∨
        targetType = SELECT_TARGET_TOPAGGRO) := by
      rw [ht]; decide
    simp only [e1, if_false, ht, or_true, true_or, if_true]
    refine pushDeref_drop _ _ _ ?_
    rw [List.get?_eq_getElem?, List.getElem?_reverse (by rw [hlen]; exact h),
      ← List.get?_eq_getElem?]
    exact List.get?_eq_get hlt

theorem GetAITarget_offset_witness :
    (∃ target, (candidates exampleThreat
          (CHECKVAL_bool_opt (methodCall [LuaValue.number 2, LuaValue.nil, LuaValue.number 1])
            3 false) 0 0).get? (7 - 1 - 1) = some target ∧
      LuaCreature.GetAITarget (methodCall [LuaValue.number 2, LuaValue.nil, LuaValue.number 1])
        exampleThreat = MethodResult.returned [LuaValue.userdata target.id] 1) ∧
    LuaCreature.GetAITarget (methodCall [LuaValue.number 2, LuaValue.nil, LuaValue.number 1])
      exampleThreat = MethodResult.returned [LuaValue.userdata 6] 1 ∧
    LuaCreature.GetAITarget (methodCall [LuaValue.number 1, LuaValue.nil, LuaValue.number 7])
      exampleThreat = MethodResult.returned [] 1 ∧
    LuaCreature.GetAITarget
        (methodCall [LuaValue.number 1, LuaValue.nil, LuaValue.number 4294967296])
        exampleThreat = MethodResult.argerror 4 "uint32" ∧
    LuaCreature.GetAITarget (methodCall []) exampleThreat = MethodResult.argerror 2 "uint32" :=
  ⟨((GetAITarget_offset (methodCall [LuaValue.number 2, LuaValue.nil, LuaValue.number 1])
      exampleThreat 2 1 0 0 (by decide) (by decide) (by decide) (by decide)).2.1
      (by decide)).2.1 (by decide),
    by decide,
    ((GetAITarget_offset (methodCall [LuaValue.number 1, LuaValue.nil, LuaValue.number 7])
      exampleThreat 1 7 0 0 (by decide) (by decide) (by decide) (by decide)).1
      (Or.inr (by decide))).1,
    by decide, by decide⟩

theorem filter_chain (a b c d e f g h i j : Bool) (R : List WorldUnit) (target : WorldUnit) :
    (if (a && !b) = true then R
      else if (c && !d) = true then R
      else if (e && f) = true then R
      else if (g && !h) = true then R
      else if (i && j) = true then R
      else target :: R) =
    if ((!a || b) && (!c || d) && (!e || !f) && (!g || h) && (!i || !j)) = true then target :: R
    else R := by
  cases a <;> cases b <;> cases c <;> cases d <;> cases e <;> cases f <;> cases g <;>
    cases h <;> cases i <;> cases j <;> rfl

theorem filters_iff (a b c d e f g h i j : Bool) :
    ((!a || b) && (!c || d) && (!e || !f) && (!g || h) && (!i || !j)) = true ↔
      ((a = true → b = true) ∧ (c = true → d = true) ∧ (e = true → f = false) ∧
        (g = true → h = true) ∧ (i = true → j = false)) := by
  cases a <;> cases b <;> cases c <;> cases d <;> cases e <;> cases f <;> cases g <;>
    cases h <;> cases i <;> cases j <;> decide

theorem collectTargets_eq_filter (creature : ThreatCreature) (playerOnly : Bool)
    (dist aura : Int) (threatlist : List ThreatReference) :
    LuaCreature.collectTargets creature playerOnly dist aura threatlist =
      (threatlist.filterMap ThreatReference.GetVictim).filter
        (passesFilters creature playerOnly dist aura) := by
  induction threatlist with
  | nil => rfl
  | cons itr rest ih =>
    cases hv : itr.GetVictim with
    | none => simp [LuaCreature.collectTargets, hv, ih, List.filterMap_cons]
    | some target =>
      simp only [LuaCreature.collectTargets, hv, ih, List.filterMap_cons, List.filter_cons]
      unfold passesFilters
      have hb : (target.GetTypeId != TypeID.TYPEID_PLAYER) =
          !(target.GetTypeId == TypeID.TYPEID_PLAYER) := rfl
      rw [hb]
      exact filter_chain _ _ _ _ _ _ _ _ _ _ _ _

theorem GetAITarget_farthest (E : Eluna) (creature : ThreatCreature)
    (position : Nat) (dist aura : Int)
    (h2 : CHECKVAL_uint32 E 2 = Checked.ok SELECT_TARGET_FARTHEST)
    (h4 : CHECKVAL_uint32_opt E 4 0 = Checked.ok position)
    (h5 : CHECKVAL_float_opt E 5 0 = Checked.ok dist)
    (h6 : CHECKVAL_int32_opt E 6 0 = Checked.ok aura)
    (h : position < (candidates creature (CHECKVAL_bool_opt E 3 false) dist aura).length) :
    ∃ target, (sortByDistance creature
        (candidates creature (CHECKVAL_bool_opt E 3 false) dist aura)).reverse.get? position =
        some target ∧
      LuaCreature.GetAITarget E creature =
        MethodResult.returned [LuaValue.userdata target.id] 1 := by
  have hlt : position < (sortByDistance creature
      (candidates creature (CHECKVAL_bool_opt E 3 false) dist aura)).reverse.length := by
    rw [List.length_reverse, sortByDistance_length]; exact h
  refine ⟨(sortByDistance creature
    (candidates creature (CHECKVAL_bool_opt E 3 false) dist aura)).reverse.get ⟨_, hlt⟩,
    List.get?_eq_get hlt, ?_⟩
  rw [GetAITarget_in_range E creature _ position dist aura h2 h4 h5 h6 h]
  have e1 : ¬ (SELECT_TARGET_FARTHEST = SELECT_TARGET_NEAREST ∨
      SELECT_TARGET_FARTHEST = SELECT_TARGET_TOPAGGRO) := by
    decide
  simp only [e1, if_false, or_true, true_or, if_true]
  exact pushDeref_drop _ _ _ (List.get?_eq_get hlt)

/-- C17: what the documented call `GetAITarget(4, true, 3, 50, 24328)` does.
Its candidates are the players of the threat list that are within 50 yards and
have aura 24328, and it returns the entry at offset 3, counted from 0, of
these candidates ordered from farthest to nearest: the fourth-farthest, not
the third-farthest the example of the documentation announces.  With three
candidates or fewer it yields no target.  The third-farthest is what the same
call with position 2 returns. -/
theorem documented_example (creature : ThreatCreature) :
    candidates creature true 50 24328 =
      (creature.threatlist.filterMap ThreatReference.GetVictim).filter
        (fun target => target.GetTypeId == TypeID.TYPEID_PLAYER && target.HasAura 24328 &&
          creature.IsWithinDist target 50) ∧
    (3 < (candidates creature true 50 24328).length →
      ∃ target, (sortByDistance creature (candidates creature true 50 24328)).reverse.get? 3 =
          some target ∧
        LuaCreature.GetAITarget (methodCall [LuaValue.number 4, LuaValue.boolean true,
          LuaValue.number 3, LuaValue.number 50, LuaValue.number 24328]) creature =
          MethodResult.returned [LuaValue.userdata target.id] 1) ∧
    ((candidates creature true 50 24328).length ≤ 3 →
      LuaCreature.GetAITarget (methodCall [LuaValue.number 4, LuaValue.boolean true,
        LuaValue.number 3, LuaValue.number 50, LuaValue.number 24328]) creature =
        MethodResult.returned [] 1) ∧
    (2 < (candidates creature true 50 24328).length →
      ∃ target, (sortByDistance creature (candidates creature true 50 24328)).reverse.get? 2 =
          some target ∧
        LuaCreature.GetAITarget (methodCall [LuaValue.number 4, LuaValue.boolean true,
          LuaValue.number 2, LuaValue.number 50, LuaValue.number 24328]) creature =
          MethodResult.returned [LuaValue.userdata target.id] 1) := by
  refine ⟨?_, fun h => ?_, fun h => ?_, fun h => ?_⟩
  · unfold candidates
    rw [collectTargets_eq_filter]
    congr 1
    funext target
    simp [passesFilters]
  · exact GetAITarget_farthest (methodCall [LuaValue.number 4, LuaValue.boolean true,
      LuaValue.number 3, LuaValue.number 50, LuaValue.number 24328]) creature 3 50 24328
      (by decide) (by decide) (by decide) (by decide) h
  · exact GetAITarget_out_of_range (methodCall [LuaValue.number 4, LuaValue.boolean true,
      LuaValue.number 3, LuaValue.number 50, LuaValue.number 24328]) creature 4 3 50 24328
      (by decide) (by decide) (by decide) (by decide) (Nat.not_lt.2 h)
  · exact GetAITarget_farthest (methodCall [LuaValue.number 4, LuaValue.boolean true,
      LuaValue.number 2, LuaValue.number 50, LuaValue.number 24328]) creature 2 50 24328
      (by decide) (by decide) (by decide) (by decide) h

theorem documented_example_witness :
    (sortByDistance exampleThreat (candidates exampleThreat true 50 24328)).reverse.map
      WorldUnit.id = [1, 4, 5, 2] ∧
    LuaCreature.GetAITarget (methodCall [LuaValue.number 4, LuaValue.boolean true,
        LuaValue.number 3, LuaValue.number 50, LuaValue.number 24328]) exampleThreat =
      MethodResult.returned [LuaValue.userdata 2] 1 ∧
    LuaCreature.GetAITarget (methodCall [LuaValue.number 4, LuaValue.boolean true,
        LuaValue.number 3, LuaValue.number 50, LuaValue.number 24328]) exampleThreat ≠
      MethodResult.returned [LuaValue.userdata 5] 1 ∧
    LuaCreature.GetAITarget (methodCall [LuaValue.number 4, LuaValue.boolean true,
        LuaValue.number 2, LuaValue.number 50, LuaValue.number 24328]) exampleThreat =
      MethodResult.returned [LuaValue.userdata 5] 1 ∧
    (∃ target, (sortByDistance exampleThreat
        (candidates exampleThreat true 50 24328)).reverse.get? 3 = some target ∧
      LuaCreature.GetAITarget (methodCall [LuaValue.number 4, LuaValue.boolean true,
        LuaValue.number 3, LuaValue.number 50, LuaValue.number 24328]) exampleThreat =
        MethodResult.returned [LuaValue.userdata target.id] 1) ∧
    (∃ target, (sortByDistance exampleThreat
        (candidates exampleThreat true 50 24328)).reverse.get? 2 = some target ∧
      LuaCreature.GetAITarget (methodCall [LuaValue.number 4, LuaValue.boolean true,
        LuaValue.number 2, LuaValue.number 50, LuaValue.number 24328]) exampleThreat =
        MethodResult.returned [LuaValue.userdata target.id] 1) :=
  ⟨by decide, by decide, by decide, by decide,
    (documented_example exampleThreat).2.1 (by decide),
    (documented_example exampleThreat).2.2.2 (by decide)⟩

/-- C18: the candidate list `GetAITarget` builds is the threat list, in its
order, restricted to the non-null victims that pass every filter: a player
when `playerOnly` is set; having the aura when aura is positive and not
having aura -aura when it is negative; within the distance when distance is
positive and not within -distance when it is negative.  With `playerOnly`
false, aura 0 and distance 0 every non-null victim is a candidate. -/
theorem candidate_list (creature : ThreatCreature) (playerOnly : Bool) (dist aura : Int) :
    (LuaCreature.collectTargets creature playerOnly dist aura creature.threatlist =
      (creature.threatlist.filterMap ThreatReference.GetVictim).filter
        (passesFilters creature playerOnly dist aura)) ∧
    (∀ E : Eluna, CHECKVAL_float_opt E 5 0 = Checked.ok dist →
      CHECKVAL_int32_opt E 6 0 = Checked.ok aura →
      candidates creature (CHECKVAL_bool_opt E 3 false) dist aura =
        (creature.threatlist.filterMap ThreatReference.GetVictim).filter
          (passesFilters creature (CHECKVAL_bool_opt E 3 false) dist aura)) ∧
    (∀ target, passesFilters creature playerOnly dist aura target = true ↔
      ((playerOnly = true → target.GetTypeId = TypeID.TYPEID_PLAYER) ∧
        (aura > 0 → target.HasAura aura.toNat = true) ∧
        (aura < 0 → target.HasAura (-aura).toNat = false) ∧
        (dist > 0 → creature.IsWithinDist target dist = true) ∧
        (dist < 0 → creature.IsWithinDist target (-dist) = false))) ∧
    (LuaCreature.collectTargets creature false 0 0 creature.threatlist =
      creature.threatlist.filterMap ThreatReference.GetVictim) := by
  refine ⟨collectTargets_eq_filter _ _ _ _ _, fun E _ _ => collectTargets_eq_filter _ _ _ _ _,
    fun target => ?_, ?_⟩
  · unfold passesFilters
    rw [filters_iff]
    simp
  · rw [collectTargets_eq_filter]
    have : passesFilters creature false 0 0 = fun _ => true := by
      funext target
      simp [passesFilters]
    rw [this, List.filter_true]

theorem candidate_list_witness :
    (candidates exampleThreat
      (CHECKVAL_bool_opt (methodCall [LuaValue.number 1, LuaValue.boolean true,
        LuaValue.number 0, LuaValue.number (-20), LuaValue.number 24328]) 3 false)
      (-20) 24328).map WorldUnit.id = [1, 4, 7] :=
  (candidate_list exampleThreat false (-20) 24328).2.1
    (methodCall [LuaValue.number 1, LuaValue.boolean true, LuaValue.number 0,
      LuaValue.number (-20), LuaValue.number 24328]) (by decide) (by decide) ▸ by decide

theorem GetAITarget_random (E : Eluna) (creature : ThreatCreature)
    (position : Nat) (dist aura : Int)
    (h2 : CHECKVAL_uint32 E 2 = Checked.ok SELECT_TARGET_RANDOM)
    (h4 : CHECKVAL_uint32_opt E 4 0 = Checked.ok position)
    (h5 : CHECKVAL_float_opt E 5 0 = Checked.ok dist)
    (h6 : CHECKVAL_int32_opt E 6 0 = Checked.ok aura)
    (hp : 0 < position)
    (h : position < (candidates creature (CHECKVAL_bool_opt E 3 false) dist aura).length)
    (hr : creature.urand 0 position ≤ position) :
    ∃ target, (candidates creature (CHECKVAL_bool_opt E 3 false) dist aura).get?
        (creature.urand 0 position) = some target ∧
      LuaCreature.GetAITarget E creature =
        MethodResult.returned [LuaValue.userdata target.id] 1 := by
  have hlt : creature.urand 0 position <
      (candidates creature (CHECKVAL_bool_opt E 3 false) dist aura).length :=
    Nat.lt_of_le_of_lt hr h
  refine ⟨(candidates creature (CHECKVAL_bool_opt E 3 false) dist aura).get ⟨_, hlt⟩,
    List.get?_eq_get hlt, ?_⟩
  rw [GetAITarget_in_range E creature _ position dist aura h2 h4 h5 h6 h]
  have hne : position ≠ 0 := Nat.pos_iff_ne_zero.1 hp
  have e1 : ¬ (SELECT_TARGET_RANDOM = SELECT_TARGET_NEAREST ∨
      SELECT_TARGET_RANDOM = SELECT_TARGET_TOPAGGRO) := by
    decide
  have e2 : ¬ (SELECT_TARGET_RANDOM = SELECT_TARGET_FARTHEST ∨
      SELECT_TARGET_RANDOM = SELECT_TARGET_BOTTOMAGGRO) := by
    decide
  rw [if_neg e1, if_neg e2, if_pos rfl, if_pos hne]
  unfold LuaCreature.pushDeref
  rw [List.head?_drop, List.getElem?_eq_getElem hlt]
  rfl

/-- C19: what `Creature:GetAITarget` does with targetType RANDOM and a position
p > 0 below the number of candidates.  It advances by `urand(0, p)`, a draw with
both bounds included, so it returns one of the first p + 1 candidates; when
the draw is p it returns the candidate at offset p, which is not one of the
first p. -/
theorem random_selection (E : Eluna) (creature : ThreatCreature)
    (position : Nat) (dist aura : Int)
    (h2 : CHECKVAL_uint32 E 2 = Checked.ok SELECT_TARGET_RANDOM)
    (h4 : CHECKVAL_uint32_opt E 4 0 = Checked.ok position)
    (h5 : CHECKVAL_float_opt E 5 0 = Checked.ok dist)
    (h6 : CHECKVAL_int32_opt E 6 0 = Checked.ok aura)
    (hp : 0 < position)
    (h : position < (candidates creature (CHECKVAL_bool_opt E 3 false) dist aura).length)
    (hr : creature.urand 0 position ≤ position) :
    (∃ target, target ∈ (candidates creature (CHECKVAL_bool_opt E 3 false) dist aura).take
        (position + 1) ∧
      LuaCreature.GetAITarget E creature =
        MethodResult.returned [LuaValue.userdata target.id] 1) ∧
    (creature.urand 0 position = position →
      ∃ target, (candidates creature (CHECKVAL_bool_opt E 3 false) dist aura).get? position =
          some target ∧
        LuaCreature.GetAITarget E creature =
          MethodResult.returned [LuaValue.userdata target.id] 1) := by
  obtain ⟨target, hget, hres⟩ := GetAITarget_random E creature position dist aura h2 h4 h5 h6
    hp h hr
  refine ⟨⟨target, ?_, hres⟩, fun heq => ⟨target, by rw [← heq]; exact hget, hres⟩⟩
  rw [List.mem_iff_get?]
  refine ⟨creature.urand 0 position, ?_⟩
  rw [List.get?_eq_getElem?, List.getElem?_take_of_lt (by omega), ← List.get?_eq_getElem?]
  exact hget

theorem random_selection_witness :
    (candidates exampleThreat
      (CHECKVAL_bool_opt (methodCall [LuaValue.number 0, LuaValue.nil, LuaValue.number 2])
        3 false) 0 0).map WorldUnit.id = [1, 2, 3, 4, 5, 6, 7] ∧
    exampleThreat.urand 0 2 = 2 ∧
    (∃ target, (candidates exampleThreat
        (CHECKVAL_bool_opt (methodCall [LuaValue.number 0, LuaValue.nil, LuaValue.number 2])
          3 false) 0 0).get? 2 = some target ∧
      LuaCreature.GetAITarget (methodCall [LuaValue.number 0, LuaValue.nil, LuaValue.number 2])
        exampleThreat = MethodResult.returned [LuaValue.userdata target.id] 1) ∧
    LuaCreature.GetAITarget (methodCall [LuaValue.number 0, LuaValue.nil, LuaValue.number 2])
      exampleThreat = MethodResult.returned [LuaValue.userdata 3] 1 :=
  ⟨by decide, by decide,
    (random_selection (methodCall [LuaValue.number 0, LuaValue.nil, LuaValue.number 2])
      exampleThreat 2 0 0 (by decide) (by decide) (by decide) (by decide) (by decide)
      (by decide) (by decide)).2 (by decide),
    by decide⟩

/-- C20: what `Creature:AddThreat` reads.  The spell comes from stack index 4,
the third parameter, where the documentation puts schoolMask, and the fourth
parameter at index 5 is never read; an omitted threat is not an error but
reads as 1, the default `true` handed to `CHECKVAL<float>`. -/
theorem AddThreat_reads (E : Eluna) (creature : ThreatCreature) (victim : Nat)
    (threat : Int) (spell : Nat)
    (hv : lua_index E 2 = LuaValue.userdata victim)
    (h3 : CHECKVAL_float_opt E 3 1 = Checked.ok threat)
    (h4 : CHECKVAL_uint32_opt E 4 0 = Checked.ok spell) :
    (LuaCreature.AddThreat E creature).1 =
      some ⟨victim, threat,
        if spell ≠ 0 then creature.GetSpellInfo spell else none, true, true⟩ ∧
    (lua_index E 3 = LuaValue.nil →
      (LuaCreature.AddThreat E creature).2 = MethodResult.returned [] 0 ∧
      ∃ call, (LuaCreature.AddThreat E creature).1 = some call ∧ call.threat = 1) ∧
    (∀ E2 : Eluna, E2.L.take 4 = E.L.take 4 →
      LuaCreature.AddThreat E2 creature = LuaCreature.AddThreat E creature) := by
  have hobj : CHECKOBJ E 2 = some victim := by simp [CHECKOBJ, hv]
  refine ⟨by simp [LuaCreature.AddThreat, hobj, h3, h4], fun hnil => ?_, fun E2 hL => ?_⟩
  · have ht : threat = 1 := by
      simp only [CHECKVAL_float_opt, hnil] at h3
      cases h3
      rfl
    subst ht
    simp [LuaCreature.AddThreat, hobj, h3, h4]
  · have hidx : ∀ k, k < 4 → lua_index E2 (k + 1) = lua_index E (k + 1) := by
      intro k hk
      simp only [lua_index]
      have h1 : (E2.L.take 4).get? k = (E.L.take 4).get? k := by rw [hL]
      simp only [List.get?_eq_getElem?, List.getElem?_take_of_lt hk] at h1
      simp only [List.get?_eq_getElem?, h1]
    have e2 := hidx 1 (by decide)
    have e3 := hidx 2 (by decide)
    have e4 := hidx 3 (by decide)
    simp only [LuaCreature.AddThreat, CHECKOBJ, CHECKVAL_float_opt, CHECKVAL_uint32_opt,
      CHECKVAL_uint32]
    rw [e2, e3, e4]

theorem AddThreat_reads_witness :
    (LuaCreature.AddThreat
        (methodCall [LuaValue.userdata 9, LuaValue.number 10, LuaValue.number 0,
          LuaValue.number 133]) exampleThreat).1 = some ⟨9, 10, none, true, true⟩ ∧
    (LuaCreature.AddThreat (methodCall [LuaValue.userdata 9]) exampleThreat) =
      (some ⟨9, 1, none, true, true⟩, MethodResult.returned [] 0) ∧
    (LuaCreature.AddThreat
        (methodCall [LuaValue.userdata 9, LuaValue.number 10, LuaValue.number 133])
        exampleThreat).1 = some ⟨9, 10, some ⟨133⟩, true, true⟩ :=
  ⟨(AddThreat_reads (methodCall [LuaValue.userdata 9, LuaValue.number 10, LuaValue.number 0,
      LuaValue.number 133]) exampleThreat 9 10 0 rfl (by decide) (by decide)).1.trans
      (by decide),
    by decide, by decide⟩

/-! ## The table of `GetAITargets` -/

theorem lua_rawseti_Push (pre : List StackSlot) (t : LuaTable) (target : WorldUnit) (n : Nat) :
    TableStack.lua_rawseti (TableStack.Push (pre ++ [StackSlot.table t]) target) (pre.length + 1) n =
      pre ++ [StackSlot.table (t.rawseti n (LuaValue.userdata target.id))] := by
  unfold TableStack.lua_rawseti TableStack.Push
  simp [List.getLast?_append, List.dropLast_append, List.getElem?_append_right]

theorem rawseti_fresh (t : LuaTable) (n id : Nat) (h : ∀ e ∈ t.entries, e.1 < n) :
    t.rawseti n (LuaValue.userdata id) = ⟨t.entries ++ [(n, LuaValue.userdata id)]⟩ := by
  unfold LuaTable.rawseti
  have hf : t.entries.filter (fun e => e.1 != n) = t.entries := by
    rw [List.filter_eq_self]
    intro e he
    have := h e he
    simp; omega
  simp [hf]

theorem GetAITargets_loop_spec (rest : List ThreatReference) :
    ∀ (pre : List StackSlot) (t : LuaTable) (i : Nat),
      (∀ e ∈ t.entries, e.1 ≤ i) →
      i + (rest.filterMap ThreatReference.GetVictim).length < 2 ^ 32 →
      LuaCreature.GetAITargets_loop rest (pre ++ [StackSlot.table t]) (pre.length + 1) i =
        (pre ++ [StackSlot.table ⟨t.entries ++
            (List.range' (i + 1) (rest.filterMap ThreatReference.GetVictim).length).zip
              ((rest.filterMap ThreatReference.GetVictim).map (fun u => LuaValue.userdata u.id))⟩],
          i + (rest.filterMap ThreatReference.GetVictim).length) := by
  induction rest with
  | nil => intro pre t i _ _; simp [LuaCreature.GetAITargets_loop]
  | cons itr rest ih =>
    intro pre t i hk hi
    unfold LuaCreature.GetAITargets_loop
    cases hv : itr.GetVictim with
    | none =>
      simp only [List.filterMap_cons, hv] at hi ⊢
      exact ih pre t i hk hi
    | some target =>
      simp only [List.filterMap_cons, hv, List.length_cons] at hi ⊢
      have hmod : (i + 1) % 2 ^ 32 = i + 1 := Nat.mod_eq_of_lt (by omega)
      rw [hmod, lua_rawseti_Push, rawseti_fresh t (i + 1) target.id (fun e he => by have := hk e he; omega)]
      rw [ih pre _ (i + 1) (by
        intro e he
        simp only [List.mem_append, List.mem_singleton] at he
        rcases he with he | he
        · have := hk e he; omega
        · subst he; exact Nat.le_refl _) (by omega)]
      simp [List.range'_succ, Nat.add_assoc, Nat.add_comm 1]

theorem rawgeti_zip (vals : List LuaValue) :
    ∀ s n : Nat, (LuaTable.mk ((List.range' s vals.length).zip vals)).rawgeti n =
      if s ≤ n then (vals.get? (n - s)).getD LuaValue.nil else LuaValue.nil := by
  induction vals with
  | nil => intro s n; simp [LuaTable.rawgeti]
  | cons v vs ih =>
    intro s n
    have ih1 := ih (s + 1) n
    unfold LuaTable.rawgeti at ih1 ⊢
    simp only [List.length_cons, List.range'_succ, List.zip_cons_cons, List.find?_cons]
    by_cases hsn : s = n
    · subst hsn
      simp
    · have hb : (s == n) = false := by simpa using hsn
      simp only [hb]
      rw [ih1]
      by_cases hle : s + 1 ≤ n
      · have h1 : s ≤ n := by omega
        have h2 : n - s = (n - (s + 1)) + 1 := by omega
        rw [if_pos hle, if_pos h1, h2]
        simp
      · have h1 : ¬ s ≤ n := by omega
        rw [if_neg hle, if_neg h1]

theorem filter_victim_length (l : List ThreatReference) :
    (l.filter (fun itr => itr.GetVictim.isSome)).length =
      (l.filterMap ThreatReference.GetVictim).length := by
  induction l with
  | nil => rfl
  | cons itr rest ih =>
    cases hv : itr.GetVictim <;> simp [List.filter_cons, List.filterMap_cons, hv, ih]

theorem GetAITargets_eq (L : List StackSlot) (creature : ThreatCreature)
    (hsize : creature.threatlist.length < 2 ^ 32) :
    LuaCreature.GetAITargets L creature =
      (L ++ [StackSlot.table ⟨(List.range' 1
            (creature.threatlist.filterMap ThreatReference.GetVictim).length).zip
          ((creature.threatlist.filterMap ThreatReference.GetVictim).map
            (fun u => LuaValue.userdata u.id))⟩], 1) := by
  have hle := List.length_filterMap_le ThreatReference.GetVictim creature.threatlist
  have h := GetAITargets_loop_spec creature.threatlist L ⟨[]⟩ 0 (by simp) (by omega)
  unfold LuaCreature.GetAITargets TableStack.lua_createtable TableStack.lua_gettop
    TableStack.lua_settop
  simp only [List.length_append, List.length_singleton]
  rw [h]
  simp

/-- C21: on a threat list of fewer than 2^32 entries `Creature:GetAITargets`
returns one value, a new table left on top of the stack it was called with.
The keys of the table are exactly the consecutive integers 1..k, k being the
number of threat-list entries with a non-null victim, and the value at key i is
the i-th non-null victim in threat-list order: null victims leave no gap. -/
theorem GetAITargets_table (L : List StackSlot) (creature : ThreatCreature)
    (hsize : creature.threatlist.length < 2 ^ 32) :
    ∃ t : LuaTable,
      LuaCreature.GetAITargets L creature = (L ++ [StackSlot.table t], 1) ∧
      (LuaCreature.GetAITargets L creature).1.getLast? = some (StackSlot.table t) ∧
      t.entries.map Prod.fst =
        List.range' 1 (creature.threatlist.filter (fun itr => itr.GetVictim.isSome)).length ∧
      t.entries.map Prod.snd =
        (creature.threatlist.filterMap ThreatReference.GetVictim).map
          (fun u => LuaValue.userdata u.id) ∧
      (∀ n, t.rawgeti n ≠ LuaValue.nil ↔
        1 ≤ n ∧ n ≤ (creature.threatlist.filter (fun itr => itr.GetVictim.isSome)).length) ∧
      ∀ (i : Nat) (u : WorldUnit),
        (creature.threatlist.filterMap ThreatReference.GetVictim).get? i = some u →
        t.rawgeti (i + 1) = LuaValue.userdata u.id := by
  have hk := filter_victim_length creature.threatlist
  have heq := GetAITargets_eq L creature hsize
  have hlen : ((creature.threatlist.filterMap ThreatReference.GetVictim).map
      (fun u => LuaValue.userdata u.id)).length =
      (creature.threatlist.filterMap ThreatReference.GetVictim).length := List.length_map _ _
  refine ⟨_, heq, ?_, ?_, ?_, ?_, ?_⟩
  · rw [heq]; simp
  · rw [hk, List.map_fst_zip]
    rw [List.length_range', hlen]
  · rw [List.map_snd_zip]
    rw [List.length_range', hlen]
  · intro n
    rw [hk]
    have h := rawgeti_zip ((creature.threatlist.filterMap ThreatReference.GetVictim).map
      (fun u => LuaValue.userdata u.id)) 1 n
    rw [hlen] at h
    rw [h]
    by_cases h1 : 1 ≤ n
    · rw [if_pos h1]
      by_cases h2 : n - 1 < (creature.threatlist.filterMap ThreatReference.GetVictim).length
      · have h3 : n ≤ (creature.threatlist.filterMap ThreatReference.GetVictim).length := by omega
        simp [List.getElem?_eq_getElem, h2, h1, h3]
      · have h3 : ¬ n ≤ (creature.threatlist.filterMap ThreatReference.GetVictim).length := by omega
        have h4 : (creature.threatlist.filterMap ThreatReference.GetVictim).length ≤ n - 1 := by omega
        simp [List.getElem?_eq_none, h4, h3]
    · rw [if_neg h1]
      simp [h1]
  · intro i u hu
    have h := rawgeti_zip ((creature.threatlist.filterMap ThreatReference.GetVictim).map
      (fun u => LuaValue.userdata u.id)) 1 (i + 1)
    rw [hlen] at h
    rw [h]
    simp only [List.get?_eq_getElem?] at hu
    simp [hu]

theorem GetAITargets_table_witness :
    exampleThreat.threatlist.length < 2 ^ 32 ∧
    LuaCreature.GetAITargets [StackSlot.value (LuaValue.userdata 0)] exampleThreat =
      ([StackSlot.value (LuaValue.userdata 0),
        StackSlot.table ⟨[(1, LuaValue.userdata 1), (2, LuaValue.userdata 2),
          (3, LuaValue.userdata 3), (4, LuaValue.userdata 4), (5, LuaValue.userdata 5),
          (6, LuaValue.userdata 6), (7, LuaValue.userdata 7)]⟩], 1) ∧
    ∃ t : LuaTable,
      LuaCreature.GetAITargets [StackSlot.value (LuaValue.userdata 0)] exampleThreat =
        ([StackSlot.value (LuaValue.userdata 0)] ++ [StackSlot.table t], 1) ∧
      (LuaCreature.GetAITargets [StackSlot.value (LuaValue.userdata 0)] exampleThreat).1.getLast? =
        some (StackSlot.table t) ∧
      t.entries.map Prod.fst =
        List.range' 1 (exampleThreat.threatlist.filter (fun itr => itr.GetVictim.isSome)).length ∧
      t.entries.map Prod.snd =
        (exampleThreat.threatlist.filterMap ThreatReference.GetVictim).map
          (fun u => LuaValue.userdata u.id) ∧
      (∀ n, t.rawgeti n ≠ LuaValue.nil ↔
        1 ≤ n ∧ n ≤ (exampleThreat.threatlist.filter (fun itr => itr.GetVictim.isSome)).length) ∧
      ∀ (i : Nat) (u : WorldUnit),
        (exampleThreat.threatlist.filterMap ThreatReference.GetVictim).get? i = some u →
        t.rawgeti (i + 1) = LuaValue.userdata u.id :=
  ⟨by decide, by decide,
    GetAITargets_table [StackSlot.value (LuaValue.userdata 0)] exampleThreat (by decide)⟩

/-- C22: for a targetType outside 0..4 `Creature:GetAITarget` signals the
argument error for argument index 2, "SelectAggroTarget expected", only when
the position is smaller than the number of candidates that pass the filters.
When the candidate list is empty or the position is not smaller than its
length, the thunk returns nil before it looks at the targetType and signals no
error. -/
theorem GetAITarget_invalid_type (E : Eluna) (creature : ThreatCreature)
    (targetType position : Nat) (dist aura : Int)
    (h2 : CHECKVAL_uint32 E 2 = Checked.ok targetType)
    (h4 : CHECKVAL_uint32_opt E 4 0 = Checked.ok position)
    (h5 : CHECKVAL_float_opt E 5 0 = Checked.ok dist)
    (h6 : CHECKVAL_int32_opt E 6 0 = Checked.ok aura)
    (htype : 4 < targetType) :
    LuaCreature.GetAITarget E creature =
      if position < (candidates creature (CHECKVAL_bool_opt E 3 false) dist aura).length then
        MethodResult.argerror 2 "SelectAggroTarget expected"
      else MethodResult.returned [] 1 := by
  by_cases h : position < (candidates creature (CHECKVAL_bool_opt E 3 false) dist aura).length
  · rw [if_pos h, GetAITarget_in_range E creature targetType position dist aura h2 h4 h5 h6 h]
    have h0 : targetType ≠ SELECT_TARGET_RANDOM := by
      unfold SELECT_TARGET_RANDOM; omega
    have h1 : targetType ≠ SELECT_TARGET_TOPAGGRO := by
      unfold SELECT_TARGET_TOPAGGRO; omega
    have h2 : targetType ≠ SELECT_TARGET_BOTTOMAGGRO := by
      unfold SELECT_TARGET_BOTTOMAGGRO; omega
    have h3 : targetType ≠ SELECT_TARGET_NEAREST := by
      unfold SELECT_TARGET_NEAREST; omega
    have h4 : targetType ≠ SELECT_TARGET_FARTHEST := by
      unfold SELECT_TARGET_FARTHEST; omega
    rw [if_neg (by rintro (e | e) <;> contradiction),
      if_neg (by rintro (e | e) <;> contradiction), if_neg h0]
  · rw [if_neg h,
      GetAITarget_out_of_range E creature targetType position dist aura h2 h4 h5 h6 h]

theorem GetAITarget_invalid_type_witness :
    CHECKVAL_uint32 (methodCall [LuaValue.number 9, LuaValue.nil, LuaValue.number 50]) 2 =
      Checked.ok 9 ∧
    LuaCreature.GetAITarget
        (methodCall [LuaValue.number 9, LuaValue.nil, LuaValue.number 50]) exampleThreat =
      MethodResult.returned [] 1 ∧
    LuaCreature.GetAITarget (methodCall [LuaValue.number 9])
        { exampleThreat with threatlist := [] } = MethodResult.returned [] 1 ∧
    LuaCreature.GetAITarget (methodCall [LuaValue.number 9]) exampleThreat =
      MethodResult.argerror 2 "SelectAggroTarget expected" ∧
    LuaCreature.GetAITarget
        (methodCall [LuaValue.number 9, LuaValue.nil, LuaValue.number 50]) exampleThreat =
      (if 50 < (candidates exampleThreat
            (CHECKVAL_bool_opt (methodCall [LuaValue.number 9, LuaValue.nil,
              LuaValue.number 50]) 3 false) 0 0).length then
        MethodResult.argerror 2 "SelectAggroTarget expected"
      else MethodResult.returned [] 1) :=
  ⟨by decide, by decide, by decide, by decide,
    GetAITarget_invalid_type
      (methodCall [LuaValue.number 9, LuaValue.nil, LuaValue.number 50]) exampleThreat
      9 50 0 0 (by decide) (by decide) (by decide) (by decide) (by decide)⟩

end Eluna
